import Mathlib

/-!
# calyptia/cloud-cli: key resolution, completion keys and core-instance provisioning

A shallow embedding of the parts of the command-line client that carry logic:

* `aggregatorsKeys` / `agentsKeys` (`cmd/calyptia/get_aggregator.go`,
  `cmd/calyptia/get_agent.go`): the shell-completion candidates;
* `loadAggregatorID` / `loadAgentID` (same files): resolution of a human key;
* the `RunE` body of `newCmdCreateAggregatorOnK8s` and the `k8sClient` methods
  (`cmd/calyptia/create_aggregator.go`): the provisioning sequence, and
  `environmentsKeys` of the same file;
* the `RunE` bodies of `newCmdDeleteAgents` (`cmd/calyptia/delete_agent.go`),
  `NewCmdDeletePipelines` and `NewCmdCreatePipelineFile` (`commands/pipeline`) and
  `newCmdGetAggregators` (`cmd/calyptia/get_aggregator.go`);
* `agentStatus` (`cmd/calyptia/get_agent.go`) and `trimQuotes`
  (`formatters/formatters.go`).

Go strings are Lean strings, Go slices are lists, a Go `(value, error)` result is a
pair whose second component is `none` for a nil error.  Remote collaborators (the
cloud API client, the Kubernetes clientset) are records of response functions and
every call issued is appended to an explicit trace.
-/

namespace CloudCli

/-! ## Data model -/

/-- Core instance record (`cloud.Aggregator`), restricted to the fields the client reads. -/
structure Aggregator where
  ID : String
  Name : String
  deriving DecidableEq, Repr

/-- Agent record (`cloud.Agent`), restricted to the fields the client reads.
`LastMetricsAddedAt` is a `time.Time`, held as the nanoseconds elapsed since the zero
instant, so that `IsZero` is equality with `0`. -/
structure Agent where
  ID : String
  Name : String
  LastMetricsAddedAt : Int := 0
  deriving DecidableEq, Repr

/-! ## Go `map[string]int`

The map is an association list that holds each key at most once.  The counters are
Go `int`s; a counter never exceeds the length of the slice that is being counted, and
a slice length always fits an `int`, so no wrap-around can occur and `Nat` is exact. -/

/-- The type of `namesCount`. -/
abbrev NamesCount := List (String × Nat)

/-- Map read `v, ok := m[k]`: `none` stands for `ok == false`. -/
def mapGet (m : NamesCount) (k : String) : Option Nat :=
  match m with
  | [] => none
  | (k', v) :: rest => if k' = k then some v else mapGet rest k

/-- Map write `m[k] = v`. -/
def mapSet (m : NamesCount) (k : String) (v : Nat) : NamesCount :=
  match m with
  | [] => [(k, v)]
  | (k', v') :: rest => if k' = k then (k, v) :: rest else (k', v') :: mapSet rest k v

/-- One iteration of the counting loop shared by `aggregatorsKeys` and `agentsKeys`:
`if _, ok := namesCount[a.Name]; ok { namesCount[a.Name] += 1; continue }; namesCount[a.Name] = 1`. -/
def namesCountStep (namesCount : NamesCount) (name : String) : NamesCount :=
  match mapGet namesCount name with
  | some c => mapSet namesCount name (c + 1)
  | none => mapSet namesCount name 1

/-- The first loop of `aggregatorsKeys`, over core instances. -/
def aggregatorsNamesCount (aa : List Aggregator) : NamesCount :=
  aa.foldl (fun m a => namesCountStep m a.Name) []

/-- The first loop of `agentsKeys`, over agents. -/
def agentsNamesCount (aa : List Agent) : NamesCount :=
  aa.foldl (fun m a => namesCountStep m a.Name) []

/-! ## Completion keys -/

/-- The inner loop of `aggregatorsKeys`:
`for name, count := range namesCount { if a.Name == name && count == 1 { nameIsUnique = true; break } }`.
The entries are visited in the order of the association list; Go leaves the order open,
and `nameIsUnique_iff` below shows that the result does not depend on it. -/
def nameIsUnique (namesCount : NamesCount) (aName : String) : Bool :=
  match namesCount with
  | [] => false
  | (name, count) :: rest =>
    if aName = name ∧ count = 1 then true else nameIsUnique rest aName

/-- Source function `aggregatorsKeys` of `get_aggregator.go`. -/
def aggregatorsKeys (aa : List Aggregator) : List String :=
  let namesCount := aggregatorsNamesCount aa
  aa.foldl
    (fun out a => if nameIsUnique namesCount a.Name then out ++ [a.Name] else out ++ [a.ID])
    []

/-- Source function `agentsKeys` of `get_agent.go`. -/
def agentsKeys (aa : List Agent) : List String :=
  let namesCount := agentsNamesCount aa
  aa.foldl
    (fun out a =>
      match mapGet namesCount a.Name with
      | none => out
      | some count => if count = 1 then out ++ [a.Name] else out ++ [a.ID])
    []

/-! ## Errors -/

/-- Go `error` values: a message, and for errors built with the `%w` verb the wrapped
cause.  Errors handed over by a collaborator are arbitrary values of this type. -/
inductive GoError where
  | plain (msg : String)
  | wrap (msg : String) (cause : GoError)
  deriving DecidableEq, Repr

/-- Method `Error()`: the message of an error. -/
def GoError.Error : GoError → String
  | .plain msg => msg
  | .wrap msg _ => msg

/-- Method `Unwrap()`: the cause of an error, if it wraps one. -/
def GoError.Unwrap : GoError → Option GoError
  | .plain _ => none
  | .wrap _ cause => some cause

/-- Call `fmt.Errorf(pfx + "%w", err)`: the message is the text before the verb followed
by the message of the cause, and the cause is kept for `Unwrap`. -/
def errorfW (pfx : String) (err : GoError) : GoError :=
  .wrap (pfx ++ err.Error) err

/-- The error part of a fallible result, as Go sees it (`none` is `nil`). -/
def errOf {α : Type} : Except GoError α → Option GoError
  | .error err => some err
  | .ok _ => none

/-! ## Cloud API client -/

/-- Listing parameters `cloud.AggregatorsParams`; a `nil` pointer is `none`. -/
structure AggregatorsParams where
  Last : Option Nat := none
  Name : Option String := none
  deriving DecidableEq, Repr

/-- Listing parameters `cloud.AgentsParams`; a `nil` pointer is `none`. -/
structure AgentsParams where
  Last : Option Nat := none
  Name : Option String := none
  EnvironmentID : Option String := none
  deriving DecidableEq, Repr

/-- Payload `cloud.CreateAggregator`. -/
structure CreateAggregator where
  Name : String
  AddHealthCheckPipeline : Bool
  Version : String
  EnvironmentID : String
  Tags : List String
  deriving DecidableEq, Repr

/-- Response `cloud.CreatedAggregator`, restricted to the fields the client reads. -/
structure CreatedAggregator where
  ID : String
  Name : String
  deriving DecidableEq, Repr

/-- The methods of the cloud `Client` interface used here.  The leading `String` is the
project id; the context argument carries no data and is left out.  The answer of
`DeleteAgent` may depend on the deletes answered before it (first argument: agent ID and
answer of each), which covers a shared context that is cancelled after a failure. -/
structure Client where
  Aggregators : String → AggregatorsParams → Except GoError (List Aggregator)
  Agents : String → AgentsParams → Except GoError (List Agent)
  CreateAggregator : CreateAggregator → Except GoError CreatedAggregator
  DeleteAgent : List (String × Option GoError) → String → Option GoError

/-- A request sent to the cloud API. -/
inductive CloudCall where
  | Aggregators (projectID : String) (params : AggregatorsParams)
  | Agents (projectID : String) (params : AgentsParams)
  | CreateAggregator (payload : CloudCli.CreateAggregator)
  | DeleteAgent (agentID : String)
  deriving DecidableEq, Repr

/-- The `config` struct of `main.go` (without the context). -/
structure config where
  baseURL : String
  cloud : Client
  projectToken : String
  projectID : String

/-- A returned value together with the cloud requests issued to compute it. -/
structure Traced (α : Type) where
  ret : α
  calls : List CloudCall

/-! ## Key resolution

`validUUID` is a helper of the same package whose body is not modelled, and `%q` is
`strconv.Quote` of the standard library; both are parameters of the resolver. -/

/-- Source function `loadAggregatorID` of `get_aggregator.go`. -/
def loadAggregatorID (validUUID : String → Bool) (quote : String → String)
    (cfg : config) (aggregatorKey : String) : Traced (String × Option GoError) :=
  let params : AggregatorsParams := { Name := some aggregatorKey, Last := some 2 }
  let calls := [CloudCall.Aggregators cfg.projectID params]
  match cfg.cloud.Aggregators cfg.projectID params with
  | .error err => ⟨("", some err), calls⟩
  | .ok aa =>
    if aa.length ≠ 1 ∧ ¬ validUUID aggregatorKey = true then
      if aa.length ≠ 0 then
        ⟨("", some (.plain
          ("ambiguous core instance name " ++ quote aggregatorKey ++ ", use ID instead"))), calls⟩
      else
        ⟨("", some (.plain ("could not find core instance " ++ quote aggregatorKey))), calls⟩
    else
      if h : aa.length = 1 then
        have : 0 < aa.length := by omega
        ⟨(aa[0].ID, none), calls⟩
      else
        ⟨(aggregatorKey, none), calls⟩

/-- Source function `loadAgentID` of `get_agent.go`. -/
def loadAgentID (validUUID : String → Bool) (quote : String → String)
    (cfg : config) (agentKey : String) (environmentID : String) :
    Traced (String × Option GoError) :=
  let params : AgentsParams := { Last := some 2, Name := some agentKey }
  let params : AgentsParams :=
    if environmentID ≠ "" then { params with EnvironmentID := some environmentID } else params
  let calls := [CloudCall.Agents cfg.projectID params]
  match cfg.cloud.Agents cfg.projectID params with
  | .error err => ⟨("", some err), calls⟩
  | .ok aa =>
    if aa.length ≠ 1 ∧ ¬ validUUID agentKey = true then
      if aa.length ≠ 0 then
        ⟨("", some (.plain ("ambiguous agent name " ++ quote agentKey ++ ", use ID instead"))),
          calls⟩
      else
        ⟨("", some (.plain ("could not find agent " ++ quote agentKey))), calls⟩
    else
      if h : aa.length = 1 then
        have : 0 < aa.length := by omega
        ⟨(aa[0].ID, none), calls⟩
      else
        ⟨(agentKey, none), calls⟩

/-! ## Kubernetes objects

The object types of `k8s.io/api`, restricted to the fields that `create_aggregator.go`
sets.  A `map[string]string` literal is the list of its entries in source order; a
`nil` map is the empty list; a `nil` pointer is `none`. -/

/-- Fields of `metav1.ObjectMeta`. -/
structure ObjectMeta where
  Name : String := ""
  Labels : List (String × String) := []
  deriving DecidableEq, Repr

/-- Type `apiv1.Namespace`. -/
structure Namespace where
  ObjectMeta : CloudCli.ObjectMeta
  deriving DecidableEq, Repr

/-- Type `rbacv1.PolicyRule`. -/
structure PolicyRule where
  APIGroups : List String
  Resources : List String
  Verbs : List String
  deriving DecidableEq, Repr

/-- Type `rbacv1.ClusterRole`. -/
structure ClusterRole where
  ObjectMeta : CloudCli.ObjectMeta
  Rules : List PolicyRule
  deriving DecidableEq, Repr

/-- Type `apiv1.ServiceAccount`. -/
structure ServiceAccount where
  ObjectMeta : CloudCli.ObjectMeta
  deriving DecidableEq, Repr

/-- Type `rbacv1.RoleRef`. -/
structure RoleRef where
  APIGroup : String
  Kind : String
  Name : String
  deriving DecidableEq, Repr

/-- Type `rbacv1.Subject`. -/
structure Subject where
  Kind : String
  Namespace : String
  Name : String
  deriving DecidableEq, Repr

/-- Type `rbacv1.ClusterRoleBinding`. -/
structure ClusterRoleBinding where
  ObjectMeta : CloudCli.ObjectMeta
  RoleRef : CloudCli.RoleRef
  Subjects : List Subject
  deriving DecidableEq, Repr

/-- Type `apiv1.EnvVar`. -/
structure EnvVar where
  Name : String
  Value : String
  deriving DecidableEq, Repr

/-- Type `apiv1.Container`. -/
structure Container where
  Name : String
  Image : String
  ImagePullPolicy : String
  Args : List String
  Env : List EnvVar
  deriving DecidableEq, Repr

/-- Type `apiv1.PodSpec`. -/
structure PodSpec where
  ServiceAccountName : String
  AutomountServiceAccountToken : Option Bool
  Containers : List Container
  deriving DecidableEq, Repr

/-- Type `apiv1.PodTemplateSpec`. -/
structure PodTemplateSpec where
  ObjectMeta : CloudCli.ObjectMeta
  Spec : PodSpec
  deriving DecidableEq, Repr

/-- Type `metav1.LabelSelector`. -/
structure LabelSelector where
  MatchLabels : List (String × String)
  deriving DecidableEq, Repr

/-- Type `appsv1.DeploymentSpec`; `Replicas` is an `*int32`. -/
structure DeploymentSpec where
  Replicas : Option Int
  Selector : Option LabelSelector
  Template : PodTemplateSpec
  deriving DecidableEq, Repr

/-- Type `appsv1.Deployment`. -/
structure Deployment where
  ObjectMeta : CloudCli.ObjectMeta
  Spec : DeploymentSpec
  deriving DecidableEq, Repr

/-- Constant `apiv1.NamespaceDefault`. -/
def NamespaceDefault : String := "default"

/-- Constant `rbacv1.GroupName`. -/
def GroupName : String := "rbac.authorization.k8s.io"

/-- Constant `apiv1.PullAlways`. -/
def PullAlways : String := "Always"

/-! ## Kubernetes clientset -/

/-- A request sent to the cluster.  Namespaced creates carry the namespace they go to. -/
inductive K8sCall where
  | GetNamespace (name : String)
  | CreateNamespace (obj : Namespace)
  | CreateClusterRole (obj : ClusterRole)
  | CreateServiceAccount (ns : String) (obj : ServiceAccount)
  | CreateClusterRoleBinding (obj : ClusterRoleBinding)
  | CreateDeployment (ns : String) (obj : Deployment)
  deriving DecidableEq, Repr

/-- A request together with the error the cluster answered (`none` is `nil`). -/
structure K8sEvent where
  call : K8sCall
  err : Option GoError
  deriving DecidableEq, Repr

/-- The typed clients of `kubernetes.Clientset` used here.  Each answer may depend on
everything that happened on the cluster connection before (first argument), which
covers any deterministic cluster. -/
structure Clientset where
  GetNamespace : List K8sEvent → String → Except GoError Namespace
  CreateNamespace : List K8sEvent → Namespace → Except GoError Namespace
  CreateClusterRole : List K8sEvent → ClusterRole → Except GoError ClusterRole
  CreateServiceAccount : List K8sEvent → String → ServiceAccount → Except GoError ServiceAccount
  CreateClusterRoleBinding :
    List K8sEvent → ClusterRoleBinding → Except GoError ClusterRoleBinding
  CreateDeployment : List K8sEvent → String → Deployment → Except GoError Deployment

/-- The `k8sClient` struct of `create_aggregator.go`. -/
structure k8sClient where
  Clientset : CloudCli.Clientset
  namespace_ : String
  projectID : String
  projectToken : String
  cloudBaseURL : String

/-! ## Provisioning steps

Every method takes the trace of the cluster connection so far and returns its Go
result together with the extended trace.  `IsNotFound` is `k8serrors.IsNotFound`
restricted to non-nil errors (on `nil` the library function answers `false`). -/

/-- Source method `ownNamespaceExists`. -/
def ownNamespaceExists (IsNotFound : GoError → Bool) (client : k8sClient)
    (trace : List K8sEvent) : (Bool × Option GoError) × List K8sEvent :=
  let res := client.Clientset.GetNamespace trace client.namespace_
  let trace := trace ++ [⟨.GetNamespace client.namespace_, errOf res⟩]
  match res with
  | .error err => if IsNotFound err then ((false, none), trace) else ((false, some err), trace)
  | .ok _ => ((true, none), trace)

/-- The object literal of source method `createOwnNamespace`. -/
def ownNamespaceObject (client : k8sClient) : Namespace :=
  { ObjectMeta := { Name := client.namespace_ } }

/-- Source method `createOwnNamespace`. -/
def createOwnNamespace (client : k8sClient) (trace : List K8sEvent) :
    Except GoError Namespace × List K8sEvent :=
  let res := client.Clientset.CreateNamespace trace (ownNamespaceObject client)
  (res, trace ++ [⟨.CreateNamespace (ownNamespaceObject client), errOf res⟩])

/-- Source method `ensureOwnNamespace`. -/
def ensureOwnNamespace (IsNotFound : GoError → Bool) (client : k8sClient)
    (trace : List K8sEvent) : Option GoError × List K8sEvent :=
  match ownNamespaceExists IsNotFound client trace with
  | ((_, some err), trace) => (some (errorfW "exists: " err), trace)
  | ((true, none), trace) => (none, trace)
  | ((false, none), trace) =>
    match createOwnNamespace client trace with
    | (.error err, trace) => (some (errorfW "create: " err), trace)
    | (.ok _, trace) => (none, trace)

/-- The object literal of source method `createClusterRole`. -/
def clusterRoleObject (client : k8sClient) (agg : CreatedAggregator) : ClusterRole :=
  { ObjectMeta :=
      { Name := agg.Name ++ "-cluster-role"
        Labels := [("calyptia_project_id", client.projectID), ("calyptia_aggregator_id", agg.ID)] }
    Rules :=
      [{ APIGroups := ["", "apps"]
         Resources :=
           ["namespaces", "deployments", "replicasets", "pods", "services", "configmaps",
            "deployments/scale", "secrets"]
         Verbs :=
           ["get", "list", "create", "delete", "patch", "update", "watch",
            "deletecollection"] }] }

/-- Source method `createClusterRole`. -/
def createClusterRole (client : k8sClient) (trace : List K8sEvent) (agg : CreatedAggregator) :
    Except GoError ClusterRole × List K8sEvent :=
  let res := client.Clientset.CreateClusterRole trace (clusterRoleObject client agg)
  (res, trace ++ [⟨.CreateClusterRole (clusterRoleObject client agg), errOf res⟩])

/-- The object literal of source method `createServiceAccount`. -/
def serviceAccountObject (client : k8sClient) (agg : CreatedAggregator) : ServiceAccount :=
  { ObjectMeta :=
      { Name := agg.Name ++ "-service-account"
        Labels :=
          [("calyptia_project_id", client.projectID), ("calyptia_aggregator_id", agg.ID)] } }

/-- Source method `createServiceAccount`. -/
def createServiceAccount (client : k8sClient) (trace : List K8sEvent)
    (agg : CreatedAggregator) : Except GoError ServiceAccount × List K8sEvent :=
  let res :=
    client.Clientset.CreateServiceAccount trace client.namespace_ (serviceAccountObject client agg)
  (res,
    trace ++ [⟨.CreateServiceAccount client.namespace_ (serviceAccountObject client agg), errOf res⟩])

/-- The object literal of source method `createClusterRoleBinding`. -/
def clusterRoleBindingObject (client : k8sClient) (agg : CreatedAggregator)
    (clusterRole : ClusterRole) (serviceAccount : ServiceAccount) : ClusterRoleBinding :=
  { ObjectMeta :=
      { Name := agg.Name ++ "-cluster-role-binding"
        Labels := [("calyptia_project_id", client.projectID), ("calyptia_aggregator_id", agg.ID)] }
    RoleRef := { APIGroup := GroupName, Kind := "ClusterRole", Name := clusterRole.ObjectMeta.Name }
    Subjects :=
      [{ Kind := "ServiceAccount"
         Namespace := client.namespace_
         Name := serviceAccount.ObjectMeta.Name }] }

/-- Source method `createClusterRoleBinding`. -/
def createClusterRoleBinding (client : k8sClient) (trace : List K8sEvent)
    (agg : CreatedAggregator) (clusterRole : ClusterRole) (serviceAccount : ServiceAccount) :
    Except GoError ClusterRoleBinding × List K8sEvent :=
  let obj := clusterRoleBindingObject client agg clusterRole serviceAccount
  let res := client.Clientset.CreateClusterRoleBinding trace obj
  (res, trace ++ [⟨.CreateClusterRoleBinding obj, errOf res⟩])

/-- The object literal of source method `createDeployment`. -/
def deploymentObject (client : k8sClient) (agg : CreatedAggregator)
    (serviceAccount : ServiceAccount) : Deployment :=
  let labels : List (String × String) :=
    [("calyptia_project_id", client.projectID), ("calyptia_aggregator_id", agg.ID)]
  { ObjectMeta := { Name := agg.Name ++ "-deployment", Labels := labels }
    Spec :=
      { Replicas := some 1
        Selector := some { MatchLabels := labels }
        Template :=
          { ObjectMeta := { Labels := labels }
            Spec :=
              { ServiceAccountName := serviceAccount.ObjectMeta.Name
                AutomountServiceAccountToken := some true
                Containers :=
                  [{ Name := agg.Name
                     Image := "ghcr.io/calyptia/core"
                     ImagePullPolicy := PullAlways
                     Args := ["-debug=true"]
                     Env :=
                       [{ Name := "AGGREGATOR_NAME", Value := agg.Name },
                        { Name := "PROJECT_TOKEN", Value := client.projectToken },
                        { Name := "AGGREGATOR_FLUENTBIT_CLOUD_URL",
                          Value := client.cloudBaseURL }] }] } } } }

/-- Source method `createDeployment`. -/
def createDeployment (client : k8sClient) (trace : List K8sEvent) (agg : CreatedAggregator)
    (serviceAccount : ServiceAccount) : Except GoError Deployment × List K8sEvent :=
  let obj := deploymentObject client agg serviceAccount
  let res := client.Clientset.CreateDeployment trace client.namespace_ obj
  (res, trace ++ [⟨.CreateDeployment client.namespace_ obj, errOf res⟩])

/-! ## The `create core_instance kubernetes` command -/

/-- The flag variables of `newCmdCreateAggregatorOnK8s`; `kubeNamespace` is
`configOverrides.Context.Namespace`. -/
structure K8sFlags where
  aggregatorName : String
  noHealthCheckPipeline : Bool
  environmentID : String
  tags : List String
  kubeNamespace : String

/-- What loading the kube configuration yields: the error of `kubeConfig.ClientConfig()`
and the result of `kubernetes.NewForConfig`. -/
structure KubeLoader where
  ClientConfig : Option GoError
  NewForConfig : Except GoError Clientset

/-- Everything observable of one run of the command. -/
structure RunResult where
  err : Option GoError
  stdout : List String
  cloudCalls : List CloudCall
  k8sTrace : List K8sEvent

/-- The `RunE` closure of source function `newCmdCreateAggregatorOnK8s`. -/
def runCreateAggregatorOnK8s (IsNotFound : GoError → Bool) (quote : String → String)
    (cfg : config) (kube : KubeLoader) (flags : K8sFlags) : RunResult :=
  match kube.ClientConfig with
  | some err => ⟨some err, [], [], []⟩
  | none =>
  match kube.NewForConfig with
  | .error err => ⟨some err, [], [], []⟩
  | .ok clientset =>
  let payload : CreateAggregator :=
    { Name := flags.aggregatorName
      AddHealthCheckPipeline := !flags.noHealthCheckPipeline
      Version := ""
      EnvironmentID := flags.environmentID
      Tags := flags.tags }
  let cloudCalls := [CloudCall.CreateAggregator payload]
  match cfg.cloud.CreateAggregator payload with
  | .error err =>
    ⟨some (errorfW "could not create core instance at calyptia cloud: " err), [], cloudCalls, []⟩
  | .ok created =>
  let client : k8sClient :=
    { Clientset := clientset
      namespace_ := if flags.kubeNamespace = "" then NamespaceDefault else flags.kubeNamespace
      projectID := cfg.projectID
      projectToken := cfg.projectToken
      cloudBaseURL := cfg.baseURL }
  match ensureOwnNamespace IsNotFound client [] with
  | (some err, trace) =>
    ⟨some (errorfW "could not ensure kubernetes namespace exists: " err), [], cloudCalls, trace⟩
  | (none, trace) =>
  match createClusterRole client trace created with
  | (.error err, trace) =>
    ⟨some (errorfW "could not create kubernetes cluster role: " err), [], cloudCalls, trace⟩
  | (.ok clusterRole, trace) =>
  let out := ["cluster role: " ++ quote clusterRole.ObjectMeta.Name ++ "\n"]
  match createServiceAccount client trace created with
  | (.error err, trace) =>
    ⟨some (errorfW "could not create kubernetes service account: " err), out, cloudCalls, trace⟩
  | (.ok serviceAccount, trace) =>
  let out := out ++ ["service account: " ++ quote serviceAccount.ObjectMeta.Name ++ "\n"]
  match createClusterRoleBinding client trace created clusterRole serviceAccount with
  | (.error err, trace) =>
    ⟨some (errorfW "could not create kubernetes cluster role binding: " err), out, cloudCalls,
      trace⟩
  | (.ok binding, trace) =>
  let out := out ++ ["cluster role binding: " ++ quote binding.ObjectMeta.Name ++ "\n"]
  match createDeployment client trace created serviceAccount with
  | (.error err, trace) =>
    ⟨some (errorfW "could not create kubernetes deployment: " err), out, cloudCalls, trace⟩
  | (.ok deploy, trace) =>
  ⟨none, out ++ ["deployment: " ++ quote deploy.ObjectMeta.Name ++ "\n"], cloudCalls, trace⟩

/-! ## Reading a trace -/

/-- The kind of request and the name of the object it is about. -/
def K8sCall.describe : K8sCall → String × String
  | .GetNamespace name => ("get Namespace", name)
  | .CreateNamespace obj => ("create Namespace", obj.ObjectMeta.Name)
  | .CreateClusterRole obj => ("create ClusterRole", obj.ObjectMeta.Name)
  | .CreateServiceAccount _ obj => ("create ServiceAccount", obj.ObjectMeta.Name)
  | .CreateClusterRoleBinding obj => ("create ClusterRoleBinding", obj.ObjectMeta.Name)
  | .CreateDeployment _ obj => ("create Deployment", obj.ObjectMeta.Name)

/-- A cluster request succeeded: it answered no error, or it is the namespace lookup and
the error is the not-found condition, which the command treats as the answer "absent". -/
def K8sEvent.succeeded (IsNotFound : GoError → Bool) (ev : K8sEvent) : Bool :=
  match ev.err, ev.call with
  | none, _ => true
  | some err, .GetNamespace _ => IsNotFound err
  | some _, _ => false

/-- The namespace lookup of a trace reported the not-found condition. -/
def reportedNotFound (IsNotFound : GoError → Bool) (trace : List K8sEvent) : Bool :=
  match trace with
  | ⟨.GetNamespace _, some err⟩ :: _ => IsNotFound err
  | _ => false

/-! ## A cluster kept in memory

A deterministic cluster that starts empty: a namespace exists once a create for it was
answered without error, every create of a fresh name succeeds and returns the submitted
object, and a second create of the same object is refused. -/

/-- The not-found error of the in-memory cluster. -/
def memNotFound : GoError := .plain "not found"

/-- The already-exists error of the in-memory cluster. -/
def memAlreadyExists : GoError := .plain "already exists"

/-- The request was answered without error earlier on the connection. -/
def memCreated (history : List K8sEvent) (call : K8sCall) : Bool :=
  history.any (fun ev => decide (ev.call.describe = call.describe) && ev.err.isNone)

/-- The in-memory cluster. -/
def memClientset : Clientset where
  GetNamespace history name :=
    if memCreated history (.CreateNamespace { ObjectMeta := { Name := name } }) then
      .ok { ObjectMeta := { Name := name } }
    else .error memNotFound
  CreateNamespace history obj :=
    if memCreated history (.CreateNamespace obj) then .error memAlreadyExists else .ok obj
  CreateClusterRole history obj :=
    if memCreated history (.CreateClusterRole obj) then .error memAlreadyExists else .ok obj
  CreateServiceAccount history ns obj :=
    if memCreated history (.CreateServiceAccount ns obj) then .error memAlreadyExists
    else .ok obj
  CreateClusterRoleBinding history obj :=
    if memCreated history (.CreateClusterRoleBinding obj) then .error memAlreadyExists
    else .ok obj
  CreateDeployment history ns obj :=
    if memCreated history (.CreateDeployment ns obj) then .error memAlreadyExists else .ok obj

/-- The classifier `IsNotFound` for the errors of the in-memory cluster. -/
def memIsNotFound (err : GoError) : Bool := decide (err = memNotFound)

/-! ## Reading a message -/

/-- Go `strings.Contains(s, sub)`: `sub` occurs in `s` as a contiguous run. -/
def strContains (s sub : String) : Prop := sub.data <:+: s.data

/-! ## Fixed collaborators for examples -/

/-- A cloud client that answers every listing with the given results and registers a
core instance under the requested name. -/
def fixedClient (aggregators : Except GoError (List Aggregator))
    (agents : Except GoError (List Agent)) : Client where
  Aggregators _ _ := aggregators
  Agents _ _ := agents
  CreateAggregator payload := .ok { ID := "id-" ++ payload.Name, Name := payload.Name }
  DeleteAgent _ _ := none

/-- A configuration around `fixedClient`. -/
def fixedConfig (aggregators : Except GoError (List Aggregator))
    (agents : Except GoError (List Agent)) : config where
  baseURL := "https://cloud-api.calyptia.com"
  cloud := fixedClient aggregators agents
  projectToken := "token"
  projectID := "project"

/-- A stand-in for `validUUID` on short keys: the key has the 36 characters of the
textual form of a UUID. -/
def sampleValidUUID (s : String) : Bool := s.length == 36

/-- A stand-in for `%q` on keys that need no escaping: the key between double quotes. -/
def sampleQuote (s : String) : String := "\"" ++ s ++ "\""

/-- Loading of the kube configuration that succeeds and connects to the in-memory cluster. -/
def memKube : KubeLoader where
  ClientConfig := none
  NewForConfig := .ok memClientset

/-- The flags of `create core_instance kubernetes --name demo`. -/
def demoFlags : K8sFlags where
  aggregatorName := "demo"
  noHealthCheckPipeline := false
  environmentID := ""
  tags := []
  kubeNamespace := ""

/-! ## Reading errors and submitted objects -/

/-- The error followed by everything it wraps, outermost first: the chain that
`errors.Unwrap` walks. -/
def GoError.chain : GoError → List GoError
  | .plain msg => [.plain msg]
  | .wrap msg cause => .wrap msg cause :: cause.chain

/-- The label map of the object that a create request submits; a lookup submits none. -/
def K8sCall.labels : K8sCall → Option (List (String × String))
  | .GetNamespace _ => none
  | .CreateNamespace obj => some obj.ObjectMeta.Labels
  | .CreateClusterRole obj => some obj.ObjectMeta.Labels
  | .CreateServiceAccount _ obj => some obj.ObjectMeta.Labels
  | .CreateClusterRoleBinding obj => some obj.ObjectMeta.Labels
  | .CreateDeployment _ obj => some obj.ObjectMeta.Labels

/-- The `k8sClient` value that the `RunE` closure of `newCmdCreateAggregatorOnK8s` builds
from the configuration, the clientset and the namespace flag. -/
def commandClient (cfg : config) (clientset : Clientset) (flags : K8sFlags) : k8sClient where
  Clientset := clientset
  namespace_ := if flags.kubeNamespace = "" then NamespaceDefault else flags.kubeNamespace
  projectID := cfg.projectID
  projectToken := cfg.projectToken
  cloudBaseURL := cfg.baseURL

/-! ## Provisioning steps and their error texts -/

/-- The five provisioning steps of the command, in the order in which it runs them. -/
inductive Step where
  | NamespaceEnsure
  | ClusterRole
  | ServiceAccount
  | ClusterRoleBinding
  | Deployment
  deriving DecidableEq, Repr

/-- The step that a cluster request belongs to. -/
def K8sCall.step : K8sCall → Step
  | .GetNamespace _ => .NamespaceEnsure
  | .CreateNamespace _ => .NamespaceEnsure
  | .CreateClusterRole _ => .ClusterRole
  | .CreateServiceAccount _ _ => .ServiceAccount
  | .CreateClusterRoleBinding _ => .ClusterRoleBinding
  | .CreateDeployment _ _ => .Deployment

/-- The text that the `RunE` closure of `newCmdCreateAggregatorOnK8s` puts in front of the
cause when a step fails: the format strings of its five `fmt.Errorf` calls, up to `%w`. -/
def Step.errorPrefix : Step → String
  | .NamespaceEnsure => "could not ensure kubernetes namespace exists: "
  | .ClusterRole => "could not create kubernetes cluster role: "
  | .ServiceAccount => "could not create kubernetes service account: "
  | .ClusterRoleBinding => "could not create kubernetes cluster role binding: "
  | .Deployment => "could not create kubernetes deployment: "

/-- Go `strings.HasPrefix(s, pfx)`. -/
def strHasPrefix (s pfx : String) : Prop := pfx.data <+: s.data

/-! ## More collaborators for examples -/

/-- A `k8sClient` on the in-memory cluster, for namespace `default`. -/
def memClient : k8sClient where
  Clientset := memClientset
  namespace_ := "default"
  projectID := "project"
  projectToken := "token"
  cloudBaseURL := "https://cloud-api.calyptia.com"

/-- The in-memory cluster with one kind of create request out of order: requests of that
kind (named as in `K8sCall.describe`) are answered with the given error. -/
def brokenClientset (kind : String) (e : GoError) : Clientset where
  GetNamespace := memClientset.GetNamespace
  CreateNamespace history obj :=
    if kind = "create Namespace" then .error e else memClientset.CreateNamespace history obj
  CreateClusterRole history obj :=
    if kind = "create ClusterRole" then .error e else memClientset.CreateClusterRole history obj
  CreateServiceAccount history ns obj :=
    if kind = "create ServiceAccount" then .error e
    else memClientset.CreateServiceAccount history ns obj
  CreateClusterRoleBinding history obj :=
    if kind = "create ClusterRoleBinding" then .error e
    else memClientset.CreateClusterRoleBinding history obj
  CreateDeployment history ns obj :=
    if kind = "create Deployment" then .error e
    else memClientset.CreateDeployment history ns obj

/-- Loading of the kube configuration that connects to `brokenClientset`. -/
def brokenKube (kind : String) (e : GoError) : KubeLoader where
  ClientConfig := none
  NewForConfig := .ok (brokenClientset kind e)

/-- A cluster that accepts every request, reports every namespace as present, and hands
back the ClusterRole and the ServiceAccount under a name of its own (the submitted name
followed by the given suffix), so that returned and submitted names differ. -/
def renamingClientset (suffix : String) : Clientset where
  GetNamespace _ name := .ok { ObjectMeta := { Name := name } }
  CreateNamespace _ obj := .ok obj
  CreateClusterRole _ obj :=
    .ok { obj with ObjectMeta := { obj.ObjectMeta with Name := obj.ObjectMeta.Name ++ suffix } }
  CreateServiceAccount _ _ obj :=
    .ok { obj with ObjectMeta := { obj.ObjectMeta with Name := obj.ObjectMeta.Name ++ suffix } }
  CreateClusterRoleBinding _ obj := .ok obj
  CreateDeployment _ _ obj := .ok obj

/-- Loading of the kube configuration that connects to `renamingClientset`. -/
def renamingKube (suffix : String) : KubeLoader where
  ClientConfig := none
  NewForConfig := .ok (renamingClientset suffix)

/-! ## Bulk delete of agents

The `RunE` closure of `newCmdDeleteAgents` (`cmd/calyptia/delete_agent.go`).  It starts one
goroutine per agent through `errgroup`; the order in which the goroutines get to run is
chosen by the Go scheduler and is an input of the model. -/

/-- Constant `time.Minute`, in nanoseconds. -/
def Minute : Int := 60000000000

/-- The loop that keeps the inactive agents.  The position of an agent in the listing
selects the reading of `time.Now()` made in its iteration. -/
def onlyInactive (now : Nat → Int) (aa : List Agent) : List Agent :=
  aa.enum.foldl
    (fun onlyInactive ia =>
      if ia.2.LastMetricsAddedAt = 0 ∨ ia.2.LastMetricsAddedAt < now ia.1 + Minute * (-5) then
        onlyInactive ++ [ia.2]
      else onlyInactive)
    []

/-- An order of execution for started goroutines: each pick selects, among those that have
not run yet, the one to run next (the pick is taken modulo their number); goroutines left
over when the picks are used up run in the order in which they were started. -/
def pickOrder {α : Type} : List Nat → List α → List α
  | [], items => items
  | _ :: _, [] => []
  | pick :: picks, item :: items =>
    ((item :: items).getD (pick % (items.length + 1)) item) ::
      pickOrder picks ((item :: items).eraseIdx (pick % (items.length + 1)))

/-- The goroutines of the group, run one after the other in the given order: each calls
`DeleteAgent` for its agent; the answers are recorded in order of completion. -/
def runDeleteTasks (cfg : config) :
    List Agent → List (String × Option GoError) → List (String × Option GoError)
  | [], done => done
  | a :: rest, done => runDeleteTasks cfg rest (done ++ [(a.ID, cfg.cloud.DeleteAgent done a.ID)])

/-- What the function handed to `g.Go` returns for an answered delete:
`fmt.Errorf("could not delete agent %q: %w", a.ID, err)` on an error, `nil` otherwise. -/
def deleteTaskError (quote : String → String) (d : String × Option GoError) : Option GoError :=
  d.2.map (fun err => errorfW ("could not delete agent " ++ quote d.1 ++ ": ") err)

/-- Method `g.Wait()` of `errgroup`: the first non-nil error returned by a function of the
group, in order of completion. -/
def groupWait (quote : String → String) (deletes : List (String × Option GoError)) :
    Option GoError :=
  deletes.findSome? (deleteTaskError quote)

/-- The statement `if err != nil && err.Error() == "unexpected newline" { err = nil }`
applied to the error of `fmt.Scanln`. -/
def ignoreUnexpectedNewline : Option GoError → Option GoError
  | some err => if err.Error = "unexpected newline" then none else some err
  | none => none

/-- The flag variables of `newCmdDeleteAgents`. -/
structure DeleteAgentsFlags where
  inactive : Bool
  confirmed : Bool

/-- The flags of `delete agents` as they stand on the command line: `none` is a flag that
was not given, `some b` one given with value `b` (`--inactive` alone is `some true`,
`--inactive=false` is `some false`). -/
structure DeleteAgentsArgs where
  inactive : Option Bool
  yes : Option Bool

/-- The flag registrations of source function `newCmdDeleteAgents`,
`fs.BoolVar(&inactive, "inactive", true, ...)` and
`fs.BoolVarP(&confirmed, "yes", "y", false, ...)`: a flag that was not given leaves its
variable at the registered default. -/
def deleteAgentsFlags (args : DeleteAgentsArgs) : DeleteAgentsFlags where
  inactive := args.inactive.getD true
  confirmed := args.yes.getD false

/-- What the surroundings contribute to one run of `delete agents`: the readings of
`time.Now()`, what `fmt.Scanln(&answer)` stores and returns, and the picks of the
scheduler. -/
structure DeleteAgentsWorld where
  now : Nat → Int
  scanln : String × Option GoError
  picks : List Nat

/-- Everything observable of one run of `delete agents`; `deletes` holds the `DeleteAgent`
requests in order of completion, each with its answer. -/
structure DeleteAgentsResult where
  err : Option GoError
  stdout : List String
  cloudCalls : List CloudCall
  deletes : List (String × Option GoError)

/-- The `RunE` closure of source function `newCmdDeleteAgents`.  `ToLower` and `TrimSpace`
are `strings.ToLower` and `strings.TrimSpace`. -/
def runDeleteAgents (quote ToLower TrimSpace : String → String) (cfg : config)
    (flags : DeleteAgentsFlags) (world : DeleteAgentsWorld) : DeleteAgentsResult :=
  let listing := [CloudCall.Agents cfg.projectID {}]
  match cfg.cloud.Agents cfg.projectID {} with
  | .error err => ⟨some (errorfW "could not prefetch agents to delete: " err), [], listing, []⟩
  | .ok fetched =>
  let items := if flags.inactive then onlyInactive world.now fetched else fetched
  if items.length = 0 then ⟨none, ["No agents to delete\n"], listing, []⟩
  else
  let question :=
    "You are about to delete:\n\n" ++ "\n".intercalate (agentsKeys items) ++
      "\n\nAre you sure you want to delete all of them? (yes/N) "
  let scanErr := ignoreUnexpectedNewline world.scanln.2
  if flags.confirmed = false ∧ scanErr ≠ none then
    ⟨scanErr.map (fun err => .plain ("could not to read answer: " ++ err.Error)), [question],
      listing, []⟩
  else if flags.confirmed = false ∧ TrimSpace (ToLower world.scanln.1) ≠ "yes" then
    ⟨none, [question], listing, []⟩
  else
  let deletes := runDeleteTasks cfg (pickOrder world.picks items) []
  ⟨groupWait quote deletes, if flags.confirmed then [] else [question],
    listing ++ deletes.map (fun d => CloudCall.DeleteAgent d.1), deletes⟩

/-- A cloud client for bulk deletes: the listing answers with the given agents, and a
delete fails exactly for the agent IDs that `failing` maps to an error. -/
def bulkClient (agents : List Agent) (failing : String → Option GoError) : Client where
  Aggregators _ _ := .ok []
  Agents _ _ := .ok agents
  CreateAggregator payload := .ok { ID := "id-" ++ payload.Name, Name := payload.Name }
  DeleteAgent _ agentID := failing agentID

/-- A configuration around `bulkClient`. -/
def bulkConfig (agents : List Agent) (failing : String → Option GoError) : config where
  baseURL := "https://cloud-api.calyptia.com"
  cloud := bulkClient agents failing
  projectToken := "token"
  projectID := "project"

/-- Five agents, `id-1` to `id-5`. -/
def fiveAgents : List Agent :=
  [{ ID := "id-1", Name := "a1" }, { ID := "id-2", Name := "a2" }, { ID := "id-3", Name := "a3" },
    { ID := "id-4", Name := "a4" }, { ID := "id-5", Name := "a5" }]

/-! ## Bulk delete of pipelines

The `RunE` closure of `NewCmdDeletePipelines` (`commands/pipeline/delete_pipeline.go`).  The
completer, the confirmation reader and the cloud client are collaborators of the command
and are taken as they answer. -/

/-- Pipeline record (`types.Pipeline`), restricted to the fields the command reads. -/
structure Pipeline where
  ID : String
  Name : String
  deriving DecidableEq, Repr

/-- Listing parameters `types.PipelinesParams`; a `nil` pointer is `none`. -/
structure PipelinesParams where
  Last : Option Nat := none
  CoreInstanceID : Option String := none
  deriving DecidableEq, Repr

/-- The collaborators of `NewCmdDeletePipelines`: the completer methods
`LoadEnvironmentID` and `LoadCoreInstanceID`, the helper `completer.PipelinesKeys`, the
cloud methods `Pipelines` and `DeletePipelines`, and what `confirm.Read` returns. -/
structure PipelinesWorld where
  LoadEnvironmentID : String → Except GoError String
  LoadCoreInstanceID : String → String → Except GoError String
  PipelinesKeys : List Pipeline → List String
  Pipelines : PipelinesParams → Except GoError (List Pipeline)
  DeletePipelines : String → List String → Option GoError
  confirmRead : Except GoError Bool

/-- The flag variables of `NewCmdDeletePipelines`. -/
structure DeletePipelinesFlags where
  confirmed : Bool
  coreInstanceKey : String
  environmentKey : String

/-- Everything observable of one run of `delete pipelines`; `deleteCalls` holds the
`DeletePipelines` requests: core instance ID and pipeline IDs of each. -/
structure DeletePipelinesResult where
  err : Option GoError
  printed : List String
  deleteCalls : List (String × List String)

/-- The `RunE` closure of source function `NewCmdDeletePipelines`. -/
def runDeletePipelines (world : PipelinesWorld) (flags : DeletePipelinesFlags) :
    DeletePipelinesResult :=
  match (if flags.environmentKey ≠ "" then world.LoadEnvironmentID flags.environmentKey
      else .ok "") with
  | .error err => ⟨some err, [], []⟩
  | .ok environmentID =>
  match world.LoadCoreInstanceID flags.coreInstanceKey environmentID with
  | .error err => ⟨some err, [], []⟩
  | .ok coreInstanceID =>
  match world.Pipelines { Last := some 0, CoreInstanceID := some coreInstanceID } with
  | .error err => ⟨some (errorfW "could not prefetch pipelines to delete: " err), [], []⟩
  | .ok pp =>
  if pp.length = 0 then ⟨none, ["No pipelines to delete\n"], []⟩
  else
  let question :=
    "You are about to delete:\n\n" ++ "\n".intercalate (world.PipelinesKeys pp) ++
      "\n\nAre you sure you want to delete all of them? (y/N) "
  let finish (printed : List String) : DeletePipelinesResult :=
    let pipelineIDs := pp.map (fun p => p.ID)
    match world.DeletePipelines coreInstanceID pipelineIDs with
    | some err => ⟨some (errorfW "delete pipelines: " err), printed, [(coreInstanceID, pipelineIDs)]⟩
    | none =>
      ⟨none, printed ++ ["Successfully deleted " ++ toString pipelineIDs.length ++ " pipelines\n"],
        [(coreInstanceID, pipelineIDs)]⟩
  if flags.confirmed then finish []
  else
    match world.confirmRead with
    | .error err => ⟨some err, [question], []⟩
    | .ok false => ⟨none, [question, "Aborted\n"], []⟩
    | .ok true => finish [question]

/-- Collaborators for `delete pipelines` in which every key resolves to itself, core
instance `ci-1` has the pipelines `p-1`, `p-2` and `p-3`, and the bulk delete request is
answered with the given error. -/
def samplePipelinesWorld (failure : Option GoError) : PipelinesWorld where
  LoadEnvironmentID key := .ok key
  LoadCoreInstanceID key _ := .ok key
  PipelinesKeys pp := pp.map (fun p => p.Name)
  Pipelines _ :=
    .ok [{ ID := "p-1", Name := "one" }, { ID := "p-2", Name := "two" },
      { ID := "p-3", Name := "three" }]
  DeletePipelines _ _ := failure
  confirmRead := .ok true

/-- The delete answers of a cluster of agents in which `id-2` and `id-4` cannot be
deleted, each for a reason of its own. -/
def twoFailures (agentID : String) : Option GoError :=
  if agentID = "id-2" then some (.plain "boom-2")
  else if agentID = "id-4" then some (.plain "boom-4")
  else none

/-! ## Environments -/

/-- Environment record (`cloud.Environment`), restricted to the fields the client reads. -/
structure Environment where
  ID : String
  Name : String
  deriving DecidableEq, Repr

/-- Source function `environmentsKeys` of `create_aggregator.go`. -/
def environmentsKeys (aa : List Environment) : List String :=
  aa.foldl (fun out a => out ++ [a.ID]) []

/-! ## A directory behind the cloud client -/

/-- A cloud client in front of a directory that holds the given core instances and agents:
a listing answers with the entities whose name equals the name filter (all of them when
there is none), at most `Last` of them when `Last` is set and not zero. -/
def directoryClient (aggregators : List Aggregator) (agents : List Agent) : Client where
  Aggregators _ params :=
    let named :=
      match params.Name with
      | some name => aggregators.filter (fun a => decide (a.Name = name))
      | none => aggregators
    match params.Last with
    | some (n + 1) => .ok (named.take (n + 1))
    | _ => .ok named
  Agents _ params :=
    let named :=
      match params.Name with
      | some name => agents.filter (fun a => decide (a.Name = name))
      | none => agents
    match params.Last with
    | some (n + 1) => .ok (named.take (n + 1))
    | _ => .ok named
  CreateAggregator payload := .ok { ID := "id-" ++ payload.Name, Name := payload.Name }
  DeleteAgent _ _ := none

/-- A configuration around `directoryClient`. -/
def directoryConfig (aggregators : List Aggregator) (agents : List Agent) : config where
  baseURL := "https://cloud-api.calyptia.com"
  cloud := directoryClient aggregators agents
  projectToken := "token"
  projectID := "project"

/-! ## Agent status -/

/-- Largest value of a `time.Duration` (an `int64` of nanoseconds). -/
def maxDuration : Int := 9223372036854775807

/-- Smallest value of a `time.Duration`. -/
def minDuration : Int := -9223372036854775808

/-- Method `Time.Sub`: the difference of two instants, kept within the range of a
`time.Duration`. -/
def timeSub (t u : Int) : Int :=
  if maxDuration < t - u then maxDuration
  else if t - u < minDuration then minDuration
  else t - u

/-- Source function `agentStatus` of `get_agent.go`.  `now 0` is the reading of
`time.Now()` in the comparison and `now 1` the reading inside `time.Since`; `fmtDuration`
stands for `durafmt.ParseShort(d).LimitFirstN(1)` printed with `%s`. -/
def agentStatus (fmtDuration : Int → String) (now : Nat → Int) (lastMetricsAddedAt : Int)
    (start : Int) : String :=
  if lastMetricsAddedAt = 0 then "inactive"
  else if lastMetricsAddedAt < now 0 + start then
    "inactive for " ++ fmtDuration (timeSub (now 1) lastMetricsAddedAt)
  else "active"

/-- Five agents seen at different times: never, 10, 5, 4 and 0 minutes before minute 100. -/
def agentsSeenAt : List Agent :=
  [{ ID := "id-1", Name := "a1" },
    { ID := "id-2", Name := "a2", LastMetricsAddedAt := 90 * Minute },
    { ID := "id-3", Name := "a3", LastMetricsAddedAt := 95 * Minute },
    { ID := "id-4", Name := "a4", LastMetricsAddedAt := 96 * Minute },
    { ID := "id-5", Name := "a5", LastMetricsAddedAt := 100 * Minute }]

/-! ## Quoted templates

`trimQuotes` indexes the bytes of its argument, so here a Go string is the list of its
bytes, each a number below 256. -/

/-- Source function `trimQuotes` of `formatters/formatters.go`.  The bytes 34, 39 and 96
are the double quote, the single quote and the backquote. -/
def trimQuotes (s : List Nat) : List Nat :=
  if 2 ≤ s.length then
    let c := s.getD (s.length - 1) 0
    if s.getD 0 0 = c ∧ (c = 34 ∨ c = 39 ∨ c = 96) then (s.take (s.length - 1)).drop 1
    else s
  else s

/-! ## Paths

The functions of `path/filepath` and `strings` that `create pipeline_file` applies to the
file path, as they are defined for a build in which `/` is the path separator and paths
carry no volume name.  The separator and the dot are single bytes that occur in no other
character, so the functions act on characters here. -/

/-- Go `filepath.Base`: the last element of the path; trailing separators are removed
first; the empty path gives `.` and a path of separators only gives `/`. -/
def Base (path : String) : String :=
  if path = "" then "."
  else
    let stripped := path.data.reverse.dropWhile (fun c => decide (c = '/'))
    let element := (stripped.takeWhile (fun c => decide (c ≠ '/'))).reverse
    if element = [] then "/" else String.mk element

/-- The loop of `filepath.Ext`, run over the reversed path: it walks back from the end
until a separator, and at the first dot returns the dot with everything after it. -/
def extScan : List Char → List Char → List Char
  | [], _ => []
  | c :: before, after =>
    if c = '/' then []
    else if c = '.' then '.' :: after
    else extScan before (c :: after)

/-- Go `filepath.Ext`: the suffix that begins at the final dot of the final element of the
path, empty when there is no dot. -/
def Ext (path : String) : String :=
  String.mk (extScan path.data.reverse [])

/-- Go `strings.TrimSuffix`: the string without the given trailing suffix, or the string
itself when it does not end with the suffix. -/
def TrimSuffix (s suffix : String) : String :=
  if suffix.data <:+ s.data then String.mk (s.data.take (s.data.length - suffix.data.length))
  else s

/-! ## The `create pipeline_file` command -/

/-- Payload `cloud.CreatePipelineFile`. -/
structure CreatePipelineFile where
  Name : String
  Contents : String
  Encrypted : Bool
  deriving DecidableEq, Repr

/-- Response `cloud.CreatedPipelineFile`; `CreatedAt` as nanoseconds since the zero instant. -/
structure CreatedPipelineFile where
  ID : String
  CreatedAt : Int
  deriving DecidableEq, Repr

/-- The collaborators of `NewCmdCreatePipelineFile`: `cfg.ReadFile`, the completer method
`LoadPipelineID`, the cloud method `CreatePipelineFile`, and `render` for the output stage
of the command (go-template, table, json or yaml), which yields the error it returns and
the text it writes. -/
structure PipelineFileWorld where
  ReadFile : String → Except GoError String
  LoadPipelineID : String → Except GoError String
  CreatePipelineFile : String → CloudCli.CreatePipelineFile → Except GoError CreatedPipelineFile
  render : String → String → CreatedPipelineFile → Option GoError × String

/-- The flag variables of `NewCmdCreatePipelineFile`. -/
structure PipelineFileFlags where
  pipelineKey : String
  file : String
  encrypt : Bool
  outputFormat : String
  goTemplate : String

/-- Everything observable of one run of `create pipeline_file`; `created` holds the create
requests: pipeline ID and payload of each. -/
structure PipelineFileResult where
  err : Option GoError
  output : String
  created : List (String × CreatePipelineFile)

/-- The `RunE` closure of source function `NewCmdCreatePipelineFile`. -/
def runCreatePipelineFile (world : PipelineFileWorld) (flags : PipelineFileFlags) :
    PipelineFileResult :=
  let name := Base flags.file
  let name := TrimSuffix name (Ext name)
  match world.ReadFile flags.file with
  | .error err => ⟨some err, "", []⟩
  | .ok contents =>
  match world.LoadPipelineID flags.pipelineKey with
  | .error err => ⟨some err, "", []⟩
  | .ok pipelineID =>
  let payload : CreatePipelineFile :=
    { Name := name, Contents := contents, Encrypted := flags.encrypt }
  match world.CreatePipelineFile pipelineID payload with
  | .error err => ⟨some err, "", [(pipelineID, payload)]⟩
  | .ok out =>
    ⟨(world.render flags.outputFormat flags.goTemplate out).1,
      (world.render flags.outputFormat flags.goTemplate out).2, [(pipelineID, payload)]⟩

/-- Collaborators for `create pipeline_file` in which every file holds `contents`, every
key resolves to itself, every create succeeds and nothing is rendered. -/
def samplePipelineFileWorld : PipelineFileWorld where
  ReadFile _ := .ok "contents"
  LoadPipelineID key := .ok key
  CreatePipelineFile _ _ := .ok { ID := "file-1", CreatedAt := 0 }
  render _ _ _ := (none, "")

/-! ## The `get instances` command -/

/-- The flag variables of `newCmdGetAggregators`; `last` is a `uint64`. -/
structure GetAggregatorsFlags where
  last : Nat
  format : String
  showIDs : Bool

/-- Everything observable of one run of `get instances`. -/
structure GetAggregatorsResult where
  err : Option GoError
  output : List String
  cloudCalls : List CloudCall

/-- The `RunE` closure of source function `newCmdGetAggregators`.  `renderTable` stands for
the table written through the tab writer and `jsonEncode` for `json.NewEncoder(..).Encode`. -/
def runGetAggregators (renderTable : Bool → List Aggregator → String)
    (jsonEncode : List Aggregator → Except GoError String) (quote : String → String)
    (cfg : config) (flags : GetAggregatorsFlags) : GetAggregatorsResult :=
  let params : AggregatorsParams := { Last := some flags.last }
  let calls := [CloudCall.Aggregators cfg.projectID params]
  match cfg.cloud.Aggregators cfg.projectID params with
  | .error err => ⟨some (errorfW "could not fetch your core instances: " err), [], calls⟩
  | .ok aa =>
    if flags.format = "table" then ⟨none, [renderTable flags.showIDs aa], calls⟩
    else if flags.format = "json" then
      match jsonEncode aa with
      | .error err =>
        ⟨some (errorfW "could not json encode your core instances: " err), [], calls⟩
      | .ok text => ⟨none, [text], calls⟩
    else ⟨some (.plain ("unknown output format " ++ quote flags.format)), [], calls⟩

/-! ## Lemmas on the map model -/

theorem mapGet_mapSet (m : NamesCount) (k : String) (v : Nat) (k' : String) :
    mapGet (mapSet m k v) k' = if k = k' then some v else mapGet m k' := by
  induction m with
  | nil => simp [mapSet, mapGet]
  | cons p rest ih =>
    obtain ⟨k0, v0⟩ := p
    by_cases h : k0 = k
    · subst h
      by_cases h2 : k0 = k' <;> simp [mapSet, mapGet, h2]
    · have hset : mapSet ((k0, v0) :: rest) k v = (k0, v0) :: mapSet rest k v := by
        simp [mapSet, h]
      rw [hset]
      by_cases h3 : k0 = k'
      · have h2 : ¬ k = k' := fun e => h (h3.trans e.symm)
        simp [mapGet, h3, h2]
      · simp [mapGet, h3, ih]

theorem keys_mapSet (m : NamesCount) (k : String) (v : Nat) :
    (mapSet m k v).map Prod.fst =
      if k ∈ m.map Prod.fst then m.map Prod.fst else m.map Prod.fst ++ [k] := by
  induction m with
  | nil => simp [mapSet]
  | cons p rest ih =>
    obtain ⟨k0, v0⟩ := p
    by_cases h : k0 = k
    · subst h
      simp [mapSet]
    · have h' : ¬ k = k0 := fun e => h e.symm
      by_cases hk : k ∈ rest.map Prod.fst
      · simp only [mapSet, h, if_false, List.map_cons, ih, hk, if_true, List.mem_cons, or_true]
      · simp only [mapSet, h, if_false, List.map_cons, ih, hk, List.mem_cons, h', or_self,
          List.cons_append]

theorem nodup_keys_mapSet (m : NamesCount) (k : String) (v : Nat)
    (hm : (m.map Prod.fst).Nodup) : ((mapSet m k v).map Prod.fst).Nodup := by
  rw [keys_mapSet]
  by_cases hk : k ∈ m.map Prod.fst
  · simpa [hk] using hm
  · rw [if_neg hk]
    refine List.Nodup.append hm (List.nodup_singleton k) ?_
    intro x hx hx'
    rw [List.mem_singleton] at hx'
    exact hk (hx' ▸ hx)

theorem mem_of_mapGet (m : NamesCount) (k : String) (v : Nat) (h : mapGet m k = some v) :
    (k, v) ∈ m := by
  induction m with
  | nil => simp [mapGet] at h
  | cons p rest ih =>
    obtain ⟨k0, v0⟩ := p
    by_cases hk : k0 = k
    · simp only [mapGet, hk, if_true, Option.some.injEq] at h
      simp [hk, h]
    · simp only [mapGet, hk, if_false] at h
      exact List.mem_cons_of_mem _ (ih h)

theorem mapGet_of_mem (m : NamesCount) (hm : (m.map Prod.fst).Nodup) (k : String) (v : Nat)
    (h : (k, v) ∈ m) : mapGet m k = some v := by
  induction m with
  | nil => simp at h
  | cons p rest ih =>
    obtain ⟨k0, v0⟩ := p
    rw [List.map_cons, List.nodup_cons] at hm
    rcases List.mem_cons.mp h with heq | hrest
    · injection heq with h1 h2
      simp [mapGet, h1, h2]
    · have hne : ¬ k0 = k := by
        intro e
        apply hm.1
        rw [e]
        exact List.mem_map.mpr ⟨(k, v), hrest, rfl⟩
      simp only [mapGet, hne, if_false]
      exact ih hm.2 hrest

/-- The result of the scan over the map does not depend on the order of the entries: it
is `true` exactly when the map holds the name with count one. -/
theorem nameIsUnique_iff (m : NamesCount) (hm : (m.map Prod.fst).Nodup) (aName : String) :
    nameIsUnique m aName = true ↔ mapGet m aName = some 1 := by
  have key : nameIsUnique m aName = true ↔ (aName, 1) ∈ m := by
    clear hm
    induction m with
    | nil => simp [nameIsUnique]
    | cons p rest ih =>
      obtain ⟨k0, v0⟩ := p
      by_cases h : aName = k0 ∧ v0 = 1
      · obtain ⟨h1, h2⟩ := h
        simp [nameIsUnique, h1, h2]
      · have h' : ¬ (aName, 1) = (k0, v0) := by
          intro e
          injection e with e1 e2
          exact h ⟨e1, e2.symm⟩
        simp only [nameIsUnique, h, if_false, ih, List.mem_cons, h', false_or]
  rw [key]
  exact ⟨mapGet_of_mem m hm aName 1, mem_of_mapGet m aName 1⟩

theorem mapGet_namesCountStep (m : NamesCount) (name n : String) :
    mapGet (namesCountStep m name) n =
      if name = n then some ((mapGet m n).getD 0 + 1) else mapGet m n := by
  unfold namesCountStep
  cases hg : mapGet m name with
  | none =>
    simp only [mapGet_mapSet]
    by_cases h : name = n
    · subst h
      simp [hg]
    · simp [h]
  | some c =>
    simp only [mapGet_mapSet]
    by_cases h : name = n
    · subst h
      simp [hg]
    · simp [h]

theorem nodup_keys_namesCountStep (m : NamesCount) (name : String)
    (hm : (m.map Prod.fst).Nodup) : ((namesCountStep m name).map Prod.fst).Nodup := by
  unfold namesCountStep
  cases mapGet m name with
  | none => exact nodup_keys_mapSet m name 1 hm
  | some c => exact nodup_keys_mapSet m name (c + 1) hm

/-- The counting loop: afterwards the map holds, for every name, the number held before
plus the number of occurrences of the name in the list. -/
theorem namesCount_foldl (names : List String) (m : NamesCount)
    (hm : (m.map Prod.fst).Nodup) :
    ((names.foldl namesCountStep m).map Prod.fst).Nodup ∧
      ∀ n, mapGet (names.foldl namesCountStep m) n =
        if names.count n = 0 then mapGet m n
        else some ((mapGet m n).getD 0 + names.count n) := by
  induction names generalizing m with
  | nil => exact ⟨hm, fun n => by simp⟩
  | cons name rest ih =>
    have hstep := nodup_keys_namesCountStep m name hm
    obtain ⟨h1, h2⟩ := ih (namesCountStep m name) hstep
    refine ⟨h1, fun n => ?_⟩
    rw [List.foldl_cons, h2 n, mapGet_namesCountStep]
    by_cases hn : name = n
    · subst hn
      by_cases hc : List.count name rest = 0
      · simp [hc]
      · simp [hc, List.count_cons_self]
        omega
    · have hb : (name == n) = false := by simpa using hn
      by_cases hc : List.count n rest = 0
      · simp [hc, hn, List.count_cons, hb]
      · simp [hc, hn, List.count_cons, hb]

theorem namesCount_of_names (names : List String) :
    ((names.foldl namesCountStep []).map Prod.fst).Nodup ∧
      ∀ n, mapGet (names.foldl namesCountStep []) n =
        if names.count n = 0 then none else some (names.count n) := by
  obtain ⟨h1, h2⟩ := namesCount_foldl names [] (by simp)
  refine ⟨h1, fun n => ?_⟩
  rw [h2 n]
  simp [mapGet]

theorem aggregatorsNamesCount_eq (aa : List Aggregator) :
    aggregatorsNamesCount aa = (aa.map (fun a => a.Name)).foldl namesCountStep [] := by
  unfold aggregatorsNamesCount
  rw [List.foldl_map]

theorem agentsNamesCount_eq (aa : List Agent) :
    agentsNamesCount aa = (aa.map (fun a => a.Name)).foldl namesCountStep [] := by
  unfold agentsNamesCount
  rw [List.foldl_map]

/-- A loop that appends one element per item builds the mapped list. -/
theorem foldl_append_eq_map {α : Type} (F : List String → α → List String) (h : α → String)
    (l : List α) (hF : ∀ a ∈ l, ∀ out, F out a = out ++ [h a]) (init : List String) :
    l.foldl F init = init ++ l.map h := by
  induction l generalizing init with
  | nil => simp
  | cons a rest ih =>
    rw [List.foldl_cons, hF a (List.mem_cons_self a rest) init,
      ih (fun b hb => hF b (List.mem_cons_of_mem a hb))]
    simp

theorem count_pos_of_mem_names {α : Type} (f : α → String) (l : List α) (a : α) (ha : a ∈ l) :
    0 < (l.map f).count (f a) :=
  List.count_pos_iff.mpr (List.mem_map.mpr ⟨a, ha, rfl⟩)

/-- Source function `aggregatorsKeys` as a map over the listing. -/
theorem aggregatorsKeys_eq_map (aa : List Aggregator) :
    aggregatorsKeys aa =
      aa.map (fun a =>
        if (aa.map (fun b => b.Name)).count a.Name = 1 then a.Name else a.ID) := by
  obtain ⟨hnd, hget⟩ := namesCount_of_names (aa.map (fun a => a.Name))
  unfold aggregatorsKeys
  rw [aggregatorsNamesCount_eq]
  simp only []
  rw [foldl_append_eq_map _
    (fun a => if (aa.map (fun b => b.Name)).count a.Name = 1 then a.Name else a.ID)]
  · simp
  · intro a _ out
    have hiff := nameIsUnique_iff _ hnd a.Name
    rw [hget a.Name] at hiff
    by_cases hc : (aa.map (fun b => b.Name)).count a.Name = 1
    · have hu : nameIsUnique ((aa.map (fun a => a.Name)).foldl namesCountStep []) a.Name = true :=
        hiff.mpr (by simp [hc])
      simp [hu, hc]
    · have hu : ¬ nameIsUnique ((aa.map (fun a => a.Name)).foldl namesCountStep []) a.Name
          = true := by
        intro hu
        have := hiff.mp hu
        by_cases h0 : (aa.map (fun b => b.Name)).count a.Name = 0
        · simp [h0] at this
        · simp [h0] at this
          exact hc this
      simp [hu, hc]

/-- Source function `agentsKeys` as a map over the listing. -/
theorem agentsKeys_eq_map (aa : List Agent) :
    agentsKeys aa =
      aa.map (fun a =>
        if (aa.map (fun b => b.Name)).count a.Name = 1 then a.Name else a.ID) := by
  obtain ⟨_, hget⟩ := namesCount_of_names (aa.map (fun a => a.Name))
  unfold agentsKeys
  rw [agentsNamesCount_eq]
  simp only []
  rw [foldl_append_eq_map _
    (fun a => if (aa.map (fun b => b.Name)).count a.Name = 1 then a.Name else a.ID)]
  · simp
  · intro a ha out
    have hpos : 0 < (aa.map (fun b => b.Name)).count a.Name :=
      count_pos_of_mem_names (fun b : Agent => b.Name) aa a ha
    have h0 : ¬ (aa.map (fun b => b.Name)).count a.Name = 0 := by omega
    rw [hget a.Name]
    simp only [h0, if_false]
    by_cases hc : (aa.map (fun b => b.Name)).count a.Name = 1 <;> simp [hc]

/-! ## Completion keys: the claims -/

/-- C1: for every listing of core instances, `aggregatorsKeys` returns a list as long as
the listing whose entry at each position is the entity's `Name` when that name occurs
exactly once in the listing and the entity's `ID` when it occurs two or more times; the
listing `[(id-1, name), (id-2, name), (id-3, other-name)]` of the test gives
`[id-1, id-2, other-name]`. -/
theorem aggregatorsKeys_name_when_unique_else_id (aa : List Aggregator) :
    (aggregatorsKeys aa).length = aa.length ∧
      aggregatorsKeys aa =
        aa.map (fun a =>
          if (aa.map (fun b => b.Name)).count a.Name = 1 then a.Name else a.ID) ∧
      aggregatorsKeys aa =
        aa.map (fun a =>
          if 2 ≤ (aa.map (fun b => b.Name)).count a.Name then a.ID else a.Name) ∧
      aggregatorsKeys
          [{ ID := "id-1", Name := "name" }, { ID := "id-2", Name := "name" },
            { ID := "id-3", Name := "other-name" }] =
        ["id-1", "id-2", "other-name"] := by
  refine ⟨?_, aggregatorsKeys_eq_map aa, ?_, ?_⟩
  · rw [aggregatorsKeys_eq_map, List.length_map]
  · rw [aggregatorsKeys_eq_map]
    apply List.map_congr_left
    intro a ha
    have hpos : 0 < (aa.map (fun b => b.Name)).count a.Name :=
      count_pos_of_mem_names (fun b : Aggregator => b.Name) aa a ha
    by_cases hc : (aa.map (fun b => b.Name)).count a.Name = 1
    · simp [hc]
    · have h2 : 2 ≤ (aa.map (fun b => b.Name)).count a.Name := by omega
      simp [hc, h2]
  · decide

/-- C2: for every listing whose names are pairwise distinct, `aggregatorsKeys` and
`agentsKeys` return exactly the names, in input order. -/
theorem keys_eq_names_of_distinct_names (aa : List Aggregator) (bb : List Agent)
    (haa : (aa.map (fun a => a.Name)).Nodup) (hbb : (bb.map (fun b => b.Name)).Nodup) :
    aggregatorsKeys aa = aa.map (fun a => a.Name) ∧
      agentsKeys bb = bb.map (fun b => b.Name) := by
  constructor
  · rw [aggregatorsKeys_eq_map]
    apply List.map_congr_left
    intro a ha
    have h1 : (aa.map (fun b => b.Name)).count a.Name = 1 :=
      List.count_eq_one_of_mem haa (List.mem_map.mpr ⟨a, ha, rfl⟩)
    simp [h1]
  · rw [agentsKeys_eq_map]
    apply List.map_congr_left
    intro b hb
    have h1 : (bb.map (fun c => c.Name)).count b.Name = 1 :=
      List.count_eq_one_of_mem hbb (List.mem_map.mpr ⟨b, hb, rfl⟩)
    simp [h1]

/-- The listing `[(id-1, name-1), (id-2, name-2)]` of the test has distinct names and
gives `[name-1, name-2]`, for core instances and for agents. -/
theorem keys_eq_names_of_distinct_names_witness :
    aggregatorsKeys [{ ID := "id-1", Name := "name-1" }, { ID := "id-2", Name := "name-2" }] =
        ["name-1", "name-2"] ∧
      agentsKeys [{ ID := "id-1", Name := "name-1" }, { ID := "id-2", Name := "name-2" }] =
        ["name-1", "name-2"] :=
  keys_eq_names_of_distinct_names
    [{ ID := "id-1", Name := "name-1" }, { ID := "id-2", Name := "name-2" }]
    [{ ID := "id-1", Name := "name-1" }, { ID := "id-2", Name := "name-2" }]
    (by decide) (by decide)

/-! ## Key resolution: the claims -/

/-- The listing parameters built by `loadAggregatorID`. -/
theorem loadAggregatorID_calls (validUUID : String → Bool) (quote : String → String)
    (cfg : config) (key : String) :
    (loadAggregatorID validUUID quote cfg key).calls =
      [CloudCall.Aggregators cfg.projectID { Name := some key, Last := some 2 }] := by
  unfold loadAggregatorID
  simp only []
  split
  · rfl
  · split_ifs <;> rfl

/-- The listing parameters built by `loadAgentID`. -/
theorem loadAgentID_calls (validUUID : String → Bool) (quote : String → String)
    (cfg : config) (key environmentID : String) :
    (loadAgentID validUUID quote cfg key environmentID).calls =
      [CloudCall.Agents cfg.projectID
        { Last := some 2, Name := some key
          EnvironmentID := if environmentID = "" then none else some environmentID }] := by
  unfold loadAgentID
  by_cases he : environmentID = ""
  · simp only [he, ne_eq, not_true_eq_false, if_false, if_true]
    split
    · rfl
    · split_ifs <;> rfl
  · simp only [he, ne_eq, not_false_eq_true, if_true, if_false]
    split
    · rfl
    · split_ifs <;> rfl

/-- What `loadAggregatorID` returns once the listing has answered with items. -/
theorem loadAggregatorID_ret_of_ok (validUUID : String → Bool) (quote : String → String)
    (cfg : config) (key : String) (aa : List Aggregator)
    (h : cfg.cloud.Aggregators cfg.projectID { Name := some key, Last := some 2 } = .ok aa) :
    (loadAggregatorID validUUID quote cfg key).ret =
      if aa.length ≠ 1 ∧ ¬ validUUID key = true then
        if aa.length ≠ 0 then
          ("", some (.plain ("ambiguous core instance name " ++ quote key ++ ", use ID instead")))
        else ("", some (.plain ("could not find core instance " ++ quote key)))
      else
        match aa with
        | [a] => (a.ID, none)
        | _ => (key, none) := by
  unfold loadAggregatorID
  simp only []
  rw [h]
  simp only []
  by_cases h1 : aa.length ≠ 1 ∧ ¬ validUUID key = true
  · rw [if_pos h1, if_pos h1]
    by_cases h2 : aa.length ≠ 0
    · rw [if_pos h2, if_pos h2]
    · rw [if_neg h2, if_neg h2]
  · rw [if_neg h1, if_neg h1]
    match aa with
    | [] => rfl
    | [a] => rfl
    | _ :: _ :: _ => rfl

/-- What `loadAgentID` returns once the listing has answered with items. -/
theorem loadAgentID_ret_of_ok (validUUID : String → Bool) (quote : String → String)
    (cfg : config) (key environmentID : String) (aa : List Agent)
    (h : cfg.cloud.Agents cfg.projectID
        { Last := some 2, Name := some key
          EnvironmentID := if environmentID = "" then none else some environmentID } = .ok aa) :
    (loadAgentID validUUID quote cfg key environmentID).ret =
      if aa.length ≠ 1 ∧ ¬ validUUID key = true then
        if aa.length ≠ 0 then
          ("", some (.plain ("ambiguous agent name " ++ quote key ++ ", use ID instead")))
        else ("", some (.plain ("could not find agent " ++ quote key)))
      else
        match aa with
        | [a] => (a.ID, none)
        | _ => (key, none) := by
  have hp : (if environmentID ≠ "" then
        ({ Last := some 2, Name := some key, EnvironmentID := some environmentID } : AgentsParams)
      else { Last := some 2, Name := some key }) =
      { Last := some 2, Name := some key
        EnvironmentID := if environmentID = "" then none else some environmentID } := by
    by_cases he : environmentID = "" <;> simp [he]
  unfold loadAgentID
  simp only []
  rw [hp, h]
  simp only []
  by_cases h1 : aa.length ≠ 1 ∧ ¬ validUUID key = true
  · rw [if_pos h1, if_pos h1]
    by_cases h2 : aa.length ≠ 0
    · rw [if_pos h2, if_pos h2]
    · rw [if_neg h2, if_neg h2]
  · rw [if_neg h1, if_neg h1]
    match aa with
    | [] => rfl
    | [a] => rfl
    | _ :: _ :: _ => rfl

/-- What `loadAggregatorID` returns when the listing fails. -/
theorem loadAggregatorID_ret_of_error (validUUID : String → Bool) (quote : String → String)
    (cfg : config) (key : String) (e : GoError)
    (h : cfg.cloud.Aggregators cfg.projectID { Name := some key, Last := some 2 } = .error e) :
    (loadAggregatorID validUUID quote cfg key).ret = ("", some e) := by
  unfold loadAggregatorID
  simp only []
  rw [h]

/-- What `loadAgentID` returns when the listing fails. -/
theorem loadAgentID_ret_of_error (validUUID : String → Bool) (quote : String → String)
    (cfg : config) (key environmentID : String) (e : GoError)
    (h : cfg.cloud.Agents cfg.projectID
        { Last := some 2, Name := some key
          EnvironmentID := if environmentID = "" then none else some environmentID } =
        .error e) :
    (loadAgentID validUUID quote cfg key environmentID).ret = ("", some e) := by
  have hp : (if environmentID ≠ "" then
        ({ Last := some 2, Name := some key, EnvironmentID := some environmentID } : AgentsParams)
      else { Last := some 2, Name := some key }) =
      { Last := some 2, Name := some key
        EnvironmentID := if environmentID = "" then none else some environmentID } := by
    by_cases he : environmentID = "" <;> simp [he]
  unfold loadAgentID
  simp only []
  rw [hp, h]

/-- A message that is put together from three parts contains the middle one. -/
theorem strContains_of_eq (s sub pre post : String) (h : s = pre ++ sub ++ post) :
    strContains s sub := by
  subst h
  unfold strContains
  simp only [String.data_append]
  exact ⟨pre.data, post.data, rfl⟩

/-- C3: for every key, ID-shaped or not, when the name-filtered listing returns exactly one
entity, `loadAggregatorID` and `loadAgentID` succeed and return that entity's ID. -/
theorem loadID_single_match_returns_its_id (validUUID : String → Bool)
    (quote : String → String) (cfg : config) (key environmentID : String)
    (a : Aggregator) (b : Agent)
    (ha : cfg.cloud.Aggregators cfg.projectID { Name := some key, Last := some 2 } = .ok [a])
    (hb : cfg.cloud.Agents cfg.projectID
        { Last := some 2, Name := some key
          EnvironmentID := if environmentID = "" then none else some environmentID } =
        .ok [b]) :
    (loadAggregatorID validUUID quote cfg key).ret = (a.ID, none) ∧
      (loadAgentID validUUID quote cfg key environmentID).ret = (b.ID, none) := by
  constructor
  · rw [loadAggregatorID_ret_of_ok validUUID quote cfg key [a] ha]
    simp
  · rw [loadAgentID_ret_of_ok validUUID quote cfg key environmentID [b] hb]
    simp

/-- An ID-shaped key that is also the name of exactly one entity resolves to the ID of
that entity, not to the key. -/
theorem loadID_single_match_returns_its_id_witness :
    sampleValidUUID "123e4567-e89b-12d3-a456-426614174000" = true ∧
      (loadAggregatorID sampleValidUUID sampleQuote
          (fixedConfig
            (.ok [{ ID := "id-1", Name := "123e4567-e89b-12d3-a456-426614174000" }])
            (.ok [{ ID := "id-2", Name := "123e4567-e89b-12d3-a456-426614174000" }]))
          "123e4567-e89b-12d3-a456-426614174000").ret = ("id-1", none) ∧
      (loadAgentID sampleValidUUID sampleQuote
          (fixedConfig
            (.ok [{ ID := "id-1", Name := "123e4567-e89b-12d3-a456-426614174000" }])
            (.ok [{ ID := "id-2", Name := "123e4567-e89b-12d3-a456-426614174000" }]))
          "123e4567-e89b-12d3-a456-426614174000" "env-1").ret = ("id-2", none) :=
  ⟨by decide,
    loadID_single_match_returns_its_id sampleValidUUID sampleQuote
      (fixedConfig
        (.ok [{ ID := "id-1", Name := "123e4567-e89b-12d3-a456-426614174000" }])
        (.ok [{ ID := "id-2", Name := "123e4567-e89b-12d3-a456-426614174000" }]))
      "123e4567-e89b-12d3-a456-426614174000" "env-1"
      { ID := "id-1", Name := "123e4567-e89b-12d3-a456-426614174000" }
      { ID := "id-2", Name := "123e4567-e89b-12d3-a456-426614174000" } rfl rfl⟩

/-- C4: for every key that `validUUID` rejects, when the name-filtered listing returns two
or more entities, `loadAggregatorID` and `loadAgentID` return the empty identifier and the
ambiguity error `ambiguous ... name <key>, use ID instead`. -/
theorem loadID_ambiguous (validUUID : String → Bool) (quote : String → String)
    (cfg : config) (key environmentID : String) (aa : List Aggregator) (bb : List Agent)
    (hkey : validUUID key = false)
    (ha : cfg.cloud.Aggregators cfg.projectID { Name := some key, Last := some 2 } = .ok aa)
    (hb : cfg.cloud.Agents cfg.projectID
        { Last := some 2, Name := some key
          EnvironmentID := if environmentID = "" then none else some environmentID } =
        .ok bb)
    (haa : 2 ≤ aa.length) (hbb : 2 ≤ bb.length) :
    (loadAggregatorID validUUID quote cfg key).ret =
        ("", some (.plain ("ambiguous core instance name " ++ quote key ++ ", use ID instead"))) ∧
      (loadAgentID validUUID quote cfg key environmentID).ret =
        ("", some (.plain ("ambiguous agent name " ++ quote key ++ ", use ID instead"))) := by
  constructor
  · rw [loadAggregatorID_ret_of_ok validUUID quote cfg key aa ha]
    have h1 : aa.length ≠ 1 ∧ ¬ validUUID key = true := ⟨by omega, by simp [hkey]⟩
    have h2 : aa.length ≠ 0 := by omega
    rw [if_pos h1, if_pos h2]
  · rw [loadAgentID_ret_of_ok validUUID quote cfg key environmentID bb hb]
    have h1 : bb.length ≠ 1 ∧ ¬ validUUID key = true := ⟨by omega, by simp [hkey]⟩
    have h2 : bb.length ≠ 0 := by omega
    rw [if_pos h1, if_pos h2]

/-- The name `web` held by two core instances and by two agents is refused as ambiguous. -/
theorem loadID_ambiguous_witness :
    (loadAggregatorID sampleValidUUID sampleQuote
          (fixedConfig
            (.ok [{ ID := "id-1", Name := "web" }, { ID := "id-2", Name := "web" }])
            (.ok [{ ID := "id-3", Name := "web" }, { ID := "id-4", Name := "web" }]))
          "web").ret =
        ("", some (.plain "ambiguous core instance name \"web\", use ID instead")) ∧
      (loadAgentID sampleValidUUID sampleQuote
          (fixedConfig
            (.ok [{ ID := "id-1", Name := "web" }, { ID := "id-2", Name := "web" }])
            (.ok [{ ID := "id-3", Name := "web" }, { ID := "id-4", Name := "web" }]))
          "web" "").ret =
        ("", some (.plain "ambiguous agent name \"web\", use ID instead")) :=
  loadID_ambiguous sampleValidUUID sampleQuote
    (fixedConfig
      (.ok [{ ID := "id-1", Name := "web" }, { ID := "id-2", Name := "web" }])
      (.ok [{ ID := "id-3", Name := "web" }, { ID := "id-4", Name := "web" }]))
    "web" ""
    [{ ID := "id-1", Name := "web" }, { ID := "id-2", Name := "web" }]
    [{ ID := "id-3", Name := "web" }, { ID := "id-4", Name := "web" }]
    (by decide) rfl rfl (by decide) (by decide)

/-- C5: for every key that `validUUID` rejects, when the name-filtered listing returns no
entity, `loadAggregatorID` and `loadAgentID` return the empty identifier and the not-found
error `could not find ...`. -/
theorem loadID_not_found (validUUID : String → Bool) (quote : String → String)
    (cfg : config) (key environmentID : String)
    (hkey : validUUID key = false)
    (ha : cfg.cloud.Aggregators cfg.projectID { Name := some key, Last := some 2 } = .ok [])
    (hb : cfg.cloud.Agents cfg.projectID
        { Last := some 2, Name := some key
          EnvironmentID := if environmentID = "" then none else some environmentID } =
        .ok []) :
    (loadAggregatorID validUUID quote cfg key).ret =
        ("", some (.plain ("could not find core instance " ++ quote key))) ∧
      (loadAgentID validUUID quote cfg key environmentID).ret =
        ("", some (.plain ("could not find agent " ++ quote key))) := by
  constructor
  · rw [loadAggregatorID_ret_of_ok validUUID quote cfg key [] ha]
    simp [hkey]
  · rw [loadAgentID_ret_of_ok validUUID quote cfg key environmentID [] hb]
    simp [hkey]

/-- The name `web` held by nothing is reported as not found. -/
theorem loadID_not_found_witness :
    (loadAggregatorID sampleValidUUID sampleQuote (fixedConfig (.ok []) (.ok [])) "web").ret =
        ("", some (.plain "could not find core instance \"web\"")) ∧
      (loadAgentID sampleValidUUID sampleQuote (fixedConfig (.ok []) (.ok [])) "web" "").ret =
        ("", some (.plain "could not find agent \"web\"")) :=
  loadID_not_found sampleValidUUID sampleQuote (fixedConfig (.ok []) (.ok [])) "web" ""
    (by decide) rfl rfl

/-- C6: for every key that `validUUID` accepts, when the name-filtered listing returns no
entity or two or more entities, `loadAggregatorID` and `loadAgentID` succeed and return the
key itself unchanged, and the listing is the only request they issue. -/
theorem loadID_trusts_id_shaped_key (validUUID : String → Bool) (quote : String → String)
    (cfg : config) (key environmentID : String) (aa : List Aggregator) (bb : List Agent)
    (hkey : validUUID key = true)
    (ha : cfg.cloud.Aggregators cfg.projectID { Name := some key, Last := some 2 } = .ok aa)
    (hb : cfg.cloud.Agents cfg.projectID
        { Last := some 2, Name := some key
          EnvironmentID := if environmentID = "" then none else some environmentID } =
        .ok bb)
    (haa : aa.length = 0 ∨ 2 ≤ aa.length) (hbb : bb.length = 0 ∨ 2 ≤ bb.length) :
    ((loadAggregatorID validUUID quote cfg key).ret = (key, none) ∧
        (loadAggregatorID validUUID quote cfg key).calls =
          [CloudCall.Aggregators cfg.projectID { Name := some key, Last := some 2 }]) ∧
      ((loadAgentID validUUID quote cfg key environmentID).ret = (key, none) ∧
        (loadAgentID validUUID quote cfg key environmentID).calls =
          [CloudCall.Agents cfg.projectID
            { Last := some 2, Name := some key
              EnvironmentID := if environmentID = "" then none else some environmentID }]) := by
  refine ⟨⟨?_, loadAggregatorID_calls validUUID quote cfg key⟩,
    ⟨?_, loadAgentID_calls validUUID quote cfg key environmentID⟩⟩
  · rw [loadAggregatorID_ret_of_ok validUUID quote cfg key aa ha]
    have h1 : ¬ (aa.length ≠ 1 ∧ ¬ validUUID key = true) := by simp [hkey]
    rw [if_neg h1]
    match aa, haa with
    | [], _ => rfl
    | _ :: _ :: _, _ => rfl
    | [_], h => simp at h
  · rw [loadAgentID_ret_of_ok validUUID quote cfg key environmentID bb hb]
    have h1 : ¬ (bb.length ≠ 1 ∧ ¬ validUUID key = true) := by simp [hkey]
    rw [if_neg h1]
    match bb, hbb with
    | [], _ => rfl
    | _ :: _ :: _, _ => rfl
    | [_], h => simp at h

/-- An ID-shaped key is returned as it is when nothing carries it as a name (core
instances) and when two entities carry it as a name (agents). -/
theorem loadID_trusts_id_shaped_key_witness :
    ((loadAggregatorID sampleValidUUID sampleQuote
          (fixedConfig (.ok [])
            (.ok [{ ID := "id-3", Name := "123e4567-e89b-12d3-a456-426614174000" },
              { ID := "id-4", Name := "123e4567-e89b-12d3-a456-426614174000" }]))
          "123e4567-e89b-12d3-a456-426614174000").ret =
        ("123e4567-e89b-12d3-a456-426614174000", none) ∧
      (loadAggregatorID sampleValidUUID sampleQuote
          (fixedConfig (.ok [])
            (.ok [{ ID := "id-3", Name := "123e4567-e89b-12d3-a456-426614174000" },
              { ID := "id-4", Name := "123e4567-e89b-12d3-a456-426614174000" }]))
          "123e4567-e89b-12d3-a456-426614174000").calls =
        [CloudCall.Aggregators "project"
          { Name := some "123e4567-e89b-12d3-a456-426614174000", Last := some 2 }]) ∧
      ((loadAgentID sampleValidUUID sampleQuote
          (fixedConfig (.ok [])
            (.ok [{ ID := "id-3", Name := "123e4567-e89b-12d3-a456-426614174000" },
              { ID := "id-4", Name := "123e4567-e89b-12d3-a456-426614174000" }]))
          "123e4567-e89b-12d3-a456-426614174000" "").ret =
        ("123e4567-e89b-12d3-a456-426614174000", none) ∧
      (loadAgentID sampleValidUUID sampleQuote
          (fixedConfig (.ok [])
            (.ok [{ ID := "id-3", Name := "123e4567-e89b-12d3-a456-426614174000" },
              { ID := "id-4", Name := "123e4567-e89b-12d3-a456-426614174000" }]))
          "123e4567-e89b-12d3-a456-426614174000" "").calls =
        [CloudCall.Agents "project"
          { Last := some 2, Name := some "123e4567-e89b-12d3-a456-426614174000" }]) :=
  loadID_trusts_id_shaped_key sampleValidUUID sampleQuote
    (fixedConfig (.ok [])
      (.ok [{ ID := "id-3", Name := "123e4567-e89b-12d3-a456-426614174000" },
        { ID := "id-4", Name := "123e4567-e89b-12d3-a456-426614174000" }]))
    "123e4567-e89b-12d3-a456-426614174000" "" []
    [{ ID := "id-3", Name := "123e4567-e89b-12d3-a456-426614174000" },
      { ID := "id-4", Name := "123e4567-e89b-12d3-a456-426614174000" }]
    (by decide) rfl rfl (by decide) (by decide)

/-- C7: for every error `e` returned by the listing call, `loadAggregatorID` and
`loadAgentID` return the empty identifier together with exactly `e`, whatever the key is. -/
theorem loadID_passes_listing_error (validUUID : String → Bool) (quote : String → String)
    (cfg : config) (key environmentID : String) (ea eb : GoError)
    (ha : cfg.cloud.Aggregators cfg.projectID { Name := some key, Last := some 2 } = .error ea)
    (hb : cfg.cloud.Agents cfg.projectID
        { Last := some 2, Name := some key
          EnvironmentID := if environmentID = "" then none else some environmentID } =
        .error eb) :
    (loadAggregatorID validUUID quote cfg key).ret = ("", some ea) ∧
      (loadAgentID validUUID quote cfg key environmentID).ret = ("", some eb) :=
  ⟨loadAggregatorID_ret_of_error validUUID quote cfg key ea ha,
    loadAgentID_ret_of_error validUUID quote cfg key environmentID eb hb⟩

/-- A listing that fails with a wrapped transport error hands that very error back, for a
key that is not ID-shaped. -/
theorem loadID_passes_listing_error_witness :
    (loadAggregatorID sampleValidUUID sampleQuote
          (fixedConfig (.error (.wrap "get: timeout" (.plain "timeout")))
            (.error (.plain "unauthorized")))
          "web").ret = ("", some (.wrap "get: timeout" (.plain "timeout"))) ∧
      (loadAgentID sampleValidUUID sampleQuote
          (fixedConfig (.error (.wrap "get: timeout" (.plain "timeout")))
            (.error (.plain "unauthorized")))
          "web" "env-1").ret = ("", some (.plain "unauthorized")) :=
  loadID_passes_listing_error sampleValidUUID sampleQuote
    (fixedConfig (.error (.wrap "get: timeout" (.plain "timeout")))
      (.error (.plain "unauthorized")))
    "web" "env-1" (.wrap "get: timeout" (.plain "timeout")) (.plain "unauthorized") rfl rfl

/-- C8: each call of `loadAggregatorID` / `loadAgentID` issues exactly one listing request,
with the name filter set to the human key and the cap `Last` set to 2; `loadAgentID` sets
the environment filter exactly when the given environment ID is not empty, and then to
that ID. -/
theorem loadID_issues_one_capped_listing (validUUID : String → Bool)
    (quote : String → String) (cfg : config) (key environmentID : String) :
    (loadAggregatorID validUUID quote cfg key).calls =
        [CloudCall.Aggregators cfg.projectID { Name := some key, Last := some 2 }] ∧
      (loadAgentID validUUID quote cfg key environmentID).calls =
        [CloudCall.Agents cfg.projectID
          { Last := some 2, Name := some key
            EnvironmentID := if environmentID = "" then none else some environmentID }] :=
  ⟨loadAggregatorID_calls validUUID quote cfg key,
    loadAgentID_calls validUUID quote cfg key environmentID⟩

/-- C9: every not-found and every ambiguity error made by `loadAggregatorID` /
`loadAgentID` (that is, every error they return after the listing answered) has a message
that contains the entity kind, `core instance` or `agent`, and the quoted human key. -/
theorem loadID_error_names_kind_and_key (validUUID : String → Bool) (quote : String → String)
    (cfg : config) (key environmentID : String) (aa : List Aggregator) (bb : List Agent)
    (erra errb : GoError)
    (ha : cfg.cloud.Aggregators cfg.projectID { Name := some key, Last := some 2 } = .ok aa)
    (hb : cfg.cloud.Agents cfg.projectID
        { Last := some 2, Name := some key
          EnvironmentID := if environmentID = "" then none else some environmentID } =
        .ok bb)
    (hea : (loadAggregatorID validUUID quote cfg key).ret.2 = some erra)
    (heb : (loadAgentID validUUID quote cfg key environmentID).ret.2 = some errb) :
    (strContains erra.Error "core instance" ∧ strContains erra.Error (quote key)) ∧
      (strContains errb.Error "agent" ∧ strContains errb.Error (quote key)) := by
  rw [loadAggregatorID_ret_of_ok validUUID quote cfg key aa ha] at hea
  rw [loadAgentID_ret_of_ok validUUID quote cfg key environmentID bb hb] at heb
  constructor
  · by_cases h1 : aa.length ≠ 1 ∧ ¬ validUUID key = true
    · rw [if_pos h1] at hea
      by_cases h2 : aa.length ≠ 0
      · rw [if_pos h2] at hea
        injection hea with hea
        subst hea
        exact ⟨strContains_of_eq _ "core instance" "ambiguous "
            (" name " ++ quote key ++ ", use ID instead") (by
              simp only [GoError.Error, ← String.append_assoc]
              rfl),
          strContains_of_eq _ (quote key) "ambiguous core instance name " ", use ID instead" rfl⟩
      · rw [if_neg h2] at hea
        injection hea with hea
        subst hea
        exact ⟨strContains_of_eq _ "core instance" "could not find " (" " ++ quote key) (by
              simp only [GoError.Error, ← String.append_assoc]
              rfl),
          strContains_of_eq _ (quote key) "could not find core instance " "" (by
              simp [GoError.Error])⟩
    · rw [if_neg h1] at hea
      match aa with
      | [] => simp at hea
      | [_] => simp at hea
      | _ :: _ :: _ => simp at hea
  · by_cases h1 : bb.length ≠ 1 ∧ ¬ validUUID key = true
    · rw [if_pos h1] at heb
      by_cases h2 : bb.length ≠ 0
      · rw [if_pos h2] at heb
        injection heb with heb
        subst heb
        exact ⟨strContains_of_eq _ "agent" "ambiguous "
            (" name " ++ quote key ++ ", use ID instead") (by
              simp only [GoError.Error, ← String.append_assoc]
              rfl),
          strContains_of_eq _ (quote key) "ambiguous agent name " ", use ID instead" rfl⟩
      · rw [if_neg h2] at heb
        injection heb with heb
        subst heb
        exact ⟨strContains_of_eq _ "agent" "could not find " (" " ++ quote key) (by
              simp only [GoError.Error, ← String.append_assoc]
              rfl),
          strContains_of_eq _ (quote key) "could not find agent " "" (by
              simp [GoError.Error])⟩
    · rw [if_neg h1] at heb
      match bb with
      | [] => simp at heb
      | [_] => simp at heb
      | _ :: _ :: _ => simp at heb

/-- The not-found error on an empty listing and the ambiguity error on a listing of two
agents both name the kind and the quoted key `web`. -/
theorem loadID_error_names_kind_and_key_witness :
    (strContains "could not find core instance \"web\"" "core instance" ∧
        strContains "could not find core instance \"web\"" "\"web\"") ∧
      (strContains "ambiguous agent name \"web\", use ID instead" "agent" ∧
        strContains "ambiguous agent name \"web\", use ID instead" "\"web\"") :=
  loadID_error_names_kind_and_key sampleValidUUID sampleQuote
    (fixedConfig (.ok []) (.ok [{ ID := "id-3", Name := "web" }, { ID := "id-4", Name := "web" }]))
    "web" "" [] [{ ID := "id-3", Name := "web" }, { ID := "id-4", Name := "web" }]
    (.plain "could not find core instance \"web\"")
    (.plain "ambiguous agent name \"web\", use ID instead") rfl rfl rfl rfl

/-! ## Provisioning: lemmas on the steps -/

/-- The outcome of `ensureOwnNamespace`, by the answers of the cluster. -/
theorem ensureOwnNamespace_eq (IsNotFound : GoError → Bool) (client : k8sClient)
    (trace : List K8sEvent) :
    ensureOwnNamespace IsNotFound client trace =
      match client.Clientset.GetNamespace trace client.namespace_ with
      | .ok _ => (none, trace ++ [⟨.GetNamespace client.namespace_, none⟩])
      | .error e =>
        if IsNotFound e then
          match client.Clientset.CreateNamespace
              (trace ++ [⟨.GetNamespace client.namespace_, some e⟩]) (ownNamespaceObject client) with
          | .ok _ =>
            (none, trace ++ [⟨.GetNamespace client.namespace_, some e⟩] ++
              [⟨.CreateNamespace (ownNamespaceObject client), none⟩])
          | .error e2 =>
            (some (errorfW "create: " e2),
              trace ++ [⟨.GetNamespace client.namespace_, some e⟩] ++
                [⟨.CreateNamespace (ownNamespaceObject client), some e2⟩])
        else
          (some (errorfW "exists: " e), trace ++ [⟨.GetNamespace client.namespace_, some e⟩]) := by
  unfold ensureOwnNamespace ownNamespaceExists createOwnNamespace
  cases hget : client.Clientset.GetNamespace trace client.namespace_ with
  | ok v => simp [errOf]
  | error e =>
    by_cases hnf : IsNotFound e = true
    · simp only [hnf, if_true, errOf]
      cases hcr : client.Clientset.CreateNamespace
          (trace ++ [⟨.GetNamespace client.namespace_, some e⟩]) (ownNamespaceObject client) with
      | ok v => simp [errOf]
      | error e2 => simp [errOf]
    · simp [hnf, errOf]

/-! ## Provisioning: the claims -/

/-- C10: when every cluster call succeeds, the Kubernetes create command for a created core
instance named `n` issues its cluster calls in exactly this order: get namespace, create
namespace only if the get reported not-found, create ClusterRole `n-cluster-role`, create
ServiceAccount `n-service-account`, create ClusterRoleBinding `n-cluster-role-binding`,
create Deployment `n-deployment`; each is issued once and the command returns no error. -/
theorem runCreateAggregatorOnK8s_calls_in_order (IsNotFound : GoError → Bool)
    (quote : String → String) (cfg : config) (kube : KubeLoader) (flags : K8sFlags)
    (clientset : Clientset) (created : CreatedAggregator)
    (hcc : kube.ClientConfig = none) (hcs : kube.NewForConfig = .ok clientset)
    (hcreated : cfg.cloud.CreateAggregator
        { Name := flags.aggregatorName
          AddHealthCheckPipeline := !flags.noHealthCheckPipeline
          Version := ""
          EnvironmentID := flags.environmentID
          Tags := flags.tags } = .ok created)
    (hok : (runCreateAggregatorOnK8s IsNotFound quote cfg kube flags).k8sTrace.all
        (K8sEvent.succeeded IsNotFound) = true) :
    (runCreateAggregatorOnK8s IsNotFound quote cfg kube flags).err = none ∧
      (runCreateAggregatorOnK8s IsNotFound quote cfg kube flags).k8sTrace.map
          (fun ev => ev.call.describe) =
        ("get Namespace",
            if flags.kubeNamespace = "" then NamespaceDefault else flags.kubeNamespace) ::
          ((if reportedNotFound IsNotFound
                (runCreateAggregatorOnK8s IsNotFound quote cfg kube flags).k8sTrace then
              [("create Namespace",
                if flags.kubeNamespace = "" then NamespaceDefault else flags.kubeNamespace)]
            else []) ++
            [("create ClusterRole", created.Name ++ "-cluster-role"),
              ("create ServiceAccount", created.Name ++ "-service-account"),
              ("create ClusterRoleBinding", created.Name ++ "-cluster-role-binding"),
              ("create Deployment", created.Name ++ "-deployment")]) := by
  revert hok
  unfold runCreateAggregatorOnK8s
  simp only [hcc, hcs, hcreated]
  generalize hclient : ({ Clientset := clientset
                          namespace_ :=
                            if flags.kubeNamespace = "" then NamespaceDefault
                            else flags.kubeNamespace
                          projectID := cfg.projectID
                          projectToken := cfg.projectToken
                          cloudBaseURL := cfg.baseURL } : k8sClient) = client
  have hns : (if flags.kubeNamespace = "" then NamespaceDefault else flags.kubeNamespace) =
      client.namespace_ := by rw [← hclient]
  rw [hns]
  have hens : ∀ p, p = ensureOwnNamespace IsNotFound client [] →
      (∀ err, p.1 = some err → p.2.all (K8sEvent.succeeded IsNotFound) = false) ∧
      (p.1 = none →
        p.2.map (fun ev => ev.call.describe) =
          ("get Namespace", client.namespace_) ::
            (if reportedNotFound IsNotFound p.2 then [("create Namespace", client.namespace_)]
              else []) ∧
        ∀ rest, reportedNotFound IsNotFound (p.2 ++ rest) = reportedNotFound IsNotFound p.2) := by
    intro p hp
    rw [ensureOwnNamespace_eq] at hp
    rcases hget : client.Clientset.GetNamespace [] client.namespace_ with e | v
    · rw [hget] at hp
      by_cases hnf : IsNotFound e = true
      · simp only [hnf, if_true] at hp
        rcases hcn : client.Clientset.CreateNamespace
            ([] ++ [⟨.GetNamespace client.namespace_, some e⟩]) (ownNamespaceObject client)
          with e2 | v2
        · rw [hcn] at hp
          subst hp
          simp [K8sEvent.succeeded]
        · rw [hcn] at hp
          subst hp
          simp [K8sEvent.succeeded, reportedNotFound, hnf, K8sCall.describe, ownNamespaceObject]
      · simp only [hnf] at hp
        subst hp
        simp [K8sEvent.succeeded, hnf]
    · rw [hget] at hp
      subst hp
      simp [K8sEvent.succeeded, reportedNotFound, K8sCall.describe]
  have hp := hens _ rfl
  generalize ensureOwnNamespace IsNotFound client [] = p at hp ⊢
  obtain ⟨eo, t1⟩ := p
  obtain ⟨hfail, hsucc⟩ := hp
  cases eo with
  | some err =>
    intro hall
    have hf := hfail err rfl
    simp only [] at hall hf
    rw [hf] at hall
    exact absurd hall (by decide)
  | none =>
    obtain ⟨hdesc, hrep⟩ := hsucc rfl
    simp only [] at hdesc hrep
    simp only [createClusterRole, createServiceAccount, createClusterRoleBinding,
      createDeployment]
    obtain ⟨r1, h1⟩ : ∃ r, client.Clientset.CreateClusterRole t1
        (clusterRoleObject client created) = r := ⟨_, rfl⟩
    simp only [h1]
    rcases r1 with e1 | cr
    · simp [errOf, K8sEvent.succeeded]
    · simp only [errOf]
      obtain ⟨r2, h2⟩ : ∃ r, client.Clientset.CreateServiceAccount
          (t1 ++ [⟨.CreateClusterRole (clusterRoleObject client created), none⟩])
          client.namespace_ (serviceAccountObject client created) = r := ⟨_, rfl⟩
      simp only [h2]
      rcases r2 with e2 | sa
      · simp [errOf, K8sEvent.succeeded]
      · simp only [errOf]
        obtain ⟨r3, h3⟩ : ∃ r, client.Clientset.CreateClusterRoleBinding
            (t1 ++ [⟨.CreateClusterRole (clusterRoleObject client created), none⟩] ++
              [⟨.CreateServiceAccount client.namespace_ (serviceAccountObject client created),
                none⟩])
            (clusterRoleBindingObject client created cr sa) = r := ⟨_, rfl⟩
        simp only [h3]
        rcases r3 with e3 | crb
        · simp [errOf, K8sEvent.succeeded]
        · simp only [errOf]
          obtain ⟨r4, h4⟩ : ∃ r, client.Clientset.CreateDeployment
              (t1 ++ [⟨.CreateClusterRole (clusterRoleObject client created), none⟩] ++
                [⟨.CreateServiceAccount client.namespace_ (serviceAccountObject client created),
                  none⟩] ++
                [⟨.CreateClusterRoleBinding (clusterRoleBindingObject client created cr sa),
                  none⟩])
              client.namespace_ (deploymentObject client created sa) = r := ⟨_, rfl⟩
          simp only [h4]
          rcases r4 with e4 | dep
          · simp [errOf, K8sEvent.succeeded]
          · intro _
            simp only [errOf, List.append_assoc, hrep, List.map_append, hdesc]
            simp [K8sCall.describe, clusterRoleObject, serviceAccountObject,
              clusterRoleBindingObject, deploymentObject]

/-- The command run for the name `demo` against the empty in-memory cluster: the namespace
`default` is looked up, found absent and created, then the four objects are created. -/
theorem runCreateAggregatorOnK8s_calls_in_order_witness :
    (runCreateAggregatorOnK8s memIsNotFound sampleQuote (fixedConfig (.ok []) (.ok []))
          memKube demoFlags).err = none ∧
      (runCreateAggregatorOnK8s memIsNotFound sampleQuote (fixedConfig (.ok []) (.ok []))
          memKube demoFlags).k8sTrace.map (fun ev => ev.call.describe) =
        [("get Namespace", "default"), ("create Namespace", "default"),
          ("create ClusterRole", "demo-cluster-role"),
          ("create ServiceAccount", "demo-service-account"),
          ("create ClusterRoleBinding", "demo-cluster-role-binding"),
          ("create Deployment", "demo-deployment")] :=
  runCreateAggregatorOnK8s_calls_in_order memIsNotFound sampleQuote
    (fixedConfig (.ok []) (.ok [])) memKube demoFlags memClientset
    { ID := "id-demo", Name := "demo" } rfl rfl rfl (by decide)

/-! ## Provisioning: the shape of a run -/

/-- The shapes a run of the command can take once the kube configuration is loaded and the
core instance is registered: it stops at the first step that fails, or completes. -/
theorem runCreateAggregatorOnK8s_cases (IsNotFound : GoError → Bool)
    (quote : String → String) (cfg : config) (kube : KubeLoader) (flags : K8sFlags)
    (clientset : Clientset) (created : CreatedAggregator)
    (hcc : kube.ClientConfig = none) (hcs : kube.NewForConfig = .ok clientset)
    (hcreated : cfg.cloud.CreateAggregator
        { Name := flags.aggregatorName
          AddHealthCheckPipeline := !flags.noHealthCheckPipeline
          Version := ""
          EnvironmentID := flags.environmentID
          Tags := flags.tags } = .ok created) :
    ∀ client r p ns crEv saEv, client = commandClient cfg clientset flags →
      r = runCreateAggregatorOnK8s IsNotFound quote cfg kube flags →
      p = ensureOwnNamespace IsNotFound client [] →
      ns = client.namespace_ →
      crEv = K8sCall.CreateClusterRole (clusterRoleObject client created) →
      saEv = K8sCall.CreateServiceAccount ns (serviceAccountObject client created) →
      (∃ err, p.1 = some err ∧
          r.err = some (errorfW "could not ensure kubernetes namespace exists: " err) ∧
          r.k8sTrace = p.2) ∨
      (p.1 = none ∧ ∃ e,
          clientset.CreateClusterRole p.2 (clusterRoleObject client created) = .error e ∧
          r.err = some (errorfW "could not create kubernetes cluster role: " e) ∧
          r.k8sTrace = p.2 ++ [⟨crEv, some e⟩]) ∨
      (p.1 = none ∧ ∃ cr e,
          clientset.CreateClusterRole p.2 (clusterRoleObject client created) = .ok cr ∧
          clientset.CreateServiceAccount (p.2 ++ [⟨crEv, none⟩]) ns
            (serviceAccountObject client created) = .error e ∧
          r.err = some (errorfW "could not create kubernetes service account: " e) ∧
          r.k8sTrace = p.2 ++ [⟨crEv, none⟩, ⟨saEv, some e⟩]) ∨
      (p.1 = none ∧ ∃ cr sa e,
          clientset.CreateClusterRole p.2 (clusterRoleObject client created) = .ok cr ∧
          clientset.CreateServiceAccount (p.2 ++ [⟨crEv, none⟩]) ns
            (serviceAccountObject client created) = .ok sa ∧
          clientset.CreateClusterRoleBinding (p.2 ++ [⟨crEv, none⟩, ⟨saEv, none⟩])
            (clusterRoleBindingObject client created cr sa) = .error e ∧
          r.err = some (errorfW "could not create kubernetes cluster role binding: " e) ∧
          r.k8sTrace = p.2 ++ [⟨crEv, none⟩, ⟨saEv, none⟩,
            ⟨.CreateClusterRoleBinding (clusterRoleBindingObject client created cr sa), some e⟩]) ∨
      (p.1 = none ∧ ∃ cr sa crb e,
          clientset.CreateClusterRole p.2 (clusterRoleObject client created) = .ok cr ∧
          clientset.CreateServiceAccount (p.2 ++ [⟨crEv, none⟩]) ns
            (serviceAccountObject client created) = .ok sa ∧
          clientset.CreateClusterRoleBinding (p.2 ++ [⟨crEv, none⟩, ⟨saEv, none⟩])
            (clusterRoleBindingObject client created cr sa) = .ok crb ∧
          clientset.CreateDeployment
            (p.2 ++ [⟨crEv, none⟩, ⟨saEv, none⟩,
              ⟨.CreateClusterRoleBinding (clusterRoleBindingObject client created cr sa), none⟩])
            ns (deploymentObject client created sa) = .error e ∧
          r.err = some (errorfW "could not create kubernetes deployment: " e) ∧
          r.k8sTrace = p.2 ++ [⟨crEv, none⟩, ⟨saEv, none⟩,
            ⟨.CreateClusterRoleBinding (clusterRoleBindingObject client created cr sa), none⟩,
            ⟨.CreateDeployment ns (deploymentObject client created sa), some e⟩]) ∨
      (p.1 = none ∧ ∃ cr sa crb dep,
          clientset.CreateClusterRole p.2 (clusterRoleObject client created) = .ok cr ∧
          clientset.CreateServiceAccount (p.2 ++ [⟨crEv, none⟩]) ns
            (serviceAccountObject client created) = .ok sa ∧
          clientset.CreateClusterRoleBinding (p.2 ++ [⟨crEv, none⟩, ⟨saEv, none⟩])
            (clusterRoleBindingObject client created cr sa) = .ok crb ∧
          clientset.CreateDeployment
            (p.2 ++ [⟨crEv, none⟩, ⟨saEv, none⟩,
              ⟨.CreateClusterRoleBinding (clusterRoleBindingObject client created cr sa), none⟩])
            ns (deploymentObject client created sa) = .ok dep ∧
          r.err = none ∧
          r.k8sTrace = p.2 ++ [⟨crEv, none⟩, ⟨saEv, none⟩,
            ⟨.CreateClusterRoleBinding (clusterRoleBindingObject client created cr sa), none⟩,
            ⟨.CreateDeployment ns (deploymentObject client created sa), none⟩]) := by
  intro client r p ns crEv saEv hclient hr hp hns hcrEv hsaEv
  have hcl : client.Clientset = clientset := by rw [hclient]; rfl
  subst hcrEv hsaEv hns
  rw [hr, hp]
  unfold runCreateAggregatorOnK8s
  simp only [hcc, hcs, hcreated]
  have hlit : ({ Clientset := clientset
                 namespace_ :=
                   if flags.kubeNamespace = "" then NamespaceDefault else flags.kubeNamespace
                 projectID := cfg.projectID
                 projectToken := cfg.projectToken
                 cloudBaseURL := cfg.baseURL } : k8sClient) = client := by
    rw [hclient]; rfl
  rw [hlit]
  clear hr hp r p
  generalize ensureOwnNamespace IsNotFound client [] = p
  obtain ⟨eo, t1⟩ := p
  cases eo with
  | some err => exact Or.inl ⟨err, rfl, rfl, rfl⟩
  | none =>
    right
    simp only [createClusterRole, createServiceAccount, createClusterRoleBinding,
      createDeployment, hcl, true_and]
    obtain ⟨r1, h1⟩ : ∃ r, clientset.CreateClusterRole t1
        (clusterRoleObject client created) = r := ⟨_, rfl⟩
    simp only [h1]
    rcases r1 with e1 | cr
    · exact Or.inl ⟨e1, rfl, rfl, rfl⟩
    · right
      simp only [errOf, List.append_assoc, List.cons_append, List.nil_append]
      obtain ⟨r2, h2⟩ : ∃ r, clientset.CreateServiceAccount
          (t1 ++ [⟨.CreateClusterRole (clusterRoleObject client created), none⟩])
          client.namespace_ (serviceAccountObject client created) = r := ⟨_, rfl⟩
      simp only [h2]
      rcases r2 with e2 | sa
      · exact Or.inl ⟨cr, e2, rfl, rfl, rfl, rfl⟩
      · right
        simp only [errOf, List.append_assoc, List.cons_append, List.nil_append]
        obtain ⟨r3, h3⟩ : ∃ r, clientset.CreateClusterRoleBinding
            (t1 ++ [⟨.CreateClusterRole (clusterRoleObject client created), none⟩,
              ⟨.CreateServiceAccount client.namespace_ (serviceAccountObject client created),
                none⟩])
            (clusterRoleBindingObject client created cr sa) = r := ⟨_, rfl⟩
        simp only [h3]
        rcases r3 with e3 | crb
        · exact Or.inl ⟨cr, sa, e3, rfl, rfl, h3, rfl, rfl⟩
        · right
          simp only [errOf, List.append_assoc, List.cons_append, List.nil_append]
          obtain ⟨r4, h4⟩ : ∃ r, clientset.CreateDeployment
              (t1 ++ [⟨.CreateClusterRole (clusterRoleObject client created), none⟩,
                ⟨.CreateServiceAccount client.namespace_ (serviceAccountObject client created),
                  none⟩,
                ⟨.CreateClusterRoleBinding (clusterRoleBindingObject client created cr sa),
                  none⟩])
              client.namespace_ (deploymentObject client created sa) = r := ⟨_, rfl⟩
          simp only [h4]
          rcases r4 with e4 | dep
          · exact Or.inl ⟨cr, sa, crb, e4, rfl, rfl, h3, h4, rfl, rfl⟩
          · exact Or.inr ⟨cr, sa, crb, dep, rfl, rfl, h3, h4, rfl, rfl⟩

/-- The requests of the namespace step: a lookup of the configured namespace, possibly
followed by a create of the namespace object, and nothing else. -/
theorem ensureOwnNamespace_calls (IsNotFound : GoError → Bool) (client : k8sClient)
    (ev : K8sEvent) (hev : ev ∈ (ensureOwnNamespace IsNotFound client []).2) :
    ev.call = .GetNamespace client.namespace_ ∨
      ev.call = .CreateNamespace (ownNamespaceObject client) := by
  rw [ensureOwnNamespace_eq] at hev
  rcases hget : client.Clientset.GetNamespace [] client.namespace_ with e | v
  · rw [hget] at hev
    by_cases hnf : IsNotFound e = true
    · simp only [hnf, if_true] at hev
      rcases hcn : client.Clientset.CreateNamespace
          ([] ++ [⟨.GetNamespace client.namespace_, some e⟩]) (ownNamespaceObject client)
        with e2 | v2
      · rw [hcn] at hev
        simp at hev
        rcases hev with h | h <;> simp [h]
      · rw [hcn] at hev
        simp at hev
        rcases hev with h | h <;> simp [h]
    · simp only [hnf] at hev
      simp at hev
      simp [hev]
  · rw [hget] at hev
    simp at hev
    simp [hev]

/-! ## The namespace step: the claims -/

/-- C11: when the namespace get succeeds (the namespace already exists),
`ensureOwnNamespace` returns no error and issues no namespace create call: the lookup is
the only request it adds to the trace. -/
theorem ensureOwnNamespace_existing_namespace (IsNotFound : GoError → Bool)
    (client : k8sClient) (trace : List K8sEvent) (found : Namespace)
    (hget : client.Clientset.GetNamespace trace client.namespace_ = .ok found) :
    (ensureOwnNamespace IsNotFound client trace).1 = none ∧
      (ensureOwnNamespace IsNotFound client trace).2 =
        trace ++ [⟨.GetNamespace client.namespace_, none⟩] ∧
      ((ensureOwnNamespace IsNotFound client trace).2.drop trace.length).map
          (fun ev => ev.call.describe.1) = ["get Namespace"] := by
  rw [ensureOwnNamespace_eq, hget]
  simp [K8sCall.describe]

/-- On a connection on which the namespace `default` was created before, the namespace
step looks it up and stops. -/
theorem ensureOwnNamespace_existing_namespace_witness :
    (ensureOwnNamespace memIsNotFound memClient
          [⟨.CreateNamespace { ObjectMeta := { Name := "default" } }, none⟩]).1 = none ∧
      (ensureOwnNamespace memIsNotFound memClient
          [⟨.CreateNamespace { ObjectMeta := { Name := "default" } }, none⟩]).2 =
        [⟨.CreateNamespace { ObjectMeta := { Name := "default" } }, none⟩,
          ⟨.GetNamespace "default", none⟩] ∧
      ((ensureOwnNamespace memIsNotFound memClient
          [⟨.CreateNamespace { ObjectMeta := { Name := "default" } }, none⟩]).2.drop 1).map
          (fun ev => ev.call.describe.1) = ["get Namespace"] :=
  ensureOwnNamespace_existing_namespace memIsNotFound memClient
    [⟨.CreateNamespace { ObjectMeta := { Name := "default" } }, none⟩]
    { ObjectMeta := { Name := "default" } } rfl

/-- C12: `ensureOwnNamespace` issues a namespace create call if and only if the namespace
get reports the not-found condition; the namespace it then creates carries the configured
name, and the step succeeds exactly when that create succeeds; when the get fails with any
other error the step fails with that error wrapped behind `exists: ` and issues no create. -/
theorem ensureOwnNamespace_creates_iff_not_found (IsNotFound : GoError → Bool)
    (client : k8sClient) (trace : List K8sEvent) :
    let getRes := client.Clientset.GetNamespace trace client.namespace_
    let getEv : K8sEvent := ⟨.GetNamespace client.namespace_, errOf getRes⟩
    let notFound : Bool :=
      match getRes with
      | .error e => IsNotFound e
      | .ok _ => false
    let createRes := client.Clientset.CreateNamespace (trace ++ [getEv]) (ownNamespaceObject client)
    (ensureOwnNamespace IsNotFound client trace).2 =
        trace ++ getEv ::
          (if notFound then [⟨.CreateNamespace (ownNamespaceObject client), errOf createRes⟩]
            else []) ∧
      ((ensureOwnNamespace IsNotFound client trace).2.drop trace.length).any
          (fun ev => decide (ev.call.describe.1 = "create Namespace")) = notFound ∧
      (ownNamespaceObject client).ObjectMeta.Name = client.namespace_ ∧
      (ensureOwnNamespace IsNotFound client trace).1 =
        (match getRes with
          | .ok _ => none
          | .error e =>
            if IsNotFound e then (errOf createRes).map (errorfW "create: ")
            else some (errorfW "exists: " e)) ∧
      (if notFound then
          (ensureOwnNamespace IsNotFound client trace).1.isNone = (errOf createRes).isNone
        else True) := by
  intro getRes getEv notFound createRes
  have hE := ensureOwnNamespace_eq IsNotFound client trace
  rcases hget : client.Clientset.GetNamespace trace client.namespace_ with e | v
  · have hgr : getRes = .error e := hget
    have hgev : getEv = ⟨.GetNamespace client.namespace_, some e⟩ := by
      simp only [getEv, hgr, errOf]
    rw [hget] at hE
    by_cases hnf : IsNotFound e = true
    · have hNF : notFound = true := by simp only [notFound, hgr, hnf]
      simp only [hnf, if_true] at hE
      rcases hcn : client.Clientset.CreateNamespace
          (trace ++ [⟨.GetNamespace client.namespace_, some e⟩]) (ownNamespaceObject client)
        with e2 | v2
      · have hcr : createRes = .error e2 := by simp only [createRes, hgev, hcn]
        rw [hcn] at hE
        rw [hE, hgr, hcr, hNF, hgev]
        simp [hnf, errOf, K8sCall.describe, ownNamespaceObject]
      · have hcr : createRes = .ok v2 := by simp only [createRes, hgev, hcn]
        rw [hcn] at hE
        rw [hE, hgr, hcr, hNF, hgev]
        simp [hnf, errOf, K8sCall.describe, ownNamespaceObject]
    · have hNF : notFound = false := by simp only [notFound, hgr]; simpa using hnf
      simp only [hnf] at hE
      rw [hE, hgr, hNF, hgev]
      simp [hnf, K8sCall.describe, ownNamespaceObject]
  · have hgr : getRes = .ok v := hget
    have hgev : getEv = ⟨.GetNamespace client.namespace_, none⟩ := by
      simp only [getEv, hgr, errOf]
    have hNF : notFound = false := by simp only [notFound, hgr]
    rw [hget] at hE
    rw [hE, hgr, hNF, hgev]
    simp [K8sCall.describe, ownNamespaceObject]

/-- Every request of the namespace step belongs to the namespace step. -/
theorem ensureOwnNamespace_steps (IsNotFound : GoError → Bool) (client : k8sClient)
    (ev : K8sEvent) (hev : ev ∈ (ensureOwnNamespace IsNotFound client []).2) :
    ev.call.step = .NamespaceEnsure := by
  rcases ensureOwnNamespace_calls IsNotFound client ev hev with h | h <;> simp [h, K8sCall.step]

/-! ## Failing steps: the claims -/

/-- C13: if the ClusterRoleBinding create call fails, the Kubernetes create command never
issues the Deployment create call, and the error it returns names the step that creates
the cluster role binding: it is the cause wrapped behind
`could not create kubernetes cluster role binding: `. -/
theorem runCreateAggregatorOnK8s_binding_failure (IsNotFound : GoError → Bool)
    (quote : String → String) (cfg : config) (kube : KubeLoader) (flags : K8sFlags)
    (clientset : Clientset) (created : CreatedAggregator)
    (obj : ClusterRoleBinding) (c : GoError)
    (hcc : kube.ClientConfig = none) (hcs : kube.NewForConfig = .ok clientset)
    (hcreated : cfg.cloud.CreateAggregator
        { Name := flags.aggregatorName
          AddHealthCheckPipeline := !flags.noHealthCheckPipeline
          Version := ""
          EnvironmentID := flags.environmentID
          Tags := flags.tags } = .ok created)
    (hfail : ⟨.CreateClusterRoleBinding obj, some c⟩ ∈
      (runCreateAggregatorOnK8s IsNotFound quote cfg kube flags).k8sTrace) :
    (runCreateAggregatorOnK8s IsNotFound quote cfg kube flags).err =
        some (.wrap ("could not create kubernetes cluster role binding: " ++ c.Error) c) ∧
      (∀ ev ∈ (runCreateAggregatorOnK8s IsNotFound quote cfg kube flags).k8sTrace,
        ev.call.step ≠ .Deployment) := by
  have hns := ensureOwnNamespace_steps IsNotFound (commandClient cfg clientset flags)
  have hcases := runCreateAggregatorOnK8s_cases IsNotFound quote cfg kube flags clientset created
    hcc hcs hcreated _ _ _ _ _ _ rfl rfl rfl rfl rfl rfl
  rcases hcases with ⟨err, _, herr, htr⟩ | ⟨_, e, _, herr, htr⟩ | ⟨_, cr, e, _, _, herr, htr⟩ |
    ⟨_, cr, sa, e, _, _, _, herr, htr⟩ | ⟨_, cr, sa, crb, e, _, _, _, _, herr, htr⟩ |
    ⟨_, cr, sa, crb, dep, _, _, _, _, herr, htr⟩
  · rw [htr] at hfail
    have := hns _ hfail
    simp [K8sCall.step] at this
  · rw [htr] at hfail
    rcases List.mem_append.mp hfail with h | h
    · have := hns _ h
      simp [K8sCall.step] at this
    · simp at h
  · rw [htr] at hfail
    rcases List.mem_append.mp hfail with h | h
    · have := hns _ h
      simp [K8sCall.step] at this
    · simp at h
  · rw [htr] at hfail
    rcases List.mem_append.mp hfail with h | h
    · have := hns _ h
      simp [K8sCall.step] at this
    · simp at h
      obtain ⟨hobj, hc⟩ := h
      subst hc
      refine ⟨by rw [herr]; rfl, ?_⟩
      intro ev hev
      rw [htr] at hev
      rcases List.mem_append.mp hev with h | h
      · rw [hns _ h]
        decide
      · simp at h
        rcases h with h | h | h <;> simp [h, K8sCall.step]
  · rw [htr] at hfail
    rcases List.mem_append.mp hfail with h | h
    · have := hns _ h
      simp [K8sCall.step] at this
    · simp at h
  · rw [htr] at hfail
    rcases List.mem_append.mp hfail with h | h
    · have := hns _ h
      simp [K8sCall.step] at this
    · simp at h

theorem GoError.mem_chain_self (e : GoError) : e ∈ e.chain := by
  cases e <;> simp [GoError.chain]

theorem mem_chain_errorfW (pfx : String) (c cause : GoError) (h : c ∈ cause.chain) :
    c ∈ (errorfW pfx cause).chain := by
  simp [errorfW, GoError.chain, h]

theorem strHasPrefix_errorfW (pfx : String) (cause : GoError) :
    strHasPrefix (errorfW pfx cause).Error pfx := by
  simp [strHasPrefix, errorfW, GoError.Error, String.data_append]

/-- What the namespace step leaves behind when it starts a connection: the requests it
issued, whether they succeeded, and which request made it fail. -/
theorem ensureOwnNamespace_summary (IsNotFound : GoError → Bool) (client : k8sClient) :
    ∀ p, p = ensureOwnNamespace IsNotFound client [] →
      p.2.map (fun ev => ev.call.describe) =
          ("get Namespace", client.namespace_) ::
            (if reportedNotFound IsNotFound p.2 then [("create Namespace", client.namespace_)]
              else []) ∧
        (∀ rest, reportedNotFound IsNotFound (p.2 ++ rest) = reportedNotFound IsNotFound p.2) ∧
        (p.1 = none → ∀ ev ∈ p.2, ev.succeeded IsNotFound = true) ∧
        (∀ err, p.1 = some err →
          ∃ ev c, p.2.getLast? = some ev ∧ ev.err = some c ∧ c ∈ err.chain ∧
            ∀ ev2 ∈ p.2, ev2.succeeded IsNotFound = false → ev2 = ev) := by
  intro p hp
  rw [ensureOwnNamespace_eq] at hp
  rcases hget : client.Clientset.GetNamespace [] client.namespace_ with e | v
  · rw [hget] at hp
    by_cases hnf : IsNotFound e = true
    · simp only [hnf, if_true] at hp
      rcases hcn : client.Clientset.CreateNamespace
          ([] ++ [⟨.GetNamespace client.namespace_, some e⟩]) (ownNamespaceObject client)
        with e2 | v2
      · rw [hcn] at hp
        subst hp
        refine ⟨?_, ?_, ?_, ?_⟩
        · simp [reportedNotFound, hnf, K8sCall.describe, ownNamespaceObject]
        · intro rest
          simp [reportedNotFound]
        · intro h
          simp at h
        · intro err herr
          simp at herr
          subst herr
          refine ⟨⟨.CreateNamespace (ownNamespaceObject client), some e2⟩, e2, by simp, rfl,
            mem_chain_errorfW _ _ _ (GoError.mem_chain_self e2), ?_⟩
          intro ev2 hev2 hf
          simp at hev2
          rcases hev2 with h | h
          · subst h
            simp [K8sEvent.succeeded, hnf] at hf
          · exact h
      · rw [hcn] at hp
        subst hp
        refine ⟨?_, ?_, ?_, ?_⟩
        · simp [reportedNotFound, hnf, K8sCall.describe, ownNamespaceObject]
        · intro rest
          simp [reportedNotFound]
        · intro _ ev hev
          simp at hev
          rcases hev with h | h <;> subst h <;> simp [K8sEvent.succeeded, hnf]
        · intro err herr
          simp at herr
    · simp only [hnf] at hp
      subst hp
      refine ⟨?_, ?_, ?_, ?_⟩
      · simp [reportedNotFound, hnf, K8sCall.describe]
      · intro rest
        simp [reportedNotFound]
      · intro h
        simp at h
      · intro err herr
        simp at herr
        subst herr
        refine ⟨⟨.GetNamespace client.namespace_, some e⟩, e, by simp, rfl,
          mem_chain_errorfW _ _ _ (GoError.mem_chain_self e), ?_⟩
        intro ev2 hev2 _
        simpa using hev2
  · rw [hget] at hp
    subst hp
    refine ⟨?_, ?_, ?_, ?_⟩
    · simp [reportedNotFound, K8sCall.describe]
    · intro rest
      simp [reportedNotFound]
    · intro _ ev hev
      simp at hev
      subst hev
      simp [K8sEvent.succeeded]
    · intro err herr
      simp at herr

/-- C14: for each of the five provisioning steps, if a request of that step fails with cause
`c`, the command returns at once with an error that wraps `c` and carries the text that
identifies the step in front; the failing request is the last one it issues, and the
requests issued are an initial part of the creating sequence, so no request of a later
step and no delete or cleanup request is among them. -/
theorem runCreateAggregatorOnK8s_step_failure (IsNotFound : GoError → Bool)
    (quote : String → String) (cfg : config) (kube : KubeLoader) (flags : K8sFlags)
    (clientset : Clientset) (created : CreatedAggregator) (ev : K8sEvent) (c : GoError)
    (hcc : kube.ClientConfig = none) (hcs : kube.NewForConfig = .ok clientset)
    (hcreated : cfg.cloud.CreateAggregator
        { Name := flags.aggregatorName
          AddHealthCheckPipeline := !flags.noHealthCheckPipeline
          Version := ""
          EnvironmentID := flags.environmentID
          Tags := flags.tags } = .ok created)
    (hev : ev ∈ (runCreateAggregatorOnK8s IsNotFound quote cfg kube flags).k8sTrace)
    (hc : ev.err = some c) (hfailed : ev.succeeded IsNotFound = false) :
    (runCreateAggregatorOnK8s IsNotFound quote cfg kube flags).k8sTrace.getLast? = some ev ∧
      (∃ e, (runCreateAggregatorOnK8s IsNotFound quote cfg kube flags).err = some e ∧
        c ∈ e.chain ∧ strHasPrefix e.Error ev.call.step.errorPrefix) ∧
      (runCreateAggregatorOnK8s IsNotFound quote cfg kube flags).k8sTrace.map
          (fun ev => ev.call.describe) <+:
        ("get Namespace",
            if flags.kubeNamespace = "" then NamespaceDefault else flags.kubeNamespace) ::
          ((if reportedNotFound IsNotFound
                (runCreateAggregatorOnK8s IsNotFound quote cfg kube flags).k8sTrace then
              [("create Namespace",
                if flags.kubeNamespace = "" then NamespaceDefault else flags.kubeNamespace)]
            else []) ++
            [("create ClusterRole", created.Name ++ "-cluster-role"),
              ("create ServiceAccount", created.Name ++ "-service-account"),
              ("create ClusterRoleBinding", created.Name ++ "-cluster-role-binding"),
              ("create Deployment", created.Name ++ "-deployment")]) := by
  have hns : (if flags.kubeNamespace = "" then NamespaceDefault else flags.kubeNamespace) =
      (commandClient cfg clientset flags).namespace_ := rfl
  rw [hns]
  obtain ⟨hdesc, hrep, hsucc, hfail⟩ := ensureOwnNamespace_summary IsNotFound
    (commandClient cfg clientset flags) _ rfl
  have hstep := ensureOwnNamespace_steps IsNotFound (commandClient cfg clientset flags)
  have hcases := runCreateAggregatorOnK8s_cases IsNotFound quote cfg kube flags clientset created
    hcc hcs hcreated _ _ _ _ _ _ rfl rfl rfl rfl rfl rfl
  generalize commandClient cfg clientset flags = client at *
  generalize ensureOwnNamespace IsNotFound client [] = p at *
  generalize runCreateAggregatorOnK8s IsNotFound quote cfg kube flags = r at *
  rcases hcases with ⟨err, hp, herr, htr⟩ | ⟨hp, e, _, herr, htr⟩ |
    ⟨hp, cr, e, _, _, herr, htr⟩ | ⟨hp, cr, sa, e, _, _, _, herr, htr⟩ |
    ⟨hp, cr, sa, crb, e, _, _, _, _, herr, htr⟩ |
    ⟨hp, cr, sa, crb, dep, _, _, _, _, herr, htr⟩
  · obtain ⟨ev0, c0, hlast, hc0, hchain, huniq⟩ := hfail err hp
    rw [htr] at hev ⊢
    have hev0 : ev = ev0 := huniq ev hev hfailed
    subst hev0
    rw [hc0] at hc
    injection hc with hc
    subst hc
    refine ⟨hlast, ⟨_, herr, mem_chain_errorfW _ _ _ hchain, ?_⟩, ?_⟩
    · rw [hstep ev hev]
      exact strHasPrefix_errorfW _ _
    · rw [hdesc]
      exact ⟨[("create ClusterRole", created.Name ++ "-cluster-role"),
        ("create ServiceAccount", created.Name ++ "-service-account"),
        ("create ClusterRoleBinding", created.Name ++ "-cluster-role-binding"),
        ("create Deployment", created.Name ++ "-deployment")], by simp⟩
  · rw [htr] at hev ⊢
    rcases List.mem_append.mp hev with h | h
    · rw [hsucc hp ev h] at hfailed
      exact absurd hfailed (by decide)
    · simp only [List.mem_cons, List.mem_singleton, List.not_mem_nil, or_false] at h
      rcases h with h
      · subst h
        simp only [Option.some.injEq] at hc
        subst hc
        refine ⟨by simp, ⟨_, herr, mem_chain_errorfW _ _ _ (GoError.mem_chain_self _),
          strHasPrefix_errorfW _ _⟩, ?_⟩
        refine ⟨[("create ServiceAccount", created.Name ++ "-service-account"),
          ("create ClusterRoleBinding", created.Name ++ "-cluster-role-binding"),
          ("create Deployment", created.Name ++ "-deployment")], ?_⟩
        rw [hrep, List.map_append, hdesc]
        simp [K8sCall.describe, clusterRoleObject, serviceAccountObject,
          clusterRoleBindingObject, deploymentObject]
  · rw [htr] at hev ⊢
    rcases List.mem_append.mp hev with h | h
    · rw [hsucc hp ev h] at hfailed
      exact absurd hfailed (by decide)
    · simp only [List.mem_cons, List.mem_singleton, List.not_mem_nil, or_false] at h
      rcases h with h | h
      · subst h
        simp [K8sEvent.succeeded] at hfailed
      · subst h
        simp only [Option.some.injEq] at hc
        subst hc
        refine ⟨by simp, ⟨_, herr, mem_chain_errorfW _ _ _ (GoError.mem_chain_self _),
          strHasPrefix_errorfW _ _⟩, ?_⟩
        refine ⟨[("create ClusterRoleBinding", created.Name ++ "-cluster-role-binding"),
          ("create Deployment", created.Name ++ "-deployment")], ?_⟩
        rw [hrep, List.map_append, hdesc]
        simp [K8sCall.describe, clusterRoleObject, serviceAccountObject,
          clusterRoleBindingObject, deploymentObject]
  · rw [htr] at hev ⊢
    rcases List.mem_append.mp hev with h | h
    · rw [hsucc hp ev h] at hfailed
      exact absurd hfailed (by decide)
    · simp only [List.mem_cons, List.mem_singleton, List.not_mem_nil, or_false] at h
      rcases h with h | h | h
      · subst h
        simp [K8sEvent.succeeded] at hfailed
      · subst h
        simp [K8sEvent.succeeded] at hfailed
      · subst h
        simp only [Option.some.injEq] at hc
        subst hc
        refine ⟨by simp, ⟨_, herr, mem_chain_errorfW _ _ _ (GoError.mem_chain_self _),
          strHasPrefix_errorfW _ _⟩, ?_⟩
        refine ⟨[("create Deployment", created.Name ++ "-deployment")], ?_⟩
        rw [hrep, List.map_append, hdesc]
        simp [K8sCall.describe, clusterRoleObject, serviceAccountObject,
          clusterRoleBindingObject, deploymentObject]
  · rw [htr] at hev ⊢
    rcases List.mem_append.mp hev with h | h
    · rw [hsucc hp ev h] at hfailed
      exact absurd hfailed (by decide)
    · simp only [List.mem_cons, List.mem_singleton, List.not_mem_nil, or_false] at h
      rcases h with h | h | h | h
      · subst h
        simp [K8sEvent.succeeded] at hfailed
      · subst h
        simp [K8sEvent.succeeded] at hfailed
      · subst h
        simp [K8sEvent.succeeded] at hfailed
      · subst h
        simp only [Option.some.injEq] at hc
        subst hc
        refine ⟨by simp, ⟨_, herr, mem_chain_errorfW _ _ _ (GoError.mem_chain_self _),
          strHasPrefix_errorfW _ _⟩, ?_⟩
        refine ⟨[], ?_⟩
        rw [hrep, List.map_append, hdesc]
        simp [K8sCall.describe, clusterRoleObject, serviceAccountObject,
          clusterRoleBindingObject, deploymentObject]
  · rw [htr] at hev
    rcases List.mem_append.mp hev with h | h
    · rw [hsucc hp ev h] at hfailed
      exact absurd hfailed (by decide)
    · simp only [List.mem_cons, List.mem_singleton, List.not_mem_nil, or_false] at h
      rcases h with h | h | h | h <;> subst h <;> simp [K8sEvent.succeeded] at hfailed

/-- With the ClusterRoleBinding create out of order on an otherwise empty cluster, the run
for `demo` stops at the binding: the error is `boom` behind the text of that step, and the
requests issued belong to the namespace, role, account and binding steps only. -/
theorem runCreateAggregatorOnK8s_binding_failure_witness :
    (runCreateAggregatorOnK8s memIsNotFound sampleQuote (fixedConfig (.ok []) (.ok []))
          (brokenKube "create ClusterRoleBinding" (.plain "boom")) demoFlags).err =
        some (.wrap "could not create kubernetes cluster role binding: boom" (.plain "boom")) ∧
      (runCreateAggregatorOnK8s memIsNotFound sampleQuote (fixedConfig (.ok []) (.ok []))
          (brokenKube "create ClusterRoleBinding" (.plain "boom")) demoFlags).k8sTrace.map
          (fun ev => ev.call.step) =
        [.NamespaceEnsure, .NamespaceEnsure, .ClusterRole, .ServiceAccount,
          .ClusterRoleBinding] :=
  ⟨(runCreateAggregatorOnK8s_binding_failure memIsNotFound sampleQuote
      (fixedConfig (.ok []) (.ok [])) (brokenKube "create ClusterRoleBinding" (.plain "boom"))
      demoFlags (brokenClientset "create ClusterRoleBinding" (.plain "boom"))
      { ID := "id-demo", Name := "demo" }
      (clusterRoleBindingObject memClient { ID := "id-demo", Name := "demo" }
        (clusterRoleObject memClient { ID := "id-demo", Name := "demo" })
        (serviceAccountObject memClient { ID := "id-demo", Name := "demo" }))
      (.plain "boom") rfl rfl rfl (by decide)).1,
    by decide⟩

/-- With the ServiceAccount create out of order, the failing request is the last of the
trace of the run for `demo`. -/
theorem runCreateAggregatorOnK8s_step_failure_witness :
    (runCreateAggregatorOnK8s memIsNotFound sampleQuote (fixedConfig (.ok []) (.ok []))
          (brokenKube "create ServiceAccount" (.plain "boom")) demoFlags).k8sTrace.getLast? =
        some ⟨.CreateServiceAccount "default"
          (serviceAccountObject memClient { ID := "id-demo", Name := "demo" }),
          some (.plain "boom")⟩ :=
  (runCreateAggregatorOnK8s_step_failure memIsNotFound sampleQuote
    (fixedConfig (.ok []) (.ok [])) (brokenKube "create ServiceAccount" (.plain "boom"))
    demoFlags (brokenClientset "create ServiceAccount" (.plain "boom"))
    { ID := "id-demo", Name := "demo" }
    ⟨.CreateServiceAccount "default"
      (serviceAccountObject memClient { ID := "id-demo", Name := "demo" }),
      some (.plain "boom")⟩
    (.plain "boom") rfl rfl rfl (by decide) rfl rfl).1

/-! ## Submitted objects: the claims -/

/-- C15, as stated, fails: in the run for `demo` against the empty in-memory cluster the
Namespace object is submitted with an empty label map, while the four other objects carry
the two ownership labels. -/
theorem namespace_submitted_without_labels :
    (runCreateAggregatorOnK8s memIsNotFound sampleQuote (fixedConfig (.ok []) (.ok []))
          memKube demoFlags).k8sTrace.map (fun ev => (ev.call.describe.1, ev.call.labels)) =
        [("get Namespace", none),
          ("create Namespace", some []),
          ("create ClusterRole",
            some [("calyptia_project_id", "project"), ("calyptia_aggregator_id", "id-demo")]),
          ("create ServiceAccount",
            some [("calyptia_project_id", "project"), ("calyptia_aggregator_id", "id-demo")]),
          ("create ClusterRoleBinding",
            some [("calyptia_project_id", "project"), ("calyptia_aggregator_id", "id-demo")]),
          ("create Deployment",
            some [("calyptia_project_id", "project"), ("calyptia_aggregator_id", "id-demo")])] ∧
      (runCreateAggregatorOnK8s memIsNotFound sampleQuote (fixedConfig (.ok []) (.ok []))
          memKube demoFlags).k8sTrace.all
          (fun ev =>
            match ev.call.labels with
            | none => true
            | some l =>
              decide (l =
                [("calyptia_project_id", "project"), ("calyptia_aggregator_id", "id-demo")])) =
        false := by
  decide

/-- C15, amended: every object the command creates other than the Namespace (ClusterRole,
ServiceAccount, ClusterRoleBinding, Deployment) is submitted with the label map
`calyptia_project_id` = project id, `calyptia_aggregator_id` = ID of the created instance,
and nothing else; the Namespace is submitted with an empty label map. -/
theorem runCreateAggregatorOnK8s_labels (IsNotFound : GoError → Bool)
    (quote : String → String) (cfg : config) (kube : KubeLoader) (flags : K8sFlags)
    (clientset : Clientset) (created : CreatedAggregator) (ev : K8sEvent)
    (hcc : kube.ClientConfig = none) (hcs : kube.NewForConfig = .ok clientset)
    (hcreated : cfg.cloud.CreateAggregator
        { Name := flags.aggregatorName
          AddHealthCheckPipeline := !flags.noHealthCheckPipeline
          Version := ""
          EnvironmentID := flags.environmentID
          Tags := flags.tags } = .ok created)
    (hev : ev ∈ (runCreateAggregatorOnK8s IsNotFound quote cfg kube flags).k8sTrace) :
    ev.call.labels =
      match ev.call with
      | .GetNamespace _ => none
      | .CreateNamespace _ => some []
      | _ =>
        some [("calyptia_project_id", cfg.projectID), ("calyptia_aggregator_id", created.ID)] := by
  have hns := ensureOwnNamespace_calls IsNotFound (commandClient cfg clientset flags)
  have hcases := runCreateAggregatorOnK8s_cases IsNotFound quote cfg kube flags clientset created
    hcc hcs hcreated _ _ _ _ _ _ rfl rfl rfl rfl rfl rfl
  have hpid : (commandClient cfg clientset flags).projectID = cfg.projectID := rfl
  have key : ∀ evs : List K8sEvent,
      (∀ ev ∈ evs, ev.call.labels =
        match ev.call with
        | .GetNamespace _ => none
        | .CreateNamespace _ => some []
        | _ =>
          some [("calyptia_project_id", cfg.projectID),
            ("calyptia_aggregator_id", created.ID)]) →
      (runCreateAggregatorOnK8s IsNotFound quote cfg kube flags).k8sTrace =
        (ensureOwnNamespace IsNotFound (commandClient cfg clientset flags) []).2 ++ evs →
      ev.call.labels =
        match ev.call with
        | .GetNamespace _ => none
        | .CreateNamespace _ => some []
        | _ =>
          some [("calyptia_project_id", cfg.projectID),
            ("calyptia_aggregator_id", created.ID)] := by
    intro evs hevs htr
    rw [htr] at hev
    rcases List.mem_append.mp hev with h | h
    · rcases hns ev h with h2 | h2 <;> simp [h2, K8sCall.labels, ownNamespaceObject]
    · exact hevs ev h
  rcases hcases with ⟨err, _, _, htr⟩ | ⟨_, e, _, _, htr⟩ | ⟨_, cr, e, _, _, _, htr⟩ |
    ⟨_, cr, sa, e, _, _, _, _, htr⟩ | ⟨_, cr, sa, crb, e, _, _, _, _, _, htr⟩ |
    ⟨_, cr, sa, crb, dep, _, _, _, _, _, htr⟩
  · exact key [] (by simp) (by simpa using htr)
  all_goals
    refine key _ ?_ htr
    simp [K8sCall.labels, clusterRoleObject, serviceAccountObject, clusterRoleBindingObject,
      deploymentObject, hpid]

/-- In the run for `demo` the Namespace `default` is submitted without labels and the
Deployment with the two ownership labels. -/
theorem runCreateAggregatorOnK8s_labels_witness :
    (K8sCall.CreateNamespace { ObjectMeta := { Name := "default" } }).labels = some [] ∧
      (K8sCall.CreateDeployment "default"
          (deploymentObject memClient { ID := "id-demo", Name := "demo" }
            (serviceAccountObject memClient { ID := "id-demo", Name := "demo" }))).labels =
        some [("calyptia_project_id", "project"), ("calyptia_aggregator_id", "id-demo")] :=
  ⟨runCreateAggregatorOnK8s_labels memIsNotFound sampleQuote (fixedConfig (.ok []) (.ok []))
      memKube demoFlags memClientset { ID := "id-demo", Name := "demo" }
      ⟨.CreateNamespace { ObjectMeta := { Name := "default" } }, none⟩
      rfl rfl rfl (by decide),
    runCreateAggregatorOnK8s_labels memIsNotFound sampleQuote (fixedConfig (.ok []) (.ok []))
      memKube demoFlags memClientset { ID := "id-demo", Name := "demo" }
      ⟨.CreateDeployment "default"
        (deploymentObject memClient { ID := "id-demo", Name := "demo" }
          (serviceAccountObject memClient { ID := "id-demo", Name := "demo" })), none⟩
      rfl rfl rfl (by decide)⟩

/-- C16: the ClusterRoleBinding that the command submits has a role reference of kind
`ClusterRole` whose name is the name of the ClusterRole returned by the earlier create
step, and exactly one subject, of kind `ServiceAccount`, whose name is the name of the
ServiceAccount returned by the earlier create step and whose namespace is the ensured
(configured) namespace. -/
theorem runCreateAggregatorOnK8s_binding_refs (IsNotFound : GoError → Bool)
    (quote : String → String) (cfg : config) (kube : KubeLoader) (flags : K8sFlags)
    (clientset : Clientset) (created : CreatedAggregator)
    (obj : ClusterRoleBinding) (answer : Option GoError)
    (hcc : kube.ClientConfig = none) (hcs : kube.NewForConfig = .ok clientset)
    (hcreated : cfg.cloud.CreateAggregator
        { Name := flags.aggregatorName
          AddHealthCheckPipeline := !flags.noHealthCheckPipeline
          Version := ""
          EnvironmentID := flags.environmentID
          Tags := flags.tags } = .ok created)
    (hev : ⟨.CreateClusterRoleBinding obj, answer⟩ ∈
      (runCreateAggregatorOnK8s IsNotFound quote cfg kube flags).k8sTrace) :
    ∃ (before : List K8sEvent) (clusterRole : ClusterRole) (serviceAccount : ServiceAccount),
      clientset.CreateClusterRole before
          (clusterRoleObject (commandClient cfg clientset flags) created) = .ok clusterRole ∧
        clientset.CreateServiceAccount
          (before ++
            [⟨.CreateClusterRole (clusterRoleObject (commandClient cfg clientset flags) created),
              none⟩])
          (commandClient cfg clientset flags).namespace_
          (serviceAccountObject (commandClient cfg clientset flags) created) =
            .ok serviceAccount ∧
        (before ++
          [⟨.CreateClusterRole (clusterRoleObject (commandClient cfg clientset flags) created),
              none⟩,
            ⟨.CreateServiceAccount (commandClient cfg clientset flags).namespace_
              (serviceAccountObject (commandClient cfg clientset flags) created), none⟩,
            ⟨.CreateClusterRoleBinding obj, answer⟩]) <+:
          (runCreateAggregatorOnK8s IsNotFound quote cfg kube flags).k8sTrace ∧
        obj.RoleRef =
          { APIGroup := GroupName, Kind := "ClusterRole", Name := clusterRole.ObjectMeta.Name } ∧
        obj.Subjects =
          [{ Kind := "ServiceAccount"
             Namespace :=
               if flags.kubeNamespace = "" then NamespaceDefault else flags.kubeNamespace
             Name := serviceAccount.ObjectMeta.Name }] := by
  have hns := ensureOwnNamespace_steps IsNotFound (commandClient cfg clientset flags)
  have hcases := runCreateAggregatorOnK8s_cases IsNotFound quote cfg kube flags clientset created
    hcc hcs hcreated _ _ _ _ _ _ rfl rfl rfl rfl rfl rfl
  have hnsp : (if flags.kubeNamespace = "" then NamespaceDefault else flags.kubeNamespace) =
      (commandClient cfg clientset flags).namespace_ := rfl
  rw [hnsp]
  generalize commandClient cfg clientset flags = client at *
  generalize ensureOwnNamespace IsNotFound client [] = p at *
  generalize runCreateAggregatorOnK8s IsNotFound quote cfg kube flags = r at *
  have hnot : ¬ (⟨.CreateClusterRoleBinding obj, answer⟩ : K8sEvent) ∈ p.2 := by
    intro h
    have := hns _ h
    simp [K8sCall.step] at this
  rcases hcases with ⟨err, _, _, htr⟩ | ⟨_, e, _, _, htr⟩ | ⟨_, cr, e, _, _, _, htr⟩ |
    ⟨_, cr, sa, e, h1, h2, _, _, htr⟩ | ⟨_, cr, sa, crb, e, h1, h2, _, _, _, htr⟩ |
    ⟨_, cr, sa, crb, dep, h1, h2, _, _, _, htr⟩
  · rw [htr] at hev
    exact absurd hev hnot
  · rw [htr] at hev
    rcases List.mem_append.mp hev with h | h
    · exact absurd h hnot
    · simp at h
  · rw [htr] at hev
    rcases List.mem_append.mp hev with h | h
    · exact absurd h hnot
    · simp at h
  · rw [htr] at hev ⊢
    rcases List.mem_append.mp hev with h | h
    · exact absurd h hnot
    · simp at h
      obtain ⟨hobj, hans⟩ := h
      subst hobj hans
      exact ⟨p.2, cr, sa, h1, h2, ⟨[], by simp⟩, rfl, rfl⟩
  · rw [htr] at hev ⊢
    rcases List.mem_append.mp hev with h | h
    · exact absurd h hnot
    · simp at h
      obtain ⟨hobj, hans⟩ := h
      subst hobj hans
      exact ⟨p.2, cr, sa, h1, h2,
        ⟨[⟨.CreateDeployment client.namespace_ (deploymentObject client created sa), some e⟩],
          by simp⟩, rfl, rfl⟩
  · rw [htr] at hev ⊢
    rcases List.mem_append.mp hev with h | h
    · exact absurd h hnot
    · simp at h
      obtain ⟨hobj, hans⟩ := h
      subst hobj hans
      exact ⟨p.2, cr, sa, h1, h2,
        ⟨[⟨.CreateDeployment client.namespace_ (deploymentObject client created sa), none⟩],
          by simp⟩, rfl, rfl⟩

/-- On a cluster that hands back the role and the account as `demo-cluster-role-x` and
`demo-service-account-x`, the binding submitted for `demo` refers to those returned names. -/
theorem runCreateAggregatorOnK8s_binding_refs_witness :
    ∃ (before : List K8sEvent) (clusterRole : ClusterRole) (serviceAccount : ServiceAccount),
      (renamingClientset "-x").CreateClusterRole before
          (clusterRoleObject
            (commandClient (fixedConfig (.ok []) (.ok [])) (renamingClientset "-x") demoFlags)
            { ID := "id-demo", Name := "demo" }) = .ok clusterRole ∧
        (renamingClientset "-x").CreateServiceAccount
          (before ++
            [⟨.CreateClusterRole
              (clusterRoleObject
                (commandClient (fixedConfig (.ok []) (.ok [])) (renamingClientset "-x")
                  demoFlags)
                { ID := "id-demo", Name := "demo" }), none⟩])
          (commandClient (fixedConfig (.ok []) (.ok [])) (renamingClientset "-x")
            demoFlags).namespace_
          (serviceAccountObject
            (commandClient (fixedConfig (.ok []) (.ok [])) (renamingClientset "-x") demoFlags)
            { ID := "id-demo", Name := "demo" }) = .ok serviceAccount ∧
        (before ++
          [⟨.CreateClusterRole
              (clusterRoleObject
                (commandClient (fixedConfig (.ok []) (.ok [])) (renamingClientset "-x")
                  demoFlags)
                { ID := "id-demo", Name := "demo" }), none⟩,
            ⟨.CreateServiceAccount
              (commandClient (fixedConfig (.ok []) (.ok [])) (renamingClientset "-x")
                demoFlags).namespace_
              (serviceAccountObject
                (commandClient (fixedConfig (.ok []) (.ok [])) (renamingClientset "-x")
                  demoFlags)
                { ID := "id-demo", Name := "demo" }), none⟩,
            ⟨.CreateClusterRoleBinding
              { ObjectMeta :=
                  { Name := "demo-cluster-role-binding"
                    Labels :=
                      [("calyptia_project_id", "project"),
                        ("calyptia_aggregator_id", "id-demo")] }
                RoleRef :=
                  { APIGroup := "rbac.authorization.k8s.io", Kind := "ClusterRole"
                    Name := "demo-cluster-role-x" }
                Subjects :=
                  [{ Kind := "ServiceAccount", Namespace := "default"
                     Name := "demo-service-account-x" }] }, none⟩]) <+:
          (runCreateAggregatorOnK8s memIsNotFound sampleQuote (fixedConfig (.ok []) (.ok []))
            (renamingKube "-x") demoFlags).k8sTrace ∧
        ({ APIGroup := "rbac.authorization.k8s.io", Kind := "ClusterRole"
           Name := "demo-cluster-role-x" } : RoleRef) =
          { APIGroup := GroupName, Kind := "ClusterRole", Name := clusterRole.ObjectMeta.Name } ∧
        ([{ Kind := "ServiceAccount", Namespace := "default"
            Name := "demo-service-account-x" }] : List Subject) =
          [{ Kind := "ServiceAccount"
             Namespace :=
               if demoFlags.kubeNamespace = "" then NamespaceDefault
               else demoFlags.kubeNamespace
             Name := serviceAccount.ObjectMeta.Name }] :=
  runCreateAggregatorOnK8s_binding_refs memIsNotFound sampleQuote
    (fixedConfig (.ok []) (.ok [])) (renamingKube "-x") demoFlags (renamingClientset "-x")
    { ID := "id-demo", Name := "demo" }
    { ObjectMeta :=
        { Name := "demo-cluster-role-binding"
          Labels :=
            [("calyptia_project_id", "project"), ("calyptia_aggregator_id", "id-demo")] }
      RoleRef :=
        { APIGroup := "rbac.authorization.k8s.io", Kind := "ClusterRole"
          Name := "demo-cluster-role-x" }
      Subjects :=
        [{ Kind := "ServiceAccount", Namespace := "default"
           Name := "demo-service-account-x" }] }
    none rfl rfl rfl (by decide)

/-- C17: the Deployment that the command submits through `createDeployment` has replica
count 1, goes to the ensured namespace, runs one container, uses the name of the
ServiceAccount returned by the earlier create step with automount of the service-account
token set to true, and injects exactly three environment variables, in order:
`AGGREGATOR_NAME` = instance name, `PROJECT_TOKEN` = project token,
`AGGREGATOR_FLUENTBIT_CLOUD_URL` = cloud base URL. -/
theorem runCreateAggregatorOnK8s_deployment_spec (IsNotFound : GoError → Bool)
    (quote : String → String) (cfg : config) (kube : KubeLoader) (flags : K8sFlags)
    (clientset : Clientset) (created : CreatedAggregator)
    (ns : String) (obj : Deployment) (answer : Option GoError)
    (hcc : kube.ClientConfig = none) (hcs : kube.NewForConfig = .ok clientset)
    (hcreated : cfg.cloud.CreateAggregator
        { Name := flags.aggregatorName
          AddHealthCheckPipeline := !flags.noHealthCheckPipeline
          Version := ""
          EnvironmentID := flags.environmentID
          Tags := flags.tags } = .ok created)
    (hev : ⟨.CreateDeployment ns obj, answer⟩ ∈
      (runCreateAggregatorOnK8s IsNotFound quote cfg kube flags).k8sTrace) :
    ∃ (before : List K8sEvent) (serviceAccount : ServiceAccount),
      clientset.CreateServiceAccount before
          (commandClient cfg clientset flags).namespace_
          (serviceAccountObject (commandClient cfg clientset flags) created) =
            .ok serviceAccount ∧
        (before ++
          [⟨.CreateServiceAccount (commandClient cfg clientset flags).namespace_
            (serviceAccountObject (commandClient cfg clientset flags) created), none⟩]) <+:
          (runCreateAggregatorOnK8s IsNotFound quote cfg kube flags).k8sTrace ∧
        obj = deploymentObject (commandClient cfg clientset flags) created serviceAccount ∧
        ns = (if flags.kubeNamespace = "" then NamespaceDefault else flags.kubeNamespace) ∧
        obj.Spec.Replicas = some 1 ∧
        obj.Spec.Template.Spec.ServiceAccountName = serviceAccount.ObjectMeta.Name ∧
        obj.Spec.Template.Spec.AutomountServiceAccountToken = some true ∧
        obj.Spec.Template.Spec.Containers.length = 1 ∧
        obj.Spec.Template.Spec.Containers.map (fun container => container.Env) =
          [[{ Name := "AGGREGATOR_NAME", Value := created.Name },
            { Name := "PROJECT_TOKEN", Value := cfg.projectToken },
            { Name := "AGGREGATOR_FLUENTBIT_CLOUD_URL", Value := cfg.baseURL }]] := by
  have hns := ensureOwnNamespace_steps IsNotFound (commandClient cfg clientset flags)
  have hcases := runCreateAggregatorOnK8s_cases IsNotFound quote cfg kube flags clientset created
    hcc hcs hcreated _ _ _ _ _ _ rfl rfl rfl rfl rfl rfl
  have hnot : ¬ (⟨.CreateDeployment ns obj, answer⟩ : K8sEvent) ∈
      (ensureOwnNamespace IsNotFound (commandClient cfg clientset flags) []).2 := by
    intro h
    have := hns _ h
    simp [K8sCall.step] at this
  rcases hcases with ⟨err, _, _, htr⟩ | ⟨_, e, _, _, htr⟩ | ⟨_, cr, e, _, _, _, htr⟩ |
    ⟨_, cr, sa, e, h1, h2, _, _, htr⟩ | ⟨_, cr, sa, crb, e, h1, h2, _, _, _, htr⟩ |
    ⟨_, cr, sa, crb, dep, h1, h2, _, _, _, htr⟩
  · rw [htr] at hev
    exact absurd hev hnot
  · rw [htr] at hev
    rcases List.mem_append.mp hev with h | h
    · exact absurd h hnot
    · simp at h
  · rw [htr] at hev
    rcases List.mem_append.mp hev with h | h
    · exact absurd h hnot
    · simp at h
  · rw [htr] at hev
    rcases List.mem_append.mp hev with h | h
    · exact absurd h hnot
    · simp at h
  · rw [htr] at hev ⊢
    rcases List.mem_append.mp hev with h | h
    · exact absurd h hnot
    · simp at h
      obtain ⟨⟨hn, hobj⟩, _⟩ := h
      subst hn hobj
      exact ⟨_, sa, h2,
        ⟨[⟨.CreateClusterRoleBinding
              (clusterRoleBindingObject (commandClient cfg clientset flags) created cr sa), none⟩,
            ⟨.CreateDeployment (commandClient cfg clientset flags).namespace_
              (deploymentObject (commandClient cfg clientset flags) created sa), some e⟩],
          by simp⟩, rfl, rfl, rfl, rfl, rfl, rfl, rfl⟩
  · rw [htr] at hev ⊢
    rcases List.mem_append.mp hev with h | h
    · exact absurd h hnot
    · simp at h
      obtain ⟨⟨hn, hobj⟩, _⟩ := h
      subst hn hobj
      exact ⟨_, sa, h2,
        ⟨[⟨.CreateClusterRoleBinding
              (clusterRoleBindingObject (commandClient cfg clientset flags) created cr sa), none⟩,
            ⟨.CreateDeployment (commandClient cfg clientset flags).namespace_
              (deploymentObject (commandClient cfg clientset flags) created sa), none⟩],
          by simp⟩, rfl, rfl, rfl, rfl, rfl, rfl, rfl⟩

/-- C18: in the Deployment that `createDeployment` submits, the match labels of the
selector, the labels of the pod template and the labels of the Deployment are one and the
same map, the ownership labels `calyptia_project_id` and `calyptia_aggregator_id` of the
instance, so the selector matches the pods that the template produces. -/
theorem createDeployment_selector_matches_template (client : k8sClient)
    (trace : List K8sEvent) (agg : CreatedAggregator) (serviceAccount : ServiceAccount) :
    (createDeployment client trace agg serviceAccount).2 =
        trace ++
          [⟨.CreateDeployment client.namespace_ (deploymentObject client agg serviceAccount),
            errOf (createDeployment client trace agg serviceAccount).1⟩] ∧
      (deploymentObject client agg serviceAccount).ObjectMeta.Labels =
        [("calyptia_project_id", client.projectID), ("calyptia_aggregator_id", agg.ID)] ∧
      (deploymentObject client agg serviceAccount).Spec.Template.ObjectMeta.Labels =
        [("calyptia_project_id", client.projectID), ("calyptia_aggregator_id", agg.ID)] ∧
      (deploymentObject client agg serviceAccount).Spec.Selector =
        some { MatchLabels :=
          [("calyptia_project_id", client.projectID), ("calyptia_aggregator_id", agg.ID)] } ∧
      (deploymentObject client agg serviceAccount).Spec.Selector =
        some { MatchLabels :=
          (deploymentObject client agg serviceAccount).Spec.Template.ObjectMeta.Labels } :=
  ⟨rfl, rfl, rfl, rfl, rfl⟩

/-- On a cluster that hands back the account as `demo-service-account-x`, the Deployment
submitted for `demo` runs under that returned name, in namespace `default`, with the three
environment variables of the configuration. -/
theorem runCreateAggregatorOnK8s_deployment_spec_witness :
    (deploymentObject
          (commandClient (fixedConfig (.ok []) (.ok [])) (renamingClientset "-x") demoFlags)
          { ID := "id-demo", Name := "demo" }
          { ObjectMeta :=
              { Name := "demo-service-account-x"
                Labels :=
                  [("calyptia_project_id", "project"),
                    ("calyptia_aggregator_id", "id-demo")] } }).Spec.Template.Spec.Containers.map
        (fun container => container.Env) =
      [[{ Name := "AGGREGATOR_NAME", Value := "demo" },
        { Name := "PROJECT_TOKEN", Value := "token" },
        { Name := "AGGREGATOR_FLUENTBIT_CLOUD_URL",
          Value := "https://cloud-api.calyptia.com" }]] := by
  obtain ⟨_, _, _, _, _, _, _, _, _, _, henv⟩ :=
    runCreateAggregatorOnK8s_deployment_spec memIsNotFound sampleQuote
      (fixedConfig (.ok []) (.ok [])) (renamingKube "-x") demoFlags (renamingClientset "-x")
      { ID := "id-demo", Name := "demo" } "default"
      (deploymentObject
        (commandClient (fixedConfig (.ok []) (.ok [])) (renamingClientset "-x") demoFlags)
        { ID := "id-demo", Name := "demo" }
        { ObjectMeta :=
            { Name := "demo-service-account-x"
              Labels :=
                [("calyptia_project_id", "project"),
                  ("calyptia_aggregator_id", "id-demo")] } })
      none rfl rfl rfl (by decide)
  exact henv

/-! ## Bulk delete: lemmas -/

/-- Taking one element out of a list and putting it in front rearranges the list. -/
theorem getD_cons_eraseIdx_perm {α : Type} (l : List α) (i : Nat) (d : α) (h : i < l.length) :
    (l.getD i d :: l.eraseIdx i).Perm l := by
  induction l generalizing i with
  | nil => simp at h
  | cons x xs ih =>
    cases i with
    | zero => simp
    | succ j =>
      have hj : j < xs.length := by simpa using h
      have := ih j hj
      simp only [List.getD_cons_succ, List.eraseIdx_cons_succ]
      exact (List.Perm.swap x (xs.getD j d) (xs.eraseIdx j)).trans (this.cons x)

/-- Whatever the scheduler picks, every started goroutine runs exactly once. -/
theorem pickOrder_perm {α : Type} (picks : List Nat) (items : List α) :
    (pickOrder picks items).Perm items := by
  induction picks generalizing items with
  | nil => simp [pickOrder]
  | cons pick picks ih =>
    cases items with
    | nil => simp [pickOrder]
    | cons item items =>
      simp only [pickOrder]
      have hlt : pick % (items.length + 1) < (item :: items).length := by
        simp only [List.length_cons]
        exact Nat.mod_lt _ (Nat.succ_pos _)
      exact ((ih _).cons _).trans (getD_cons_eraseIdx_perm (item :: items) _ item hlt)

/-- The goroutines call `DeleteAgent` once for each agent handed to them, in their order
of execution. -/
theorem runDeleteTasks_ids (cfg : config) (tasks : List Agent)
    (done : List (String × Option GoError)) :
    (runDeleteTasks cfg tasks done).map Prod.fst =
      done.map Prod.fst ++ tasks.map (fun a => a.ID) := by
  induction tasks generalizing done with
  | nil => simp [runDeleteTasks]
  | cons a rest ih =>
    simp only [runDeleteTasks]
    rw [ih]
    simp

/-- The group reports no error exactly when every delete was answered without error. -/
theorem groupWait_eq_none_iff (quote : String → String)
    (deletes : List (String × Option GoError)) :
    groupWait quote deletes = none ↔ ∀ d ∈ deletes, d.2 = none := by
  unfold groupWait
  rw [List.findSome?_eq_none_iff]
  constructor
  · intro h d hd
    have := h d hd
    simpa [deleteTaskError] using this
  · intro h d hd
    simp [deleteTaskError, h d hd]

/-- The group reports the wrapped cause of the first delete that failed, in order of
completion. -/
theorem groupWait_first_failure (quote : String → String)
    (before after : List (String × Option GoError)) (agentID : String) (c : GoError)
    (hbefore : ∀ d ∈ before, d.2 = none) :
    groupWait quote (before ++ (agentID, some c) :: after) =
      some (errorfW ("could not delete agent " ++ quote agentID ++ ": ") c) := by
  unfold groupWait
  induction before with
  | nil => simp [deleteTaskError]
  | cons d rest ih =>
    have hd : d.2 = none := hbefore d (List.mem_cons_self d rest)
    have hrest : ∀ d2 ∈ rest, d2.2 = none := fun d2 h => hbefore d2 (List.mem_cons_of_mem d h)
    simp only [List.cons_append, List.findSome?_cons, deleteTaskError, hd, Option.map_none']
    exact ih hrest

/-- A list with a failed delete splits at its first failed delete. -/
theorem exists_first_failure (deletes : List (String × Option GoError))
    (h : ∃ d ∈ deletes, d.2 ≠ none) :
    ∃ before agentID c after, deletes = before ++ (agentID, some c) :: after ∧
      ∀ d ∈ before, d.2 = none := by
  induction deletes with
  | nil => simp at h
  | cons d rest ih =>
    obtain ⟨agentID, answer⟩ := d
    cases answer with
    | some c => exact ⟨[], agentID, c, rest, rfl, by simp⟩
    | none =>
      have h2 : ∃ d ∈ rest, d.2 ≠ none := by
        obtain ⟨d, hd, hne⟩ := h
        rcases List.mem_cons.mp hd with heq | hmem
        · subst heq
          simp at hne
        · exact ⟨d, hmem, hne⟩
      obtain ⟨before, agentID2, c, after, heq, hb⟩ := ih h2
      refine ⟨(agentID, none) :: before, agentID2, c, after, by simp [heq], ?_⟩
      intro d hd
      rcases List.mem_cons.mp hd with h3 | h3
      · subst h3
        rfl
      · exact hb d h3

/-- What a run of `delete agents` does once the listing has answered, some agent is
selected, and the deletion is confirmed by flag or by the answer `yes`. -/
theorem runDeleteAgents_of_confirmed (quote ToLower TrimSpace : String → String)
    (cfg : config) (flags : DeleteAgentsFlags) (world : DeleteAgentsWorld)
    (fetched : List Agent)
    (hlist : cfg.cloud.Agents cfg.projectID {} = .ok fetched)
    (hne : (if flags.inactive then onlyInactive world.now fetched else fetched) ≠ [])
    (hgo : flags.confirmed = true ∨
      (ignoreUnexpectedNewline world.scanln.2 = none ∧
        TrimSpace (ToLower world.scanln.1) = "yes")) :
    (runDeleteAgents quote ToLower TrimSpace cfg flags world).deletes =
        runDeleteTasks cfg
          (pickOrder world.picks
            (if flags.inactive then onlyInactive world.now fetched else fetched)) [] ∧
      (runDeleteAgents quote ToLower TrimSpace cfg flags world).err =
        groupWait quote (runDeleteAgents quote ToLower TrimSpace cfg flags world).deletes ∧
      (runDeleteAgents quote ToLower TrimSpace cfg flags world).cloudCalls =
        CloudCall.Agents cfg.projectID {} ::
          (runDeleteAgents quote ToLower TrimSpace cfg flags world).deletes.map
            (fun d => CloudCall.DeleteAgent d.1) := by
  unfold runDeleteAgents
  simp only [hlist]
  have hlen : ¬ (if flags.inactive then onlyInactive world.now fetched else fetched).length = 0 := by
    intro h
    exact hne (List.length_eq_zero.mp h)
  rw [if_neg hlen]
  have h1 : ¬ (flags.confirmed = false ∧ ignoreUnexpectedNewline world.scanln.2 ≠ none) := by
    rintro ⟨hc, hs⟩
    rcases hgo with h | h
    · rw [h] at hc
      exact absurd hc (by decide)
    · exact hs h.1
  have h2 : ¬ (flags.confirmed = false ∧ TrimSpace (ToLower world.scanln.1) ≠ "yes") := by
    rintro ⟨hc, hs⟩
    rcases hgo with h | h
    · rw [h] at hc
      exact absurd hc (by decide)
    · exact hs h.2
  rw [if_neg h1, if_neg h2]
  exact ⟨rfl, rfl, rfl⟩

/-! ## Bulk delete: the claims -/

/-- C19: in the bulk agent delete, one delete request is issued for every agent selected
for deletion, whichever of them fail and in whatever order the goroutines run, and the
command returns a non-nil error if and only if at least one delete fails. -/
theorem runDeleteAgents_deletes_every_selected (quote ToLower TrimSpace : String → String)
    (cfg : config) (flags : DeleteAgentsFlags) (world : DeleteAgentsWorld)
    (fetched : List Agent)
    (hlist : cfg.cloud.Agents cfg.projectID {} = .ok fetched)
    (hne : (if flags.inactive then onlyInactive world.now fetched else fetched) ≠ [])
    (hgo : flags.confirmed = true ∨
      (ignoreUnexpectedNewline world.scanln.2 = none ∧
        TrimSpace (ToLower world.scanln.1) = "yes")) :
    ((runDeleteAgents quote ToLower TrimSpace cfg flags world).deletes.map Prod.fst).Perm
        ((if flags.inactive then onlyInactive world.now fetched else fetched).map
          (fun a => a.ID)) ∧
      (runDeleteAgents quote ToLower TrimSpace cfg flags world).cloudCalls =
        CloudCall.Agents cfg.projectID {} ::
          (runDeleteAgents quote ToLower TrimSpace cfg flags world).deletes.map
            (fun d => CloudCall.DeleteAgent d.1) ∧
      ((runDeleteAgents quote ToLower TrimSpace cfg flags world).err ≠ none ↔
        ∃ d ∈ (runDeleteAgents quote ToLower TrimSpace cfg flags world).deletes, d.2 ≠ none) := by
  obtain ⟨hdel, herr, hcalls⟩ :=
    runDeleteAgents_of_confirmed quote ToLower TrimSpace cfg flags world fetched hlist hne hgo
  refine ⟨?_, hcalls, ?_⟩
  · rw [hdel, runDeleteTasks_ids]
    simpa using (pickOrder_perm world.picks _).map (fun a : Agent => a.ID)
  · rw [herr, Ne, groupWait_eq_none_iff]
    constructor
    · intro h
      by_contra hno
      apply h
      intro d hd
      by_contra hd2
      exact hno ⟨d, hd, hd2⟩
    · rintro ⟨d, hd, hne2⟩ h
      exact hne2 (h d hd)

/-- Five agents with the delete of `id-3` failing, confirmed by flag, and a scheduler that
runs the goroutines in the order 3, 1, 4, 2, 5: a request is issued for each of the five,
`id-1`, `id-2`, `id-4` and `id-5` included, and the command returns the failure of `id-3`. -/
theorem runDeleteAgents_deletes_every_selected_witness :
    ((runDeleteAgents sampleQuote id id
          (bulkConfig fiveAgents (fun agentID => if agentID = "id-3" then some (.plain "boom") else none))
          { inactive := false, confirmed := true }
          { now := fun _ => 0, scanln := ("", none), picks := [2, 0, 1] }).deletes.map
        Prod.fst).Perm ["id-1", "id-2", "id-3", "id-4", "id-5"] ∧
      (runDeleteAgents sampleQuote id id
          (bulkConfig fiveAgents (fun agentID => if agentID = "id-3" then some (.plain "boom") else none))
          { inactive := false, confirmed := true }
          { now := fun _ => 0, scanln := ("", none), picks := [2, 0, 1] }).deletes =
        [("id-3", some (.plain "boom")), ("id-1", none), ("id-4", none), ("id-2", none),
          ("id-5", none)] ∧
      (runDeleteAgents sampleQuote id id
          (bulkConfig fiveAgents (fun agentID => if agentID = "id-3" then some (.plain "boom") else none))
          { inactive := false, confirmed := true }
          { now := fun _ => 0, scanln := ("", none), picks := [2, 0, 1] }).err =
        some (.wrap "could not delete agent \"id-3\": boom" (.plain "boom")) :=
  ⟨(runDeleteAgents_deletes_every_selected sampleQuote id id
      (bulkConfig fiveAgents (fun agentID => if agentID = "id-3" then some (.plain "boom") else none))
      { inactive := false, confirmed := true }
      { now := fun _ => 0, scanln := ("", none), picks := [2, 0, 1] }
      fiveAgents rfl (by decide) (Or.inl rfl)).1,
    by decide, by decide⟩

/-- C20, as stated, fails: with the deletes of `id-2` and `id-4` failing for different
reasons, the error returned by the bulk agent delete is the failure of `id-2` alone; the
chain of errors it wraps holds `boom-2` and does not hold `boom-4`. -/
theorem bulk_delete_error_is_not_a_union :
    (runDeleteAgents sampleQuote id id (bulkConfig fiveAgents twoFailures)
          { inactive := false, confirmed := true }
          { now := fun _ => 0, scanln := ("", none), picks := [] }).deletes =
        [("id-1", none), ("id-2", some (.plain "boom-2")), ("id-3", none),
          ("id-4", some (.plain "boom-4")), ("id-5", none)] ∧
      (runDeleteAgents sampleQuote id id (bulkConfig fiveAgents twoFailures)
          { inactive := false, confirmed := true }
          { now := fun _ => 0, scanln := ("", none), picks := [] }).err =
        some (.wrap "could not delete agent \"id-2\": boom-2" (.plain "boom-2")) ∧
      ((runDeleteAgents sampleQuote id id (bulkConfig fiveAgents twoFailures)
          { inactive := false, confirmed := true }
          { now := fun _ => 0, scanln := ("", none), picks := [] }).err.map GoError.chain) =
        some [.wrap "could not delete agent \"id-2\": boom-2" (.plain "boom-2"),
          .plain "boom-2"] ∧
      ((runDeleteAgents sampleQuote id id (bulkConfig fiveAgents twoFailures)
          { inactive := false, confirmed := true }
          { now := fun _ => 0, scanln := ("", none), picks := [] }).err.map
            (fun e => decide (GoError.plain "boom-4" ∈ e.chain))) = some false := by
  decide

/-- C20, amended: when items of a bulk delete fail, the error returned reports one failure
only.  For agents it is the wrapped cause of the first delete that failed, in order of
completion (`could not delete agent <id>: <cause>`), and the errors it wraps are that
cause and what the cause wraps; for pipelines a single request carries all IDs and its
error is returned behind `delete pipelines: `. -/
theorem bulk_delete_reports_one_failure (quote ToLower TrimSpace : String → String)
    (cfg : config) (flags : DeleteAgentsFlags) (world : DeleteAgentsWorld)
    (fetched : List Agent)
    (pworld : PipelinesWorld) (pflags : DeletePipelinesFlags)
    (environmentID coreInstanceID : String) (pp : List Pipeline)
    (hlist : cfg.cloud.Agents cfg.projectID {} = .ok fetched)
    (hne : (if flags.inactive then onlyInactive world.now fetched else fetched) ≠ [])
    (hgo : flags.confirmed = true ∨
      (ignoreUnexpectedNewline world.scanln.2 = none ∧
        TrimSpace (ToLower world.scanln.1) = "yes"))
    (hfail : ∃ d ∈ (runDeleteAgents quote ToLower TrimSpace cfg flags world).deletes,
      d.2 ≠ none)
    (henv : (if pflags.environmentKey ≠ "" then pworld.LoadEnvironmentID pflags.environmentKey
      else .ok "") = .ok environmentID)
    (hcore : pworld.LoadCoreInstanceID pflags.coreInstanceKey environmentID = .ok coreInstanceID)
    (hpp : pworld.Pipelines { Last := some 0, CoreInstanceID := some coreInstanceID } = .ok pp)
    (hppne : pp ≠ [])
    (hpgo : pflags.confirmed = true ∨ pworld.confirmRead = .ok true) :
    (∃ before agentID c after,
        (runDeleteAgents quote ToLower TrimSpace cfg flags world).deletes =
          before ++ (agentID, some c) :: after ∧
        (∀ d ∈ before, d.2 = none) ∧
        (runDeleteAgents quote ToLower TrimSpace cfg flags world).err =
          some (errorfW ("could not delete agent " ++ quote agentID ++ ": ") c) ∧
        (errorfW ("could not delete agent " ++ quote agentID ++ ": ") c).chain =
          errorfW ("could not delete agent " ++ quote agentID ++ ": ") c :: c.chain) ∧
      ((runDeletePipelines pworld pflags).deleteCalls =
          [(coreInstanceID, pp.map (fun p => p.ID))] ∧
        (runDeletePipelines pworld pflags).err =
          (pworld.DeletePipelines coreInstanceID (pp.map (fun p => p.ID))).map
            (errorfW "delete pipelines: ")) := by
  constructor
  · obtain ⟨_, herr, _⟩ :=
      runDeleteAgents_of_confirmed quote ToLower TrimSpace cfg flags world fetched hlist hne hgo
    obtain ⟨before, agentID, c, after, hsplit, hbefore⟩ := exists_first_failure _ hfail
    refine ⟨before, agentID, c, after, hsplit, hbefore, ?_, rfl⟩
    rw [herr, hsplit]
    exact groupWait_first_failure quote before after agentID c hbefore
  · unfold runDeletePipelines
    simp only [henv, hcore, hpp]
    have hlen : ¬ pp.length = 0 := fun h => hppne (List.length_eq_zero.mp h)
    rw [if_neg hlen]
    rcases hpgo with h | h
    · simp only [h, if_true]
      cases hd : pworld.DeletePipelines coreInstanceID (pp.map (fun p => p.ID)) <;> simp
    · cases hc : pflags.confirmed
      · simp only [h]
        cases hd : pworld.DeletePipelines coreInstanceID (pp.map (fun p => p.ID)) <;> simp
      · simp only [if_true]
        cases hd : pworld.DeletePipelines coreInstanceID (pp.map (fun p => p.ID)) <;> simp

/-- With `id-2` and `id-4` failing among five agents, and with the bulk pipeline request
for `ci-1` refused, each command reports one failure: the pipeline command issues one
request for the three pipelines and returns its error behind `delete pipelines: `. -/
theorem bulk_delete_reports_one_failure_witness :
    (runDeletePipelines (samplePipelinesWorld (some (.plain "denied")))
          { confirmed := true, coreInstanceKey := "ci-1", environmentKey := "" }).deleteCalls =
        [("ci-1", ["p-1", "p-2", "p-3"])] ∧
      (runDeletePipelines (samplePipelinesWorld (some (.plain "denied")))
          { confirmed := true, coreInstanceKey := "ci-1", environmentKey := "" }).err =
        some (.wrap "delete pipelines: denied" (.plain "denied")) :=
  (bulk_delete_reports_one_failure sampleQuote id id (bulkConfig fiveAgents twoFailures)
    { inactive := false, confirmed := true }
    { now := fun _ => 0, scanln := ("", none), picks := [] } fiveAgents
    (samplePipelinesWorld (some (.plain "denied")))
    { confirmed := true, coreInstanceKey := "ci-1", environmentKey := "" }
    "" "ci-1"
    [{ ID := "p-1", Name := "one" }, { ID := "p-2", Name := "two" },
      { ID := "p-3", Name := "three" }]
    rfl (by decide) (Or.inl rfl)
    ⟨("id-2", some (.plain "boom-2")), by decide, by decide⟩
    rfl rfl rfl (by decide) (Or.inl rfl)).2

/-! ## Completion keys, once more: the claims -/

/-- C21, as stated, fails: for the listing `(id-1, name), (id-2, name), (id-3, other-name)`
of the test both functions return `[id-1, id-2, other-name]`, in which the IDs of the first
two entities come before the name of the third. -/
theorem keys_ids_before_a_name :
    aggregatorsKeys
        [{ ID := "id-1", Name := "name" }, { ID := "id-2", Name := "name" },
          { ID := "id-3", Name := "other-name" }] = ["id-1", "id-2", "other-name"] ∧
      agentsKeys
        [{ ID := "id-1", Name := "name" }, { ID := "id-2", Name := "name" },
          { ID := "id-3", Name := "other-name" }] = ["id-1", "id-2", "other-name"] ∧
      (["id-1", "id-2", "other-name"] : List String)[0]? =
        some (Aggregator.ID { ID := "id-1", Name := "name" }) ∧
      (["id-1", "id-2", "other-name"] : List String)[0]? ≠
        some (Aggregator.Name { ID := "id-1", Name := "name" }) ∧
      (["id-1", "id-2", "other-name"] : List String)[2]? =
        some (Aggregator.Name { ID := "id-3", Name := "other-name" }) ∧
      (["id-1", "id-2", "other-name"] : List String)[2]? ≠
        some (Aggregator.ID { ID := "id-3", Name := "other-name" }) := by
  decide

/-- C21, amended: `aggregatorsKeys` and `agentsKeys` keep the order of the listing: the
entry at each position is the key of the entity at that position, its name when the name
occurs once in the listing and its ID otherwise. -/
theorem keys_follow_listing_order (aa : List Aggregator) (bb : List Agent) (i : Nat) :
    (aggregatorsKeys aa)[i]? =
        (aa[i]?).map (fun a =>
          if (aa.map (fun b => b.Name)).count a.Name = 1 then a.Name else a.ID) ∧
      (agentsKeys bb)[i]? =
        (bb[i]?).map (fun a =>
          if (bb.map (fun b => b.Name)).count a.Name = 1 then a.Name else a.ID) := by
  rw [aggregatorsKeys_eq_map, agentsKeys_eq_map]
  simp

/-- C22, the code at the failing input: for two environments with distinct names
`environmentsKeys` returns their IDs, `["id-1", "id-2"]`, where the completion-key rule, the
comment above the function and the sibling functions `aggregatorsKeys` and `agentsKeys` on
the same IDs and names give the names, `["name-1", "name-2"]`. -/
theorem environmentsKeys_returns_ids_for_unique_names :
    environmentsKeys [{ ID := "id-1", Name := "name-1" }, { ID := "id-2", Name := "name-2" }] =
        ["id-1", "id-2"] ∧
      environmentsKeys [{ ID := "id-1", Name := "name-1" }, { ID := "id-2", Name := "name-2" }] ≠
        ["name-1", "name-2"] ∧
      aggregatorsKeys [{ ID := "id-1", Name := "name-1" }, { ID := "id-2", Name := "name-2" }] =
        ["name-1", "name-2"] ∧
      agentsKeys [{ ID := "id-1", Name := "name-1" }, { ID := "id-2", Name := "name-2" }] =
        ["name-1", "name-2"] := by
  decide

/-- The loop of `environmentsKeys` appends `a.ID` for every environment and never reads
`a.Name`: on every listing the result is the list of the IDs, in input order. -/
theorem environmentsKeys_eq_ids (aa : List Environment) :
    environmentsKeys aa = aa.map (fun a => a.ID) := by
  unfold environmentsKeys
  rw [foldl_append_eq_map (fun out (a : Environment) => out ++ [a.ID]) (fun a => a.ID) aa
    (fun _ _ _ => rfl) []]
  simp

/-- C26: `agentsKeys` and `aggregatorsKeys` are the same function up to the entity type:
applied to agents and to core instances with the same ID and name fields they return equal
lists, for every listing, the empty one and those with empty names included. -/
theorem agentsKeys_eq_aggregatorsKeys (agents : List Agent) (pairs : List (String × String)) :
    agentsKeys agents =
        aggregatorsKeys (agents.map (fun a => { ID := a.ID, Name := a.Name })) ∧
      agentsKeys (pairs.map (fun p => { ID := p.1, Name := p.2 })) =
        aggregatorsKeys (pairs.map (fun p => { ID := p.1, Name := p.2 })) ∧
      agentsKeys [] = aggregatorsKeys [] ∧
      agentsKeys [{ ID := "id-1", Name := "" }, { ID := "id-2", Name := "" },
          { ID := "id-3", Name := "n" }] =
        aggregatorsKeys [{ ID := "id-1", Name := "" }, { ID := "id-2", Name := "" },
          { ID := "id-3", Name := "n" }] := by
  refine ⟨?_, ?_, by decide, by decide⟩
  · rw [agentsKeys_eq_map, aggregatorsKeys_eq_map]
    simp [List.map_map, Function.comp_def]
  · rw [agentsKeys_eq_map, aggregatorsKeys_eq_map]
    simp [List.map_map, Function.comp_def]

/-! ## Keys and resolver: lemmas -/

/-- The number of occurrences of a name in a listing is the number of entities that a name
query finds. -/
theorem count_names_eq_length_filter {α : Type} (f : α → String) (l : List α) (n : String) :
    (l.map f).count n = (l.filter (fun a => decide (f a = n))).length := by
  induction l with
  | nil => simp
  | cons a rest ih =>
    by_cases h : f a = n
    · simp [List.filter_cons, h, ih]
    · have hb : (f a == n) = false := by simpa using h
      simp [List.filter_cons, h, ih, List.count_cons, hb]

/-- A name query capped at two has exactly one match when the name occurs once. -/
theorem capped_matches_one_iff {α : Type} (f : α → String) (l : List α) (n : String) :
    ((l.filter (fun a => decide (f a = n))).take 2).length = 1 ↔ (l.map f).count n = 1 := by
  rw [count_names_eq_length_filter, List.length_take]
  omega

/-- An entity of the listing is found by the query for its own name; when the capped query
has one match, that match is the entity. -/
theorem capped_matches_of_mem {α : Type} (f : α → String) (l : List α) (e : α) (he : e ∈ l) :
    (((l.filter (fun a => decide (f a = f e))).take 2).length = 1 →
        (l.filter (fun a => decide (f a = f e))).take 2 = [e]) ∧
      (((l.filter (fun a => decide (f a = f e))).take 2).length ≠ 1 →
        2 ≤ ((l.filter (fun a => decide (f a = f e))).take 2).length) := by
  have hmem : e ∈ l.filter (fun a => decide (f a = f e)) := by
    simp [List.mem_filter, he]
  generalize l.filter (fun a => decide (f a = f e)) = m at hmem
  match m, hmem with
  | [x], h => simp at h; simp [h]
  | x :: y :: rest, _ => simp

/-- C23: the completion keys follow the collision rule of the resolver.  For a directory
that answers a name query with the entities of the listing that carry exactly that name,
capped at two, the key functions emit the name of an entity exactly when the query for its
name has one match, and then the resolver maps that name to the ID of the entity; for an
entity whose ID is emitted the resolver refuses its name as ambiguous whenever the name is
not ID-shaped.  This holds for `aggregatorsKeys` with `loadAggregatorID` and for
`agentsKeys` with `loadAgentID`. -/
theorem keys_follow_resolver_rule (validUUID : String → Bool) (quote : String → String)
    (cfg : config) (L : List Aggregator) (M : List Agent) (environmentID : String)
    (e : Aggregator) (b : Agent)
    (hdirA : ∀ key, cfg.cloud.Aggregators cfg.projectID { Name := some key, Last := some 2 } =
      .ok ((L.filter (fun a => decide (a.Name = key))).take 2))
    (hdirB : ∀ key, cfg.cloud.Agents cfg.projectID
        { Last := some 2, Name := some key
          EnvironmentID := if environmentID = "" then none else some environmentID } =
      .ok ((M.filter (fun a => decide (a.Name = key))).take 2))
    (he : e ∈ L) (hb : b ∈ M) :
    (aggregatorsKeys L =
        L.map (fun a =>
          if ((L.filter (fun x => decide (x.Name = a.Name))).take 2).length = 1 then a.Name
          else a.ID) ∧
      (((L.filter (fun x => decide (x.Name = e.Name))).take 2).length = 1 →
        (loadAggregatorID validUUID quote cfg e.Name).ret = (e.ID, none)) ∧
      (((L.filter (fun x => decide (x.Name = e.Name))).take 2).length ≠ 1 →
        validUUID e.Name = false →
        (loadAggregatorID validUUID quote cfg e.Name).ret =
          ("", some (.plain
            ("ambiguous core instance name " ++ quote e.Name ++ ", use ID instead"))))) ∧
    (agentsKeys M =
        M.map (fun a =>
          if ((M.filter (fun x => decide (x.Name = a.Name))).take 2).length = 1 then a.Name
          else a.ID) ∧
      (((M.filter (fun x => decide (x.Name = b.Name))).take 2).length = 1 →
        (loadAgentID validUUID quote cfg b.Name environmentID).ret = (b.ID, none)) ∧
      (((M.filter (fun x => decide (x.Name = b.Name))).take 2).length ≠ 1 →
        validUUID b.Name = false →
        (loadAgentID validUUID quote cfg b.Name environmentID).ret =
          ("", some (.plain ("ambiguous agent name " ++ quote b.Name ++ ", use ID instead"))))) := by
  have hA := capped_matches_of_mem (fun a : Aggregator => a.Name) L e he
  have hB := capped_matches_of_mem (fun a : Agent => a.Name) M b hb
  beta_reduce at hA hB
  refine ⟨⟨?_, ?_, ?_⟩, ⟨?_, ?_, ?_⟩⟩
  · rw [aggregatorsKeys_eq_map]
    apply List.map_congr_left
    intro a _
    simp only [capped_matches_one_iff (fun a : Aggregator => a.Name) L a.Name]
  · intro h1
    rw [loadAggregatorID_ret_of_ok validUUID quote cfg e.Name _ (hdirA e.Name), hA.1 h1]
    simp
  · intro h1 hv
    rw [loadAggregatorID_ret_of_ok validUUID quote cfg e.Name _ (hdirA e.Name)]
    have h2 := hA.2 h1
    have hc : ((L.filter (fun x => decide (x.Name = e.Name))).take 2).length ≠ 1 ∧
        ¬ validUUID e.Name = true := ⟨h1, by simp [hv]⟩
    have hz : ((L.filter (fun x => decide (x.Name = e.Name))).take 2).length ≠ 0 := by omega
    rw [if_pos hc, if_pos hz]
  · rw [agentsKeys_eq_map]
    apply List.map_congr_left
    intro a _
    simp only [capped_matches_one_iff (fun a : Agent => a.Name) M a.Name]
  · intro h1
    rw [loadAgentID_ret_of_ok validUUID quote cfg b.Name environmentID _ (hdirB b.Name),
      hB.1 h1]
    simp
  · intro h1 hv
    rw [loadAgentID_ret_of_ok validUUID quote cfg b.Name environmentID _ (hdirB b.Name)]
    have h2 := hB.2 h1
    have hc : ((M.filter (fun x => decide (x.Name = b.Name))).take 2).length ≠ 1 ∧
        ¬ validUUID b.Name = true := ⟨h1, by simp [hv]⟩
    have hz : ((M.filter (fun x => decide (x.Name = b.Name))).take 2).length ≠ 0 := by omega
    rw [if_pos hc, if_pos hz]

/-- For the directory of the test listing `(id-1, name), (id-2, name), (id-3, other-name)`
the keys are `id-1`, `id-2` and `other-name`: `other-name` resolves to `id-3`, and the agents
of the same shape give the same keys. -/
theorem keys_follow_resolver_rule_witness :
    (aggregatorsKeys
          [{ ID := "id-1", Name := "name" }, { ID := "id-2", Name := "name" },
            { ID := "id-3", Name := "other-name" }] = ["id-1", "id-2", "other-name"] ∧
        (loadAggregatorID sampleValidUUID sampleQuote
          (directoryConfig
            [{ ID := "id-1", Name := "name" }, { ID := "id-2", Name := "name" },
              { ID := "id-3", Name := "other-name" }]
            [{ ID := "id-1", Name := "name" }, { ID := "id-2", Name := "name" },
              { ID := "id-3", Name := "other-name" }])
          "other-name").ret = ("id-3", none)) ∧
      (loadAgentID sampleValidUUID sampleQuote
          (directoryConfig
            [{ ID := "id-1", Name := "name" }, { ID := "id-2", Name := "name" },
              { ID := "id-3", Name := "other-name" }]
            [{ ID := "id-1", Name := "name" }, { ID := "id-2", Name := "name" },
              { ID := "id-3", Name := "other-name" }])
          "name" "").ret =
        ("", some (.plain "ambiguous agent name \"name\", use ID instead")) :=
  have h := keys_follow_resolver_rule sampleValidUUID sampleQuote
    (directoryConfig
      [{ ID := "id-1", Name := "name" }, { ID := "id-2", Name := "name" },
        { ID := "id-3", Name := "other-name" }]
      [{ ID := "id-1", Name := "name" }, { ID := "id-2", Name := "name" },
        { ID := "id-3", Name := "other-name" }])
    [{ ID := "id-1", Name := "name" }, { ID := "id-2", Name := "name" },
      { ID := "id-3", Name := "other-name" }]
    [{ ID := "id-1", Name := "name" }, { ID := "id-2", Name := "name" },
      { ID := "id-3", Name := "other-name" }]
    "" { ID := "id-3", Name := "other-name" } { ID := "id-1", Name := "name" }
    (fun _ => rfl) (fun _ => rfl) (by decide) (by decide)
  ⟨⟨h.1.1, h.1.2.1 (by decide)⟩, h.2.2.2 (by decide) (by decide)⟩

/-! ## Inactive agents and quotes: lemmas -/

/-- The loop of `onlyInactive` keeps, in order, the agents that pass its test. -/
theorem onlyInactive_foldl (now : Nat → Int) (l : List (Nat × Agent)) (init : List Agent) :
    l.foldl
        (fun onlyInactive ia =>
          if ia.2.LastMetricsAddedAt = 0 ∨ ia.2.LastMetricsAddedAt < now ia.1 + Minute * (-5) then
            onlyInactive ++ [ia.2]
          else onlyInactive)
        init =
      init ++ (l.filter (fun ia =>
        decide (ia.2.LastMetricsAddedAt = 0 ∨
          ia.2.LastMetricsAddedAt < now ia.1 + Minute * (-5)))).map Prod.snd := by
  induction l generalizing init with
  | nil => simp
  | cons ia rest ih =>
    rw [List.foldl_cons, ih, List.filter_cons]
    by_cases h : ia.2.LastMetricsAddedAt = 0 ∨ ia.2.LastMetricsAddedAt < now ia.1 + Minute * (-5)
    · rw [if_pos h, if_pos (decide_eq_true h)]
      simp
    · rw [if_neg h, if_neg (by rw [decide_eq_false h]; decide)]

/-- With one reading of the clock for all iterations, `onlyInactive` is a filter. -/
theorem onlyInactive_eq_filter (now : Nat → Int) (current : Int) (hnow : ∀ i, now i = current)
    (aa : List Agent) :
    onlyInactive now aa =
      aa.filter (fun a =>
        decide (a.LastMetricsAddedAt = 0 ∨ a.LastMetricsAddedAt < current - 5 * Minute)) := by
  unfold onlyInactive
  rw [onlyInactive_foldl]
  have hfun : (fun ia : Nat × Agent =>
      decide (ia.2.LastMetricsAddedAt = 0 ∨
        ia.2.LastMetricsAddedAt < now ia.1 + Minute * (-5))) =
      (fun a : Agent =>
        decide (a.LastMetricsAddedAt = 0 ∨ a.LastMetricsAddedAt < current - 5 * Minute)) ∘
        Prod.snd := by
    funext ia
    have : now ia.1 + Minute * (-5) = current - 5 * Minute := by rw [hnow]; ring
    simp only [Function.comp_apply, this]
  rw [hfun, List.nil_append, ← List.filter_map, List.enum_map_snd]

/-- The status of an agent is other than `active` exactly when the agent was never seen or
was last seen more than five minutes before the reading of the clock. -/
theorem agentStatus_ne_active_iff (fmtDuration : Int → String) (current t : Int) :
    agentStatus fmtDuration (fun _ => current) t (Minute * (-5)) ≠ "active" ↔
      (t = 0 ∨ t < current - 5 * Minute) := by
  have hrw : current + Minute * (-5) = current - 5 * Minute := by ring
  unfold agentStatus
  rw [hrw]
  by_cases h0 : t = 0
  · simp only [h0, if_true, true_or, iff_true]
    decide
  · by_cases h1 : t < current - 5 * Minute
    · simp only [h0, h1, if_false, if_true, or_true, iff_true]
      intro h
      have hd := congrArg String.data h
      rw [String.data_append] at hd
      have hh := congrArg List.head? hd
      simp at hh
    · simp [h0, h1]

/-- The selection of the bulk agent delete in terms of the flag variable `inactive`: with
one reading `current` of the clock, the deletes run over the fetched agents, in input
order, whose `LastMetricsAddedAt` is zero or strictly before `current` minus five minutes
when the variable is `true`, and over every fetched agent when it is `false`; the test of
the filter holds exactly when `agentStatus` with start `-5` minutes is not `active`. -/
theorem runDeleteAgents_selection_of_flag (quote ToLower TrimSpace : String → String)
    (fmtDuration : Int → String) (cfg : config) (flags : DeleteAgentsFlags)
    (world : DeleteAgentsWorld) (fetched : List Agent) (current : Int)
    (hlist : cfg.cloud.Agents cfg.projectID {} = .ok fetched)
    (hnow : ∀ i, world.now i = current)
    (hne : (if flags.inactive then onlyInactive world.now fetched else fetched) ≠ [])
    (hgo : flags.confirmed = true ∨
      (ignoreUnexpectedNewline world.scanln.2 = none ∧
        TrimSpace (ToLower world.scanln.1) = "yes")) :
    (runDeleteAgents quote ToLower TrimSpace cfg flags world).deletes =
        runDeleteTasks cfg
          (pickOrder world.picks
            (if flags.inactive then
              fetched.filter (fun a =>
                decide (a.LastMetricsAddedAt = 0 ∨ a.LastMetricsAddedAt < current - 5 * Minute))
            else fetched)) [] ∧
      ((runDeleteAgents quote ToLower TrimSpace cfg flags world).deletes.map Prod.fst).Perm
        ((if flags.inactive then
            fetched.filter (fun a =>
              decide (a.LastMetricsAddedAt = 0 ∨ a.LastMetricsAddedAt < current - 5 * Minute))
          else fetched).map (fun a => a.ID)) ∧
      onlyInactive world.now fetched =
        fetched.filter (fun a =>
          decide (a.LastMetricsAddedAt = 0 ∨ a.LastMetricsAddedAt < current - 5 * Minute)) ∧
      (∀ a : Agent,
        (a.LastMetricsAddedAt = 0 ∨ a.LastMetricsAddedAt < current - 5 * Minute) ↔
          agentStatus fmtDuration (fun _ => current) a.LastMetricsAddedAt (Minute * (-5)) ≠
            "active") := by
  obtain ⟨hdel, _, _⟩ :=
    runDeleteAgents_of_confirmed quote ToLower TrimSpace cfg flags world fetched hlist hne hgo
  have hfil := onlyInactive_eq_filter world.now current hnow fetched
  rw [hfil] at hdel
  refine ⟨hdel, ?_, hfil, fun a => (agentStatus_ne_active_iff fmtDuration current _).symm⟩
  rw [hdel, runDeleteTasks_ids]
  simpa using (pickOrder_perm world.picks _).map (fun a : Agent => a.ID)

/-- C27, as stated, fails: the flag `--inactive` is registered with default `true`, so a
run in which it is not given selects the inactive agents only.  At minute 100, of five
fetched agents seen never, at minute 90, 95, 96 and 100, the run with `-y` and no
`--inactive` deletes `id-1` and `id-2`, not every fetched agent. -/
theorem delete_agents_without_inactive_flag_keeps_active :
    (deleteAgentsFlags { inactive := none, yes := some true }).inactive = true ∧
      (runDeleteAgents sampleQuote id id (bulkConfig agentsSeenAt (fun _ => none))
          (deleteAgentsFlags { inactive := none, yes := some true })
          { now := fun _ => 100 * Minute, scanln := ("", none), picks := [] }).deletes =
        [("id-1", none), ("id-2", none)] ∧
      (runDeleteAgents sampleQuote id id (bulkConfig agentsSeenAt (fun _ => none))
          (deleteAgentsFlags { inactive := none, yes := some true })
          { now := fun _ => 100 * Minute, scanln := ("", none), picks := [] }).deletes.map
            Prod.fst ≠ agentsSeenAt.map (fun a => a.ID) ∧
      agentsSeenAt.map (fun a => a.ID) = ["id-1", "id-2", "id-3", "id-4", "id-5"] := by
  decide

/-- C27, amended: in the bulk agent delete with one reading `current` of the clock, when
`--inactive` is given as true or is not given at all (the flag defaults to `true`), the
agents selected for deletion are exactly the fetched agents, in input order, whose
`LastMetricsAddedAt` is zero or strictly before `current` minus five minutes; an agent is
selected if and only if `agentStatus` with start `-5` minutes at the same reading is not
`active`; only with `--inactive=false` every fetched agent is selected. -/
theorem runDeleteAgents_selects_inactive (quote ToLower TrimSpace : String → String)
    (fmtDuration : Int → String) (cfg : config) (args : DeleteAgentsArgs)
    (world : DeleteAgentsWorld) (fetched : List Agent) (current : Int)
    (hlist : cfg.cloud.Agents cfg.projectID {} = .ok fetched)
    (hnow : ∀ i, world.now i = current)
    (hne : (if args.inactive = some false then fetched else onlyInactive world.now fetched) ≠ [])
    (hgo : args.yes = some true ∨
      (ignoreUnexpectedNewline world.scanln.2 = none ∧
        TrimSpace (ToLower world.scanln.1) = "yes")) :
    (runDeleteAgents quote ToLower TrimSpace cfg (deleteAgentsFlags args) world).deletes =
        runDeleteTasks cfg
          (pickOrder world.picks
            (if args.inactive = some false then fetched
            else
              fetched.filter (fun a =>
                decide (a.LastMetricsAddedAt = 0 ∨ a.LastMetricsAddedAt < current - 5 * Minute))))
          [] ∧
      ((runDeleteAgents quote ToLower TrimSpace cfg (deleteAgentsFlags args) world).deletes.map
          Prod.fst).Perm
        ((if args.inactive = some false then fetched
          else
            fetched.filter (fun a =>
              decide (a.LastMetricsAddedAt = 0 ∨ a.LastMetricsAddedAt < current - 5 * Minute))).map
          (fun a => a.ID)) ∧
      onlyInactive world.now fetched =
        fetched.filter (fun a =>
          decide (a.LastMetricsAddedAt = 0 ∨ a.LastMetricsAddedAt < current - 5 * Minute)) ∧
      (∀ a : Agent,
        (a.LastMetricsAddedAt = 0 ∨ a.LastMetricsAddedAt < current - 5 * Minute) ↔
          agentStatus fmtDuration (fun _ => current) a.LastMetricsAddedAt (Minute * (-5)) ≠
            "active") := by
  have hflag : (deleteAgentsFlags args).inactive = !decide (args.inactive = some false) := by
    rcases args with ⟨_ | _ | _, y⟩ <;> rfl
  have hyes : (deleteAgentsFlags args).confirmed = true ↔ args.yes = some true := by
    rcases args with ⟨i, _ | _ | _⟩ <;> simp [deleteAgentsFlags]
  have hne2 : (if (deleteAgentsFlags args).inactive then onlyInactive world.now fetched
      else fetched) ≠ [] := by
    rw [hflag]
    by_cases h : args.inactive = some false
    · rw [if_pos h] at hne
      simpa [h] using hne
    · rw [if_neg h] at hne
      simpa [h] using hne
  have hgo2 : (deleteAgentsFlags args).confirmed = true ∨
      (ignoreUnexpectedNewline world.scanln.2 = none ∧
        TrimSpace (ToLower world.scanln.1) = "yes") :=
    hgo.imp hyes.2 id
  obtain ⟨h1, h2, h3, h4⟩ :=
    runDeleteAgents_selection_of_flag quote ToLower TrimSpace fmtDuration cfg
      (deleteAgentsFlags args) world fetched current hlist hnow hne2 hgo2
  rw [hflag] at h1 h2
  by_cases h : args.inactive = some false
  · rw [if_pos h]
    simp only [h, decide_True, Bool.not_true] at h1 h2
    exact ⟨by simpa using h1, by simpa using h2, h3, h4⟩
  · rw [if_neg h]
    simp only [h, decide_False, Bool.not_false, if_true] at h1 h2
    exact ⟨h1, h2, h3, h4⟩

/-- At minute 100, of five agents seen never, at minute 90, 95, 96 and 100: without
`--inactive` the first two are selected, the one seen exactly five minutes ago is not; with
`--inactive=false` all five are. -/
theorem runDeleteAgents_selects_inactive_witness :
    (runDeleteAgents sampleQuote id id (bulkConfig agentsSeenAt (fun _ => none))
          (deleteAgentsFlags { inactive := none, yes := some true })
          { now := fun _ => 100 * Minute, scanln := ("", none), picks := [] }).deletes =
        runDeleteTasks (bulkConfig agentsSeenAt (fun _ => none))
          [{ ID := "id-1", Name := "a1" },
            { ID := "id-2", Name := "a2", LastMetricsAddedAt := 90 * Minute }] [] ∧
      (runDeleteAgents sampleQuote id id (bulkConfig agentsSeenAt (fun _ => none))
          (deleteAgentsFlags { inactive := some false, yes := some true })
          { now := fun _ => 100 * Minute, scanln := ("", none), picks := [] }).deletes =
        runDeleteTasks (bulkConfig agentsSeenAt (fun _ => none)) agentsSeenAt [] :=
  ⟨(runDeleteAgents_selects_inactive sampleQuote id id (fun _ => "")
      (bulkConfig agentsSeenAt (fun _ => none)) { inactive := none, yes := some true }
      { now := fun _ => 100 * Minute, scanln := ("", none), picks := [] }
      agentsSeenAt (100 * Minute) rfl (fun _ => rfl) (by decide) (Or.inl rfl)).1,
    (runDeleteAgents_selects_inactive sampleQuote id id (fun _ => "")
      (bulkConfig agentsSeenAt (fun _ => none)) { inactive := some false, yes := some true }
      { now := fun _ => 100 * Minute, scanln := ("", none), picks := [] }
      agentsSeenAt (100 * Minute) rfl (fun _ => rfl) (by decide) (Or.inl rfl)).1⟩

/-- C28: `trimQuotes` removes exactly one pair of enclosing quotes and nothing else: a
string of at least two bytes whose first and last byte are equal and are one of the double
quote (34), the single quote (39) or the backquote (96) comes back without its first and
last byte, and every other string comes back unchanged. -/
theorem trimQuotes_removes_one_enclosing_pair (s : List Nat) :
    trimQuotes s =
        (if 2 ≤ s.length ∧ s.head? = s.getLast? ∧
            (s.getLast? = some 34 ∨ s.getLast? = some 39 ∨ s.getLast? = some 96) then
          s.dropLast.tail
        else s) ∧
      trimQuotes [34, 97, 98, 99, 34] = [97, 98, 99] ∧
      trimQuotes [34, 34, 97, 34, 34] = [34, 97, 34] ∧
      trimQuotes [39, 97, 34] = [39, 97, 34] ∧
      trimQuotes [97, 34, 34, 97] = [97, 34, 34, 97] ∧
      trimQuotes [96] = [96] ∧
      trimQuotes [96, 96] = [] ∧
      trimQuotes [] = [] := by
  refine ⟨?_, by decide, by decide, by decide, by decide, by decide, by decide, by decide⟩
  match s with
  | [] => simp [trimQuotes]
  | [a] => simp [trimQuotes]
  | a :: b :: rest =>
    have hlast : (a :: b :: rest).getD ((a :: b :: rest).length - 1) 0 =
        (b :: rest).getLast (by simp) := by
      rw [List.getD_eq_getElem?_getD, ← List.getLast?_eq_getElem?]
      simp [List.getLast?_eq_getLast]
    have hlast2 : (a :: b :: rest).getLast? = some ((b :: rest).getLast (by simp)) := by
      simp [List.getLast?_eq_getLast]
    have hlen : 2 ≤ (a :: b :: rest).length := by simp
    unfold trimQuotes
    rw [if_pos hlen]
    simp only [hlast, hlast2, List.head?_cons, List.getD_cons_zero, Option.some.injEq, hlen,
      true_and]
    by_cases hc : a = (b :: rest).getLast (by simp) ∧
        ((b :: rest).getLast (by simp) = 34 ∨ (b :: rest).getLast (by simp) = 39 ∨
          (b :: rest).getLast (by simp) = 96)
    · rw [if_pos hc, if_pos hc, List.dropLast_eq_take]
      simp
    · rw [if_neg hc, if_neg hc]

/-! ## Paths and listings: lemmas and claims -/

/-- What the loop of `filepath.Ext` returns is a suffix of the path it scans. -/
theorem extScan_suffix (before after : List Char) :
    extScan before after <:+ before.reverse ++ after := by
  induction before generalizing after with
  | nil => simp [extScan]
  | cons c rest ih =>
    unfold extScan
    by_cases h1 : c = '/'
    · simp [h1]
    · by_cases h2 : c = '.'
      · simp only [h1, h2, if_false, if_true, List.reverse_cons, List.append_assoc,
          List.singleton_append]
        exact List.suffix_append _ _
      · simp only [h1, h2, if_false, List.reverse_cons, List.append_assoc,
          List.singleton_append]
        exact ih (c :: after)

/-- The extension of a path is a suffix of the path. -/
theorem Ext_suffix (path : String) : (Ext path).data <:+ path.data := by
  have h := extScan_suffix path.data.reverse []
  simpa [Ext] using h

/-- Removing the extension and putting it back gives the path. -/
theorem TrimSuffix_Ext_append (path : String) :
    (TrimSuffix path (Ext path)).data ++ (Ext path).data = path.data := by
  have h := Ext_suffix path
  unfold TrimSuffix
  rw [if_pos h]
  obtain ⟨pre, hpre⟩ := h
  rw [← hpre]
  simp

/-- C24: the name under which `create pipeline_file` registers a file is the base name of
the given path without its extension: `filepath.Base` of the path with the final extension
of that base name, as given by `filepath.Ext`, removed from its end; the path
`some_dir/my_file.txt` is registered as `my_file`. -/
theorem runCreatePipelineFile_name (world : PipelineFileWorld) (flags : PipelineFileFlags)
    (contents pipelineID : String)
    (hread : world.ReadFile flags.file = .ok contents)
    (hload : world.LoadPipelineID flags.pipelineKey = .ok pipelineID) :
    (runCreatePipelineFile world flags).created =
        [(pipelineID,
          { Name := TrimSuffix (Base flags.file) (Ext (Base flags.file))
            Contents := contents
            Encrypted := flags.encrypt })] ∧
      (TrimSuffix (Base flags.file) (Ext (Base flags.file))).data ++
          (Ext (Base flags.file)).data = (Base flags.file).data ∧
      TrimSuffix (Base "some_dir/my_file.txt") (Ext (Base "some_dir/my_file.txt")) =
        "my_file" := by
  refine ⟨?_, TrimSuffix_Ext_append _, by decide⟩
  unfold runCreatePipelineFile
  simp only [hread, hload]
  cases world.CreatePipelineFile pipelineID
      { Name := TrimSuffix (Base flags.file) (Ext (Base flags.file))
        Contents := contents
        Encrypted := flags.encrypt } <;> rfl

/-- The file `some_dir/my_file.txt` is registered under the name `my_file`. -/
theorem runCreatePipelineFile_name_witness :
    (runCreatePipelineFile samplePipelineFileWorld
          { pipelineKey := "p-1", file := "some_dir/my_file.txt", encrypt := false
            outputFormat := "table", goTemplate := "" }).created =
        [("p-1", { Name := "my_file", Contents := "contents", Encrypted := false })] :=
  (runCreatePipelineFile_name samplePipelineFileWorld
    { pipelineKey := "p-1", file := "some_dir/my_file.txt", encrypt := false
      outputFormat := "table", goTemplate := "" }
    "contents" "p-1" rfl rfl).1

/-- C25, as stated, fails: when the listing fails with `internal error`, the error that
`get instances` returns is not that error but a new one that wraps it behind
`could not fetch your core instances: `. -/
theorem get_instances_error_is_wrapped :
    (runGetAggregators (fun _ _ => "") (fun _ => .ok "") sampleQuote
          (fixedConfig (.error (.plain "internal error")) (.ok []))
          { last := 0, format := "table", showIDs := false }).err =
        some (.wrap "could not fetch your core instances: internal error"
          (.plain "internal error")) ∧
      (runGetAggregators (fun _ _ => "") (fun _ => .ok "") sampleQuote
          (fixedConfig (.error (.plain "internal error")) (.ok []))
          { last := 0, format := "table", showIDs := false }).err ≠
        some (.plain "internal error") := by
  decide

/-- C25, amended: for every error `e` returned by the core-instance listing call, the
`get instances` command fails with an error that wraps `e`: its message is
`could not fetch your core instances: ` followed by the message of `e`, unwrapping it
gives `e`; and the command renders no table or JSON output. -/
theorem runGetAggregators_listing_error (renderTable : Bool → List Aggregator → String)
    (jsonEncode : List Aggregator → Except GoError String) (quote : String → String)
    (cfg : config) (flags : GetAggregatorsFlags) (e : GoError)
    (hlist : cfg.cloud.Aggregators cfg.projectID { Last := some flags.last } = .error e) :
    (runGetAggregators renderTable jsonEncode quote cfg flags).err =
        some (.wrap ("could not fetch your core instances: " ++ e.Error) e) ∧
      (GoError.wrap ("could not fetch your core instances: " ++ e.Error) e).Unwrap = some e ∧
      e ∈ (GoError.wrap ("could not fetch your core instances: " ++ e.Error) e).chain ∧
      (runGetAggregators renderTable jsonEncode quote cfg flags).output = [] := by
  unfold runGetAggregators
  simp only [hlist]
  exact ⟨rfl, rfl, mem_chain_errorfW _ _ _ (GoError.mem_chain_self e), trivial⟩

/-- With the listing failing with `internal error`, nothing is rendered and the error
returned carries that error inside. -/
theorem runGetAggregators_listing_error_witness :
    (runGetAggregators (fun _ _ => "") (fun _ => .ok "") sampleQuote
          (fixedConfig (.error (.plain "internal error")) (.ok []))
          { last := 0, format := "json", showIDs := false }).err =
        some (.wrap "could not fetch your core instances: internal error"
          (.plain "internal error")) ∧
      (runGetAggregators (fun _ _ => "") (fun _ => .ok "") sampleQuote
          (fixedConfig (.error (.plain "internal error")) (.ok []))
          { last := 0, format := "json", showIDs := false }).output = [] :=
  have h := runGetAggregators_listing_error (fun _ _ => "") (fun _ => .ok "") sampleQuote
    (fixedConfig (.error (.plain "internal error")) (.ok []))
    { last := 0, format := "json", showIDs := false } (.plain "internal error") rfl
  ⟨h.1, h.2.2.2⟩

end CloudCli
